import Mathlib

/-!
# Switchres XRANDR video layer (`custom_video_xrandr.cpp`)

A shallow embedding of `xrandr_timing` : construction and discovery (`init`),
the mode lifecycle operations (`add_mode`, `delete_mode`, `update_mode`,
`find_mode`), the mode enumerator `get_timing` and the CRTC layout
transaction `set_timing`, over an explicit model of the display server.

Conventions of the embedding.

* C `int` and `unsigned int` values are mathematical integers; every C
  arithmetic expression is wrapped the way a 32 bit machine evaluates it
  (`u32`, `i32`).
* A dereference of a null pointer or an index outside an array is the result
  `none`.
* The display server is part of the state.  A request either takes effect or
  faults; a faulting request leaves the server unchanged and calls the error
  handler that is installed at that moment.  Which requests fault is an input
  of every operation.  Requests are delivered at once, so `XSync` has no
  effect of its own.
* A set-config request can also be refused in its reply, with no X error;
  `set_timing_reply` is `set_timing` with that third answer.
* `find_mode` is the descriptor found, by value; `find_mode_pointer` is the
  function with the storage it fetches and releases.  `sprintf_name` is the
  name buffer of `add_mode`.
* Every request that changes the server is appended to `State.calls`.
-/

namespace Switchres

/-! ## Machine integers -/

/-- Value of an integer expression converted to C `unsigned int`. -/
def u32 (z : Int) : Nat := (z % 4294967296).toNat

/-- Value of an integer expression converted to C `int` (two's complement). -/
def i32 (z : Int) : Int := (z + 2147483648) % 4294967296 - 2147483648

/-! ## Constants of `X11/extensions/randr.h` -/

def RR_HSyncPositive : Nat := 0x01
def RR_HSyncNegative : Nat := 0x02
def RR_VSyncPositive : Nat := 0x04
def RR_VSyncNegative : Nat := 0x08
def RR_Interlace : Nat := 0x10
def RR_DoubleScan : Nat := 0x20
def RR_Rotate_0 : Nat := 1
def RR_Rotate_90 : Nat := 2
def RR_Rotate_270 : Nat := 8
def RR_Connected : Nat := 0

/-! ## Data model -/

/-- Mode descriptor of the server (`XRRModeInfo`). -/
structure XRRModeInfo where
  id : Nat
  width : Nat
  height : Nat
  dotClock : Nat
  hSyncStart : Nat
  hSyncEnd : Nat
  hTotal : Nat
  hSkew : Nat
  vSyncStart : Nat
  vSyncEnd : Nat
  vTotal : Nat
  name : String
  modeFlags : Nat
deriving DecidableEq, Repr

/-- Controller snapshot (`XRRCrtcInfo`); `outputs` carries `noutput` as its length. -/
structure XRRCrtcInfo where
  timestamp : Nat
  x : Int
  y : Int
  width : Nat
  height : Nat
  mode : Nat
  rotation : Nat
  outputs : List Nat
deriving DecidableEq, Repr

/-- Output snapshot (`XRROutputInfo`); `modes` carries `nmode` as its length. -/
structure XRROutputInfo where
  name : String
  connection : Nat
  crtc : Nat
  modes : List Nat
deriving DecidableEq, Repr

/-- Modelled from the spec: the caller's timing record `modeline`, declared in
`modeline.h`, which is not among the sources.  The fields are those this unit
reads and writes: `int` geometry and flags, 64 bit `pclock` and
`platform_data`, `double` frequencies (kept as rationals), the `type` bitset. -/
structure modeline where
  pclock : Nat
  hactive : Int
  hbegin : Int
  hend : Int
  htotal : Int
  vactive : Int
  vbegin : Int
  vend : Int
  vtotal : Int
  interlace : Int
  doublescan : Int
  hsync : Int
  vsync : Int
  vfreq : Rat
  hfreq : Rat
  width : Int
  height : Int
  refresh : Rat
  type : Nat
  platform_data : Nat
deriving DecidableEq

/-- What the headers `modeline.h` and `custom_video.h`, and the C library, supply:
the classification bits and the rendering of a `double` by `%f`. -/
structure Header where
  MODE_DESKTOP : Nat
  MODE_ROTATED : Nat
  CUSTOM_VIDEO_TIMING_XRANDR : Nat
  fmt_f : Rat → String

/-- The error handler installed in the X library: the static `error_handler`
of this unit, or one installed by somebody else. -/
inductive Handler where
  | foreign (n : Nat)
  | error_handler
deriving DecidableEq, Repr

/-- Requests that change the display server. -/
inductive Call where
  | XGrabServer
  | XUngrabServer
  | XRRSetCrtcConfig (crtc : Nat) (x y : Int) (mode rotation : Nat) (outputs : List Nat)
  | XRRSetScreenSize (width height : Nat)
  | XRRCreateMode (xmode : XRRModeInfo)
  | XRRAddOutputMode (output mode : Nat)
  | XRRDeleteOutputMode (output mode : Nat)
  | XRRDestroyMode (mode : Nat)
deriving DecidableEq, Repr

/-- Members of one `xrandr_timing` instance as the code uses them (the class is
declared in `custom_video_xrandr.h`), the statics of the unit
(`m_xerrors`, `m_xerrors_flag`, `old_error_handler`), and the display server
the instance is connected to: installed error handler, live modes,
controllers and outputs by id, frame-buffer size, the next resource id the
library allocates, and the requests issued so far. -/
structure State where
  m_id : Int
  m_desktop_output : Int
  m_desktop_mode : XRRModeInfo
  m_last_crtc : XRRCrtcInfo
  m_crtc_flags : Nat
  m_video_modes_position : Int
  m_xerrors : Nat
  m_xerrors_flag : Nat
  old_error_handler : Handler
  handler : Handler
  modes : List XRRModeInfo
  crtcs : List (Nat × XRRCrtcInfo)
  outputs : List (Nat × XRROutputInfo)
  screen_width : Nat
  screen_height : Nat
  next_id : Nat
  calls : List Call
deriving DecidableEq

/-! ## The display server -/

/-- Model of `XRRGetCrtcInfo`: the snapshot of controller `crtc`, `none` (NULL) for an unknown id. -/
def XRRGetCrtcInfo (s : State) (crtc : Nat) : Option XRRCrtcInfo :=
  (s.crtcs.find? (fun e => e.1 == crtc)).map (fun e => e.2)

/-- Model of `XRRGetOutputInfo`: the snapshot of output `output`, `none` (NULL) for an unknown id. -/
def XRRGetOutputInfo (s : State) (output : Nat) : Option XRROutputInfo :=
  (s.outputs.find? (fun e => e.1 == output)).map (fun e => e.2)

/-- The expression `resources->outputs[o]`. -/
def resources_output (s : State) (o : Int) : Option Nat :=
  if o < 0 then none else (s.outputs.get? o.toNat).map (fun e => e.1)

/-- Model of `XSetErrorHandler`: installs `h`, returns the handler it replaces. -/
def XSetErrorHandler (s : State) (h : Handler) : Handler × State :=
  (s.handler, { s with handler := h })

/-- Delivery of a fault: the static `error_handler` ors the current flag into
`m_xerrors`; a foreign handler leaves the statics of this unit alone. -/
def deliver (fault : Bool) (s : State) : State :=
  if fault && s.handler == Handler.error_handler then
    { s with m_xerrors := s.m_xerrors ||| s.m_xerrors_flag }
  else s

/-- Size the server gives a controller that shows `mode` under `rotation`. -/
def scanout_size (s : State) (mode rotation : Nat) : Nat × Nat :=
  match s.modes.find? (fun m => m.id == mode) with
  | none => (0, 0)
  | some m =>
    if rotation &&& (RR_Rotate_90 ||| RR_Rotate_270) != 0 then (m.height, m.width)
    else (m.width, m.height)

/-- Server side of a successful `XRRSetCrtcConfig` on one table entry. -/
def config_crtc (s : State) (crtc : Nat) (x y : Int) (mode rotation : Nat) (outputs : List Nat)
    (e : Nat × XRRCrtcInfo) : Nat × XRRCrtcInfo :=
  if e.1 == crtc then
    (e.1, { e.2 with x := x, y := y, mode := mode, rotation := rotation, outputs := outputs,
                     width := (scanout_size s mode rotation).1,
                     height := (scanout_size s mode rotation).2 })
  else e

/-- Server side of a successful `XRRSetCrtcConfig` on one output: the outputs
named in the request are driven by `crtc`, those it drove before are released. -/
def config_output (crtc : Nat) (outputs : List Nat) (e : Nat × XRROutputInfo) :
    Nat × XRROutputInfo :=
  if outputs.contains e.1 then (e.1, { e.2 with crtc := crtc })
  else if e.2.crtc == crtc then (e.1, { e.2 with crtc := 0 })
  else e

/-- Model of `XRRSetCrtcConfig` for a request that takes effect or is rejected
with an X error (`fault`); the Boolean is `status == RRSetConfigSuccess`.  A
request that is refused in the reply without an X error is the third case of
`XRRSetCrtcConfig_reply`. -/
def XRRSetCrtcConfig (fault : Bool) (s : State) (crtc : Nat) (x y : Int) (mode rotation : Nat)
    (outputs : List Nat) : Bool × State :=
  let s1 := { s with calls := s.calls ++ [Call.XRRSetCrtcConfig crtc x y mode rotation outputs] }
  if fault then (false, deliver true s1)
  else (true, { s1 with crtcs := s1.crtcs.map (config_crtc s crtc x y mode rotation outputs),
                        outputs := s1.outputs.map (config_output crtc outputs) })

/-- Model of `XRRSetScreenSize`, pixel dimensions only (the millimetre arguments are
floating point and not part of the model). -/
def XRRSetScreenSize (fault : Bool) (s : State) (width height : Nat) : State :=
  let s1 := { s with calls := s.calls ++ [Call.XRRSetScreenSize width height] }
  if fault then deliver true s1
  else { s1 with screen_width := width, screen_height := height }

/-- Model of `XRRCreateMode`: the id is allocated by the library whether or not the
request faults; the mode is registered when it does not.  The request of the
RandR protocol carries 16 bit geometry fields and a 32 bit clock, so the
descriptor comes back as it was given when the request is in that range
(`request_wf`). -/
def XRRCreateMode (fault : Bool) (s : State) (xmode : XRRModeInfo) : Nat × State :=
  let gmid := s.next_id
  let s1 := { s with calls := s.calls ++ [Call.XRRCreateMode xmode], next_id := s.next_id + 1 }
  if fault then (gmid, deliver true s1)
  else (gmid, { s1 with modes := s1.modes ++ [{ xmode with id := gmid }] })

/-- Model of `XRRAddOutputMode`. -/
def XRRAddOutputMode (fault : Bool) (s : State) (output mode : Nat) : State :=
  let s1 := { s with calls := s.calls ++ [Call.XRRAddOutputMode output mode] }
  if fault then deliver true s1
  else { s1 with outputs := s1.outputs.map (fun e =>
           if e.1 == output then (e.1, { e.2 with modes := e.2.modes ++ [mode] }) else e) }

/-- Model of `XRRDeleteOutputMode`. -/
def XRRDeleteOutputMode (fault : Bool) (s : State) (output mode : Nat) : State :=
  let s1 := { s with calls := s.calls ++ [Call.XRRDeleteOutputMode output mode] }
  if fault then deliver true s1
  else { s1 with outputs := s1.outputs.map (fun e =>
           if e.1 == output then (e.1, { e.2 with modes := e.2.modes.filter (fun m => m != mode) })
           else e) }

/-- Model of `XRRDestroyMode`. -/
def XRRDestroyMode (fault : Bool) (s : State) (mode : Nat) : State :=
  let s1 := { s with calls := s.calls ++ [Call.XRRDestroyMode mode] }
  if fault then deliver true s1
  else { s1 with modes := s1.modes.filter (fun m => m.id != mode) }

/-- Model of `XGrabServer`. -/
def XGrabServer (s : State) : State := { s with calls := s.calls ++ [Call.XGrabServer] }

/-- Model of `XUngrabServer`. -/
def XUngrabServer (s : State) : State := { s with calls := s.calls ++ [Call.XUngrabServer] }

/-! ## Mode lifecycle -/

/-- The rendering of `sprintf(name, "SR-%d_%dx%d_%f", m_id, hactive, vactive, vfreq)`:
the characters the call produces.  The buffer `char name[48]` they are written to
is modelled by `sprintf_name`. -/
def mode_name (H : Header) (m_id hactive vactive : Int) (vfreq : Rat) : String :=
  "SR-" ++ toString m_id ++ "_" ++ toString hactive ++ "x" ++ toString vactive ++ "_" ++
    H.fmt_f vfreq

/-- The mode-flags word `add_mode` builds from the request. -/
def mode_flags (mode : modeline) : Nat :=
  (if mode.interlace ≠ 0 then RR_Interlace else 0) |||
  (if mode.doublescan ≠ 0 then RR_DoubleScan else 0) |||
  (if mode.hsync ≠ 0 then RR_HSyncPositive else RR_HSyncNegative) |||
  (if mode.vsync ≠ 0 then RR_VSyncPositive else RR_VSyncNegative)

/-- The `XRRModeInfo` that `add_mode` sets up (`xmode`). -/
def make_xmode (H : Header) (m_id : Int) (mode : modeline) : XRRModeInfo :=
  { id := 0
    name := mode_name H m_id mode.hactive mode.vactive mode.vfreq
    dotClock := mode.pclock
    width := u32 mode.hactive
    hSyncStart := u32 mode.hbegin
    hSyncEnd := u32 mode.hend
    hTotal := u32 mode.htotal
    height := u32 mode.vactive
    vSyncStart := u32 mode.vbegin
    vSyncEnd := u32 mode.vend
    vTotal := u32 mode.vtotal
    modeFlags := mode_flags mode
    hSkew := 0 }

/-- The descriptor `xrandr_timing::find_mode` finds, by value: the first live
mode whose id is the request's handle, as it stood in the resources when the
function scanned them.  The function itself returns a pointer into those
resources after it has released them, which is `find_mode_pointer`. -/
def find_mode (s : State) (mode : modeline) : Option XRRModeInfo :=
  s.modes.find? (fun m => mode.platform_data == m.id)

/-- Embedding of `xrandr_timing::add_mode`.  `fCreate`, `fAttach`, `fCleanup` say whether
`XRRCreateMode`, `XRRAddOutputMode` and the `XRRDestroyMode` of the cleanup
fault.  The request is `none` for a null pointer; the result carries the
return value, the state, and the request as the call leaves it. -/
def add_mode (H : Header) (fCreate fAttach fCleanup : Bool) (s : State) :
    Option modeline → Option (Bool × State × Option modeline)
  | none => some (false, s, none)
  | some mode =>
    if s.m_desktop_output = -1 then some (false, s, some mode)
    else
      -- `find_mode(mode) != NULL` only logs "mode already exist"
      let xmode := make_xmode H s.m_id mode
      let mode := { mode with type := mode.type ||| H.CUSTOM_VIDEO_TIMING_XRANDR }
      -- Create the modeline
      let s := { s with m_xerrors := 0, m_xerrors_flag := 0x01 }
      let (old, s) := XSetErrorHandler s Handler.error_handler
      let s := { s with old_error_handler := old }
      let (gmid, s) := XRRCreateMode fCreate s xmode
      let s := (XSetErrorHandler s s.old_error_handler).2
      if s.m_xerrors &&& s.m_xerrors_flag ≠ 0 then some (false, s, some mode)
      else
        let mode := { mode with platform_data := gmid }
        -- Add new modeline to primary output
        let s := { s with m_xerrors_flag := 0x02 }
        let (old, s) := XSetErrorHandler s Handler.error_handler
        let s := { s with old_error_handler := old }
        match resources_output s s.m_desktop_output with
        | none => none
        | some output =>
          let s := XRRAddOutputMode fAttach s output gmid
          let s := (XSetErrorHandler s s.old_error_handler).2
          let s :=
            if s.m_xerrors &&& s.m_xerrors_flag ≠ 0 then
              -- remove unlinked modeline
              if gmid ≠ 0 then XRRDestroyMode fCleanup s gmid else s
            else s
          some (decide (s.m_xerrors = 0), s, some mode)

/-- The two trapped requests of the loop body of `delete_mode` for the live
mode `id`: detach from the output (flag 0x01), destroy the mode (flag 0x02);
`total` is `total_xerrors`. -/
def delete_traps (fDetach fDestroy : Bool) (s : State) (output id : Nat) (total : Nat) :
    State × Nat :=
  let s := { s with m_xerrors := 0, m_xerrors_flag := 0x01 }
  let (old, s) := XSetErrorHandler s Handler.error_handler
  let s := { s with old_error_handler := old }
  let s := XRRDeleteOutputMode fDetach s output id
  let total := if s.m_xerrors &&& s.m_xerrors_flag ≠ 0 then total + 1 else total
  let s := { s with m_xerrors_flag := 0x02 }
  let s := XRRDestroyMode fDestroy s id
  let s := (XSetErrorHandler s s.old_error_handler).2
  let total := if s.m_xerrors &&& s.m_xerrors_flag ≠ 0 then total + 1 else total
  (s, total)

/-- The loop of `delete_mode` over `resources->modes`; `total` is
`total_xerrors`. -/
def delete_loop (fDetach fDestroy : Bool) :
    List XRRModeInfo → State → modeline → Nat → Option (State × modeline × Nat)
  | [], s, mode, total => some (s, mode, total)
  | m :: ms, s, mode, total =>
    if mode.platform_data = 0 then some (s, mode, total)
    else if mode.platform_data = m.id then
      match resources_output s s.m_desktop_output with
      | none => none
      | some output =>
        match XRRGetOutputInfo s output with
        | none => none
        | some output_info =>
          match XRRGetCrtcInfo s output_info.crtc with
          | none => none
          | some _ =>
            -- `crtc_info->mode` is read for the warning "currently active" only
            let r := delete_traps fDetach fDestroy s output m.id total
            let mode := { mode with platform_data := 0 }
            delete_loop fDetach fDestroy ms r.1 mode r.2
    else delete_loop fDetach fDestroy ms s mode total

/-- Embedding of `xrandr_timing::delete_mode`.  `fDetach` and `fDestroy` say whether
`XRRDeleteOutputMode` and `XRRDestroyMode` fault. -/
def delete_mode (fDetach fDestroy : Bool) (s : State) :
    Option modeline → Option (Bool × State × Option modeline) := fun mode? =>
  if s.m_desktop_output = -1 then some (false, s, mode?)
  else
    match mode? with
    | none => some (false, s, none)
    | some mode =>
      match delete_loop fDetach fDestroy s.modes s mode 0 with
      | none => none
      | some (s, mode, total_xerrors) => some (decide (total_xerrors = 0), s, some mode)

/-- Embedding of `xrandr_timing::update_mode`. -/
def update_mode (H : Header) (fDetach fDestroy fCreate fAttach fCleanup : Bool) (s : State) :
    Option modeline → Option (Bool × State × Option modeline)
  | none => some (false, s, none)
  | some mode =>
    if s.m_desktop_output = -1 then some (false, s, some mode)
    else
      match delete_mode fDetach fDestroy s (some mode) with
      | none => none
      | some (false, s, mode?) => some (false, s, mode?)
      | some (true, s, mode?) =>
        match add_mode H fCreate fAttach fCleanup s mode? with
        | none => none
        | some (false, s, mode?) => some (false, s, mode?)
        | some (true, s, mode?) => some (true, s, mode?)

/-! ## CRTC layout engine -/

/-- Which requests of one `set_timing` transaction are rejected with an X
error: the disable and the re-enable of the controller at each position of
`resources->crtcs`, and the frame-buffer resize.  `TimingReplies` adds the
requests that are refused in the reply. -/
structure TimingFaults where
  disable : Nat → Bool
  resize : Bool
  enable : Nat → Bool

/-- One iteration of the first loop of `set_timing`: `crtc` is
`resources->crtcs[c]`, `snap` what `XRRGetCrtcInfo` returned for it,
`out_crtc` is `output_info->crtc`, `crtc_info` the reference state of the
target and `width`, `height` the running frame-buffer size.  The result is
`global_crtc[c]` and the new running size. -/
def layout_crtc (out_crtc : Nat) (crtc_info : XRRCrtcInfo) (pxmode : XRRModeInfo)
    (crtc : Nat) (snap : XRRCrtcInfo) (width height : Nat) : XRRCrtcInfo × Nat × Nat :=
  if crtc = out_crtc then
    -- switchres output, use new mode info
    let width :=
      if u32 (crtc_info.x + pxmode.width) > width then u32 (crtc_info.x + pxmode.width) else width
    let height :=
      if u32 (crtc_info.y + pxmode.height) > height then u32 (crtc_info.y + pxmode.height)
      else height
    let c2 := { snap with mode := pxmode.id, width := pxmode.width, height := pxmode.height,
                          x := crtc_info.x, y := crtc_info.y }
    if snap.mode ≠ c2.mode ∨ snap.width ≠ c2.width ∨ snap.height ≠ c2.height ∨ snap.x ≠ c2.x ∨
        snap.y ≠ c2.y then
      ({ c2 with timestamp := 1 }, width, height)
    else
      ({ c2 with timestamp := 3 }, width, height)
  else if out_crtc = 0 ∨ snap.mode = 0 then
    -- skip unused crtc
    (snap, width, height)
  else
    -- relocate crtc impacted by new width
    let c2 :=
      if snap.x ≥ i32 (crtc_info.x + i32 crtc_info.width) then
        { snap with x := i32 (u32 (snap.x + u32 ((pxmode.width : Int) - crtc_info.width))),
                    timestamp := 2 }
      else snap
    -- relocate crtc impacted by new height
    let c2 :=
      if c2.y ≥ i32 (crtc_info.y + i32 crtc_info.height) then
        { c2 with y := i32 (u32 (c2.y + u32 ((pxmode.height : Int) - crtc_info.height))),
                  timestamp := 2 }
      else c2
    -- calculate size based on crtc placement
    let width := if u32 (c2.x + c2.width) > width then u32 (c2.x + c2.width) else width
    let height := if u32 (c2.y + c2.height) > height then u32 (c2.y + c2.height) else height
    (c2, width, height)

/-- The first loop of `set_timing` over `resources->crtcs`: fills `global_crtc`
and accumulates `width` and `height`. -/
def layout_loop (s : State) (out_crtc : Nat) (crtc_info : XRRCrtcInfo) (pxmode : XRRModeInfo) :
    List Nat → Nat → Nat → Option (List XRRCrtcInfo × Nat × Nat)
  | [], width, height => some ([], width, height)
  | crtc :: rest, width, height =>
    match XRRGetCrtcInfo s crtc with
    | none => none
    | some snap =>
      let r := layout_crtc out_crtc crtc_info pxmode crtc snap width height
      match layout_loop s out_crtc crtc_info pxmode rest r.2.1 r.2.2 with
      | none => none
      | some (global_crtc, width, height) => some (r.1 :: global_crtc, width, height)

/-- The layout pass as `set_timing` runs it: over all of `resources->crtcs`,
from `width = height = 0`. -/
def layout (s : State) (out_crtc : Nat) (crtc_info : XRRCrtcInfo) (pxmode : XRRModeInfo) :
    Option (List XRRCrtcInfo × Nat × Nat) :=
  layout_loop s out_crtc crtc_info pxmode (s.crtcs.map (fun e => e.1)) 0 0

/-- Body of the loop "Disable all CRTC" for `resources->crtcs[c] = crtc` and
`global_crtc[c] = g`. -/
def disable_step (F : TimingFaults) (c : Nat) (crtc : Nat) (g : XRRCrtcInfo) (s : State) : State :=
  -- checking mode might not be necessary due to timestamp value
  if g.timestamp = 1 ∨ g.timestamp = 2 then
    let r := XRRSetCrtcConfig (F.disable c) s crtc 0 0 0 RR_Rotate_0 []
    if r.1 then r.2
    else { r.2 with m_xerrors_flag := 0x01, m_xerrors := r.2.m_xerrors ||| 0x01 }
  else s

/-- The loop "Disable all CRTC"; `c` is the position of the head of the list
in `resources->crtcs`. -/
def disable_loop (F : TimingFaults) : Nat → List (Nat × XRRCrtcInfo) → State → State
  | _, [], s => s
  | c, (crtc, g) :: rest, s => disable_loop F (c + 1) rest (disable_step F c crtc g s)

/-- The step "Set the framebuffer screen size to enable all CRTC". -/
def resize_step (F : TimingFaults) (s : State) (width height : Nat) : State :=
  if s.m_xerrors = 0 then
    let s := { s with m_xerrors_flag := 0x02 }
    let (old, s) := XSetErrorHandler s Handler.error_handler
    let s := { s with old_error_handler := old }
    let s := XRRSetScreenSize F.resize s width height
    (XSetErrorHandler s s.old_error_handler).2
  else s

/-- Body of the loop "Refresh all CRTC, switch modeline and set new placement"
for `resources->crtcs[c] = crtc` and `global_crtc[c] = g`. -/
def enable_step (F : TimingFaults) (c : Nat) (crtc : Nat) (g : XRRCrtcInfo) (s : State) : State :=
  if g.mode ≠ 0 ∧ (g.timestamp = 1 ∨ g.timestamp = 2) then
    -- enable CRTC with updated parameters
    let s := { s with m_xerrors_flag := 0x14 }
    let (old, s) := XSetErrorHandler s Handler.error_handler
    let s := { s with old_error_handler := old }
    let s := (XRRSetCrtcConfig (F.enable c) s crtc g.x g.y g.mode g.rotation g.outputs).2
    if s.m_xerrors &&& 0x10 ≠ 0 then { s with m_xerrors := s.m_xerrors &&& 0xEF } else s
  else s

/-- The loop "Refresh all CRTC, switch modeline and set new placement". -/
def enable_loop (F : TimingFaults) : Nat → List (Nat × XRRCrtcInfo) → State → State
  | _, [], s => s
  | c, (crtc, g) :: rest, s => enable_loop F (c + 1) rest (enable_step F c crtc g s)

/-- The mode `set_timing` switches to (`pxmode`), `none` when it is not found. -/
def target_mode (H : Header) (s : State) (mode : modeline) : Option XRRModeInfo :=
  if mode.type &&& H.MODE_DESKTOP ≠ 0 then some s.m_desktop_mode else find_mode s mode

/-- The test of `set_timing` for "changing mode is not required". -/
def skip_test (s : State) (pxmode : XRRModeInfo) (crtc_info : XRRCrtcInfo) : Bool :=
  decide (s.m_last_crtc.mode = crtc_info.mode ∧ s.m_last_crtc.x = crtc_info.x ∧
    s.m_last_crtc.y = crtc_info.y ∧ pxmode.id = crtc_info.mode)

/-- The reference state of the target that the layout works from: the live
snapshot, overwritten by `m_last_crtc` when the modes disagree. -/
def reference_crtc (s : State) (crtc_info : XRRCrtcInfo) : XRRCrtcInfo :=
  if s.m_last_crtc.mode ≠ crtc_info.mode then s.m_last_crtc else crtc_info

/-- The transaction of `set_timing`, from `m_xerrors = 0` to the return. -/
def transaction (F : TimingFaults) (s : State) (out_crtc : Nat) (crtc_info : XRRCrtcInfo)
    (pxmode : XRRModeInfo) : Option (Bool × State) :=
  let s := { s with m_xerrors := 0 }
  -- Grab X server to prevent unwanted interaction from the window manager
  let s := XGrabServer s
  let crtcs := s.crtcs.map (fun e => e.1)
  match layout s out_crtc crtc_info pxmode with
  | none => none
  | some (global_crtc, width, height) =>
    let s := disable_loop F 0 (crtcs.zip global_crtc) s
    let s := resize_step F s width height
    let s := enable_loop F 0 (crtcs.zip global_crtc) s
    -- Release X server, events can be processed now
    let s := XUngrabServer s
    -- Recall the impacted crtc to settle parameters
    match XRRGetCrtcInfo s out_crtc with
    | none => none
    | some crtc_info =>
      -- save last crtc
      let s := { s with m_last_crtc := crtc_info }
      some (decide (s.m_xerrors = 0), s)

/-- Embedding of `xrandr_timing::set_timing`. -/
def set_timing (H : Header) (F : TimingFaults) (s : State) (mode : modeline) :
    Option (Bool × State) :=
  -- Handle no screen detected case
  if s.m_desktop_output = -1 then some (false, s)
  else
    match target_mode H s mode with
    | none => some (false, s)
    | some pxmode =>
      match resources_output s s.m_desktop_output with
      | none => none
      | some output =>
        match XRRGetOutputInfo s output with
        | none => none
        | some output_info =>
          match XRRGetCrtcInfo s output_info.crtc with
          | none => none
          | some crtc_info =>
            if skip_test s pxmode crtc_info then some (true, s)
            else transaction F s output_info.crtc (reference_crtc s crtc_info) pxmode

/-- The value is representable as a C `int`. -/
abbrev fits_int (z : Int) : Prop := -2147483648 ≤ z ∧ z < 2147483648

/-- The value is representable as a C `unsigned int`. -/
abbrev fits_uint (z : Int) : Prop := 0 ≤ z ∧ z < 4294967296

/-! ## Sample configurations -/

/-- Header values used by the sample configurations. -/
def sample_header : Header :=
  { MODE_DESKTOP := 0x10000000, MODE_ROTATED := 0x20000000,
    CUSTOM_VIDEO_TIMING_XRANDR := 0x20, fmt_f := fun _ => "60.000000" }

/-- A transaction in which no request faults. -/
def no_faults : TimingFaults :=
  { disable := fun _ => false, resize := false, enable := fun _ => false }

/-- A live mode of the given id and size. -/
def sample_mode (id w h : Nat) : XRRModeInfo :=
  { id := id, width := w, height := h, dotClock := 0, hSyncStart := 0, hSyncEnd := 0,
    hTotal := 0, hSkew := 0, vSyncStart := 0, vSyncEnd := 0, vTotal := 0, name := "",
    modeFlags := 0 }

/-- A controller snapshot with the given origin, size, mode and outputs. -/
def sample_crtc (x y : Int) (w h mode : Nat) (outs : List Nat) : XRRCrtcInfo :=
  { timestamp := 5000, x := x, y := y, width := w, height := h, mode := mode, rotation := 1,
    outputs := outs }

/-- A request that carries only a handle. -/
def sample_request (handle : Nat) : modeline :=
  { pclock := 0, hactive := 0, hbegin := 0, hend := 0, htotal := 0, vactive := 0, vbegin := 0,
    vend := 0, vtotal := 0, interlace := 0, doublescan := 0, hsync := 0, vsync := 0, vfreq := 0,
    hfreq := 0, width := 0, height := 0, refresh := 0, type := 0, platform_data := handle }

/-- Two controllers side by side on a 1280x480 frame buffer: controller 10 at
(0,0) drives the managed output 20, controller 11 at (640,0) drives output 21;
both show mode 100 (640x480), and mode 101 (800x600) is registered. -/
def two_crtc_state : State :=
  { m_id := 0, m_desktop_output := 0, m_desktop_mode := sample_mode 100 640 480,
    m_last_crtc := sample_crtc 0 0 640 480 100 [20],
    m_crtc_flags := 0, m_video_modes_position := 0, m_xerrors := 0, m_xerrors_flag := 0,
    old_error_handler := Handler.foreign 0, handler := Handler.foreign 0,
    modes := [sample_mode 100 640 480, sample_mode 101 800 600],
    crtcs := [(10, sample_crtc 0 0 640 480 100 [20]), (11, sample_crtc 640 0 640 480 100 [21])],
    outputs := [(20, { name := "A", connection := 0, crtc := 10, modes := [100, 101] }),
                (21, { name := "B", connection := 0, crtc := 11, modes := [100] })],
    screen_width := 1280, screen_height := 480, next_id := 102, calls := [] }

/-! ## Bounding box -/

/-- Right edge `x + width` of a controller. -/
def extent_x (c : XRRCrtcInfo) : Int := c.x + c.width

/-- Bottom edge `y + height` of a controller. -/
def extent_y (c : XRRCrtcInfo) : Int := c.y + c.height

/-- Largest member of a list of edges (0 for the empty list). -/
def max_extent (l : List Int) : Int := l.foldr max 0

/-- Bounding width in the words of the specification: the maximum of
`origin + size` over all controllers after classification. -/
def claimed_width (global_crtc : List XRRCrtcInfo) : Int :=
  max_extent (global_crtc.map extent_x)

/-- Bounding height in the words of the specification. -/
def claimed_height (global_crtc : List XRRCrtcInfo) : Int :=
  max_extent (global_crtc.map extent_y)

/-- The controllers the layout pass measures: the target, and every other
controller that shows a mode. -/
def counted (out_crtc : Nat) (e : Nat × XRRCrtcInfo) : Bool :=
  e.1 == out_crtc || e.2.mode != 0

/-- Maximum of `x + width` over the measured controllers after classification. -/
def bounding_width (out_crtc : Nat) (crtcs : List Nat) (global_crtc : List XRRCrtcInfo) : Int :=
  max_extent (((crtcs.zip global_crtc).filter (counted out_crtc)).map (fun e => extent_x e.2))

/-- Maximum of `y + height` over the measured controllers after classification. -/
def bounding_height (out_crtc : Nat) (crtcs : List Nat) (global_crtc : List XRRCrtcInfo) : Int :=
  max_extent (((crtcs.zip global_crtc).filter (counted out_crtc)).map (fun e => extent_y e.2))

/-- The target controller 10 at (0,0) showing 640x480, and a controller 11
that is switched off but was left with the origin (1000, 0). -/
def idle_crtc_state : State :=
  { two_crtc_state with
    crtcs := [(10, sample_crtc 0 0 640 480 100 [20]), (11, sample_crtc 1000 0 0 0 0 [])],
    outputs := [(20, { name := "A", connection := 0, crtc := 10, modes := [100, 101] }),
                (21, { name := "B", connection := 0, crtc := 0, modes := [100] })],
    screen_width := 640, screen_height := 480 }

/-! ## Well-formedness of the server tables -/

/-- What a `set_timing` transaction leaves alone until it saves `m_last_crtc`:
the mode list, the members set by `init`, and the ids of the controllers and
outputs. -/
structure Frame (s s' : State) : Prop where
  modes : s'.modes = s.modes
  desktop_mode : s'.m_desktop_mode = s.m_desktop_mode
  desktop_output : s'.m_desktop_output = s.m_desktop_output
  last_crtc : s'.m_last_crtc = s.m_last_crtc
  crtc_ids : s'.crtcs.map (fun e => e.1) = s.crtcs.map (fun e => e.1)
  output_ids : s'.outputs.map (fun e => e.1) = s.outputs.map (fun e => e.1)

/-- A fault recorded in `m_xerrors` that the re-enable loop does not clear:
one of the bits 0x01, 0x02, 0x04. -/
def Recorded (m : Nat) : Prop :=
  m.testBit 0 = true ∨ m.testBit 1 = true ∨ m.testBit 2 = true

/-- The two-controller sample after somebody else has moved the target to
(100, 0): the baseline cached in `m_last_crtc` still has the old mode 99 at
the origin (0, 0). -/
def drift_state : State :=
  { two_crtc_state with
    m_last_crtc := sample_crtc 0 0 640 480 99 [20],
    crtcs := [(10, sample_crtc 100 0 640 480 100 [20]), (11, sample_crtc 640 0 640 480 100 [21])] }

/-! ## Reading a mode back -/

/-- Interlace flag as `get_timing` decodes it: `(modeFlags & RR_Interlace)?1:0`. -/
def decode_interlace (modeFlags : Nat) : Int := if modeFlags &&& RR_Interlace ≠ 0 then 1 else 0

/-- Doublescan flag as `get_timing` decodes it: `(modeFlags & RR_DoubleScan)?1:0`. -/
def decode_doublescan (modeFlags : Nat) : Int := if modeFlags &&& RR_DoubleScan ≠ 0 then 1 else 0

/-- Horizontal sync polarity as `get_timing` decodes it: `(modeFlags & RR_HSyncPositive)?1:0`. -/
def decode_hsync (modeFlags : Nat) : Int := if modeFlags &&& RR_HSyncPositive ≠ 0 then 1 else 0

/-- Vertical sync polarity as `get_timing` decodes it: `(modeFlags & RR_VSyncPositive)?1:0`. -/
def decode_vsync (modeFlags : Nat) : Int := if modeFlags &&& RR_VSyncPositive ≠ 0 then 1 else 0

/-- The value fits a `CARD16` field of the RandR protocol. -/
abbrev fits_card16 (z : Int) : Prop := 0 ≤ z ∧ z < 65536

/-- A well-formed request: the eight geometry fields fit the 16 bit fields and
the pixel clock the 32 bit field in which the RandR protocol carries them. -/
def request_wf (mode : modeline) : Prop :=
  fits_card16 mode.hactive ∧ fits_card16 mode.hbegin ∧ fits_card16 mode.hend ∧
  fits_card16 mode.htotal ∧ fits_card16 mode.vactive ∧ fits_card16 mode.vbegin ∧
  fits_card16 mode.vend ∧ fits_card16 mode.vtotal ∧ mode.pclock < 4294967296

/-- A 640x480 request with interlace and positive vertical sync. -/
def sample_timing : modeline :=
  { sample_request 0 with
    pclock := 25175000, hactive := 640, hbegin := 656, hend := 752, htotal := 800,
    vactive := 480, vbegin := 490, vend := 492, vtotal := 525,
    interlace := 1, doublescan := 0, hsync := 0, vsync := 1 }

/-! ## Construction -/

/-- What the constructor `xrandr_timing::xrandr_timing` leaves: the members
`m_id` and `m_device_name` of the new instance and the static `static_id`. -/
structure Constructed where
  m_id : Int
  m_device_name : String
  static_id : Int

/-- Embedding of `xrandr_timing::xrandr_timing`: `m_id = static_id++`, and the
device name copied, cut to 31 characters when it does not fit the 32 byte
member.  The id is taken before the library checks that may throw. -/
def construct (static_id : Int) (device_name : String) : Constructed :=
  { m_id := static_id
    static_id := i32 (static_id + 1)
    m_device_name :=
      if device_name.length + 1 > 32 then String.mk (device_name.data.take 31) else device_name }

/-- The static `static_id` after `k` constructions. -/
def static_id_after (static_id : Int) : Nat → Int
  | 0 => static_id
  | k + 1 => (construct (static_id_after static_id k) "auto").static_id

/-- The `m_id` of the instance constructed after `k` earlier ones. -/
def instance_id (static_id : Int) (k : Nat) : Int :=
  (construct (static_id_after static_id k) "auto").m_id

/-- Reading of a decimal rendering: the number its digits denote, negated
after a leading minus sign. -/
def read_decimal (cs : List Char) : Int :=
  match cs with
  | '-' :: ds => -((ds.foldl (fun a c => a * 10 + (c.toNat - 48)) 0 : Nat) : Int)
  | ds => ((ds.foldl (fun a c => a * 10 + (c.toNat - 48)) 0 : Nat) : Int)

/-! ## Requests of a transaction -/

/-- The requests the loop "Disable all CRTC" issues: one for every position
whose role marker is 1 or 2. -/
def disable_requests (l : List (Nat × XRRCrtcInfo)) : List Call :=
  l.filterMap (fun p =>
    if p.2.timestamp = 1 ∨ p.2.timestamp = 2 then
      some (Call.XRRSetCrtcConfig p.1 0 0 0 RR_Rotate_0 [])
    else none)

/-- The requests the loop "Refresh all CRTC" issues: one for every position
that shows a mode and whose role marker is 1 or 2. -/
def enable_requests (l : List (Nat × XRRCrtcInfo)) : List Call :=
  l.filterMap (fun p =>
    if p.2.mode ≠ 0 ∧ (p.2.timestamp = 1 ∨ p.2.timestamp = 2) then
      some (Call.XRRSetCrtcConfig p.1 p.2.x p.2.y p.2.mode p.2.rotation p.2.outputs)
    else none)

/-- The request is a `XRRSetCrtcConfig` for controller `crtc`. -/
def targets (crtc : Nat) : Call → Bool
  | Call.XRRSetCrtcConfig c _ _ _ _ _ => c == crtc
  | _ => false

/-- A transaction in which only the re-enable at position `c` faults. -/
def fault_on_enable (c : Nat) : TimingFaults :=
  { disable := fun _ => false, resize := false, enable := fun k => k == c }

/-- The target controller 10 at (640, 0) and the sibling 11 at (0, 0), left of
it and so below both shift thresholds; the snapshot of the sibling carries the
server timestamp 1. -/
def stale_marker_state : State :=
  { two_crtc_state with
    m_last_crtc := sample_crtc 640 0 640 480 100 [20],
    crtcs := [(10, sample_crtc 640 0 640 480 100 [20]),
              (11, { sample_crtc 0 0 640 480 100 [21] with timestamp := 1 })] }

/-! ## Rectangles -/

/-- The rectangles `[x, x+width) x [y, y+height)` of two controllers are apart
on one of the axes. -/
abbrev separated (a b : XRRCrtcInfo) : Prop :=
  a.x + a.width ≤ b.x ∨ b.x + b.width ≤ a.x ∨ a.y + a.height ≤ b.y ∨ b.y + b.height ≤ a.y

/-- Origin and size within what the RandR protocol carries (16 bit). -/
abbrev in_range (c : XRRCrtcInfo) : Prop :=
  -32768 ≤ c.x ∧ c.x < 32768 ∧ -32768 ≤ c.y ∧ c.y < 32768 ∧ c.width < 65536 ∧ c.height < 65536

/-- Three controllers that tile a 1600x1080 desktop: the target 10 at (0,0)
showing 800x600, controller 11 at (800,0) showing 800x600 to its right, and
controller 12 at (0,600) showing 1600x480 below both. -/
def three_crtc_state : State :=
  { two_crtc_state with
    m_desktop_mode := sample_mode 101 800 600,
    m_last_crtc := sample_crtc 0 0 800 600 101 [20],
    modes := [sample_mode 100 640 480, sample_mode 101 800 600, sample_mode 102 1600 480],
    crtcs := [(10, sample_crtc 0 0 800 600 101 [20]), (11, sample_crtc 800 0 800 600 101 [21]),
              (12, sample_crtc 0 600 1600 480 102 [22])],
    outputs := [(20, { name := "A", connection := 0, crtc := 10, modes := [100, 101] }),
                (21, { name := "B", connection := 0, crtc := 11, modes := [101] }),
                (22, { name := "C", connection := 0, crtc := 12, modes := [102] })],
    screen_width := 1600, screen_height := 1080 }

/-! ## Timing enumerator -/

/-- Value of an integer expression converted to a 64 bit unsigned type. -/
def u64 (z : Int) : Nat := (z % 18446744073709551616).toNat

/-- The assignments of `get_timing` for a live mode `pxmode` that matches the
cursor.  The result is `none` when `pclock / htotal` divides by zero (an
integer division in C, the operands being `uint64_t` and `int`).  The `double`
fields `hfreq`, `vfreq`, `refresh` are kept as exact rationals. -/
def populate (H : Header) (s : State) (pxmode : XRRModeInfo) (mode : modeline) :
    Option modeline :=
  let mode := { mode with
    platform_data := pxmode.id
    pclock := pxmode.dotClock
    hactive := i32 pxmode.width
    hbegin := i32 pxmode.hSyncStart
    hend := i32 pxmode.hSyncEnd
    htotal := i32 pxmode.hTotal
    vactive := i32 pxmode.height
    vbegin := i32 pxmode.vSyncStart
    vend := i32 pxmode.vSyncEnd
    vtotal := i32 pxmode.vTotal
    interlace := decode_interlace pxmode.modeFlags
    doublescan := decode_doublescan pxmode.modeFlags
    hsync := decode_hsync pxmode.modeFlags
    vsync := decode_vsync pxmode.modeFlags }
  if u64 mode.htotal = 0 then none
  else
    let mode := { mode with hfreq := ((mode.pclock / u64 mode.htotal : Nat) : Rat) }
    let mode := { mode with
      vfreq := mode.hfreq / (mode.vtotal : Rat) * (if mode.interlace ≠ 0 then 2 else 1) }
    let mode := { mode with refresh := mode.vfreq }
    let mode := { mode with width := i32 pxmode.width, height := i32 pxmode.height }
    -- Add the rotation flag from the crtc
    let mode := { mode with type := mode.type ||| s.m_crtc_flags }
    let mode := { mode with type := mode.type ||| H.CUSTOM_VIDEO_TIMING_XRANDR }
    -- Add the desktop flag to desktop modeline
    let mode :=
      if s.m_desktop_mode.id = pxmode.id then { mode with type := mode.type ||| H.MODE_DESKTOP }
      else mode
    some mode

/-- The loop of `get_timing` over `resources->modes` for the mode id `id` at
the cursor. -/
def populate_loop (H : Header) (s : State) (id : Nat) :
    List XRRModeInfo → modeline → Option modeline
  | [], mode => some mode
  | pxmode :: rest, mode =>
    if pxmode.id = id then
      (populate H s pxmode mode).bind (populate_loop H s id rest)
    else populate_loop H s id rest mode

/-- Embedding of `xrandr_timing::get_timing`: return value, state, and the
request as the call leaves it. -/
def get_timing (H : Header) (s : State) (mode : modeline) : Option (Bool × State × modeline) :=
  -- Handle no screen detected case
  if s.m_desktop_output = -1 then some (false, s, mode)
  else
    match resources_output s s.m_desktop_output with
    | none => none
    | some output =>
      match XRRGetOutputInfo s output with
      | none => none
      | some output_info =>
        -- Cycle through the modelines and report them back to the display manager
        if s.m_video_modes_position < output_info.modes.length then
          if s.m_video_modes_position < 0 then none
          else
            match output_info.modes.get? s.m_video_modes_position.toNat with
            | none => none
            | some id =>
              match populate_loop H s id s.modes mode with
              | none => none
              | some mode =>
                some (true, { s with m_video_modes_position := s.m_video_modes_position + 1 },
                  mode)
        else
          -- Inititalise the position for the modeline list
          some (true, { s with m_video_modes_position := 0 }, mode)

/-- The state after `k` calls of `get_timing`, each with the request `mode`. -/
def get_timing_repeat (H : Header) (mode : modeline) : Nat → State → Option State
  | 0, s => some s
  | k + 1, s =>
    match get_timing_repeat H mode k s with
    | none => none
    | some s1 => (get_timing H s1 mode).map (fun r => r.2.1)

/-- A live mode with a complete timing: 25.175 MHz, 800 total per line, 525
lines. -/
def timed_mode (id w h : Nat) : XRRModeInfo :=
  { sample_mode id w h with
    dotClock := 25175000, hSyncStart := w + 16, hSyncEnd := w + 112, hTotal := w + 160,
    vSyncStart := h + 10, vSyncEnd := h + 12, vTotal := h + 45 }

/-- The two-controller sample with complete timings; the managed output lists
the modes 100 and 101. -/
def timed_state : State :=
  { two_crtc_state with
    m_desktop_mode := timed_mode 100 640 480,
    modes := [timed_mode 100 640 480, timed_mode 101 800 600] }

/-- The request carries the handle, the clock, the geometry and the flags of
the live mode `pxmode`, as `get_timing` assigns them. -/
def populated_from (pxmode : XRRModeInfo) (m : modeline) : Prop :=
  m.platform_data = pxmode.id ∧ m.pclock = pxmode.dotClock ∧
  m.hactive = i32 pxmode.width ∧ m.hbegin = i32 pxmode.hSyncStart ∧
  m.hend = i32 pxmode.hSyncEnd ∧ m.htotal = i32 pxmode.hTotal ∧
  m.vactive = i32 pxmode.height ∧ m.vbegin = i32 pxmode.vSyncStart ∧
  m.vend = i32 pxmode.vSyncEnd ∧ m.vtotal = i32 pxmode.vTotal ∧
  m.interlace = decode_interlace pxmode.modeFlags ∧
  m.doublescan = decode_doublescan pxmode.modeFlags ∧
  m.hsync = decode_hsync pxmode.modeFlags ∧ m.vsync = decode_vsync pxmode.modeFlags ∧
  m.width = i32 pxmode.width ∧ m.height = i32 pxmode.height

/-! ## Discovery -/

/-- Resources of one X screen as `XRRGetScreenResourcesCurrent` reports them for
its root window: live modes, controllers and outputs by id, frame-buffer size. -/
structure Screen where
  modes : List XRRModeInfo
  crtcs : List (Nat × XRRCrtcInfo)
  outputs : List (Nat × XRROutputInfo)
  screen_width : Nat
  screen_height : Nat
deriving DecidableEq

/-- The assignment `m_root = RootWindow(m_pdisplay, screen)` followed by
`XRRGetScreenResourcesCurrent`: the server tables of the state become those of
the screen. -/
def select_root (s : State) (scr : Screen) : State :=
  { s with modes := scr.modes, crtcs := scr.crtcs, outputs := scr.outputs,
           screen_width := scr.screen_width, screen_height := scr.screen_height }

/-- The local `screen_pos` of `init`: the digit of a seven character name
`screen[0-9]`, and -1 for every other name. -/
def screen_pos (m_device_name : String) : Int :=
  match m_device_name.data with
  | ['s', 'c', 'r', 'e', 'e', 'n', d] =>
    if '0'.toNat ≤ d.toNat ∧ d.toNat ≤ '9'.toNat then (d.toNat : Int) - '0'.toNat else -1
  | _ => -1

/-- The loop "identify the current modeline id" of `init`: it runs while
`m_desktop_mode.id == 0` and copies the live mode the controller shows, together
with the controller snapshot. -/
def desktop_mode_loop (crtc_info : XRRCrtcInfo) : List XRRModeInfo → State → State
  | [], s => s
  | m :: rest, s =>
    if s.m_desktop_mode.id = 0 then
      if crtc_info.mode = m.id then
        desktop_mode_loop crtc_info rest { s with m_desktop_mode := m, m_last_crtc := crtc_info }
      else desktop_mode_loop crtc_info rest s
    else s

/-- What `init` does with output number `o` once its snapshot is there:
`output_position` and the state after the body of the loop; `none` when the
controller snapshot is NULL and dereferenced. -/
def init_output (H : Header) (m_device_name : String) (screen_pos : Int)
    (output_info : XRROutputInfo) (o output_position : Int) (s : State) : Option (Int × State) :=
  -- Check all connected output
  if s.m_desktop_output = -1 ∧ output_info.connection = RR_Connected ∧ output_info.crtc ≠ 0 then
    if m_device_name = "auto" ∨ m_device_name = output_info.name ∨ output_position = screen_pos then
      -- store the output connector
      match XRRGetCrtcInfo s output_info.crtc with
      | none => none
      | some crtc_info =>
        let s1 := desktop_mode_loop crtc_info s.modes { s with m_desktop_output := o }
        -- check screen rotation (left or right)
        let s2 := if crtc_info.rotation &&& 0xe ≠ 0 then { s1 with m_crtc_flags := H.MODE_ROTATED }
                  else s1
        some (i32 (output_position + 1), s2)
    else some (i32 (output_position + 1), s)
  else some (output_position, s)

/-- The loop of `init` over `resources->outputs`, from output number `o`; an
output without snapshot is logged and passed over. -/
def init_outputs (H : Header) (m_device_name : String) (screen_pos : Int) :
    List (Nat × XRROutputInfo) → Int → Int → State → Option State
  | [], _, _, s => some s
  | e :: rest, o, output_position, s =>
    match XRRGetOutputInfo s e.1 with
    | none => init_outputs H m_device_name screen_pos rest (i32 (o + 1)) output_position s
    | some output_info =>
      (init_output H m_device_name screen_pos output_info o output_position s).bind
        (fun r => init_outputs H m_device_name screen_pos rest (i32 (o + 1)) r.1 r.2)

/-- The loop of `init` over the screens of the display, which stops as soon as
`detected` is set. -/
def init_screens (H : Header) (m_device_name : String) (screen_pos : Int) :
    List Screen → Bool → State → Option (Bool × State)
  | [], detected, s => some (detected, s)
  | scr :: rest, detected, s =>
    if detected then some (detected, s)
    else
      (init_outputs H m_device_name screen_pos scr.outputs 0 0 (select_root s scr)).bind
        (fun s1 => init_screens H m_device_name screen_pos rest
          (decide (s1.m_desktop_output ≠ -1)) s1)

/-- Embedding of `xrandr_timing::init`.  `symbols_ok` tells whether both
libraries load with every symbol the function resolves, `display_ok` whether
a display connection is there or can be opened; `screens` are the screens of
the display.  The member `m_desktop_rotation` is written and never read in
this unit. -/
def init (H : Header) (symbols_ok display_ok : Bool) (m_device_name : String)
    (screens : List Screen) (s : State) : Option (Bool × State) :=
  if !symbols_ok then some (false, s)
  else if !display_ok then some (false, s)
  else init_screens H m_device_name (screen_pos m_device_name) screens false s

/-- An output the loop of `init` counts: connected and bound to a controller. -/
def usable (e : Nat × XRROutputInfo) : Bool :=
  decide (e.2.connection = RR_Connected ∧ e.2.crtc ≠ 0)

/-- The device name `screenN`. -/
def screen_name (N : Nat) : String :=
  String.mk ['s', 'c', 'r', 'e', 'e', 'n', Nat.digitChar N]

/-- One screen with two connected outputs, A without a controller and B on
controller 11. -/
def unbound_first_screen : Screen :=
  { modes := [sample_mode 100 640 480],
    crtcs := [(10, sample_crtc 0 0 640 480 100 []), (11, sample_crtc 640 0 640 480 100 [21])],
    outputs := [(20, { name := "A", connection := 0, crtc := 0, modes := [100] }),
                (21, { name := "B", connection := 0, crtc := 11, modes := [100] })],
    screen_width := 1280, screen_height := 480 }

/-- One screen with two connected outputs, A on controller 10 and B on
controller 11. -/
def two_output_screen : Screen :=
  { modes := [sample_mode 100 640 480],
    crtcs := [(10, sample_crtc 0 0 640 480 100 [20]), (11, sample_crtc 640 0 640 480 100 [21])],
    outputs := [(20, { name := "A", connection := 0, crtc := 10, modes := [100] }),
                (21, { name := "B", connection := 0, crtc := 11, modes := [100] })],
    screen_width := 1280, screen_height := 480 }

/-- A freshly constructed instance: no output selected, no desktop mode, not
connected to any root window yet. -/
def fresh_state : State :=
  { m_id := 0, m_desktop_output := -1, m_desktop_mode := sample_mode 0 0 0,
    m_last_crtc := sample_crtc 0 0 0 0 0 [],
    m_crtc_flags := 0, m_video_modes_position := 0, m_xerrors := 0, m_xerrors_flag := 0,
    old_error_handler := Handler.foreign 0, handler := Handler.foreign 0,
    modes := [], crtcs := [], outputs := [],
    screen_width := 0, screen_height := 0, next_id := 0, calls := [] }

/-- A screen on which the loop of `init` meets no surprise for the name
`m_device_name`: the output ids are distinct, their number fits an `int`, no
output carries the name, and the controller of every connected output bound to
one is among the controllers of the screen. -/
def screen_wf (m_device_name : String) (scr : Screen) : Prop :=
  (scr.outputs.map (fun e => e.1)).Nodup ∧ (scr.outputs.length : Int) < 2147483648 ∧
  ∀ e ∈ scr.outputs, e.2.name ≠ m_device_name ∧
    (usable e = true → e.2.crtc ∈ scr.crtcs.map (fun c => c.1))

/-! ## Reply status of a set-config request -/

/-- What the platform answers to a set-config request: the request takes
effect (`RRSetConfigSuccess`); or it is rejected with an X error, which goes to
the installed error handler and makes the library return `RRSetConfigFailed`;
or it is refused in the reply, with a status other than `RRSetConfigSuccess`
and without an X error. -/
inductive Reply where
  | success
  | error
  | refused
deriving DecidableEq, Repr

/-- Model of `XRRSetCrtcConfig` with the status of the reply told apart from
the X error; the Boolean is `status == RRSetConfigSuccess`.  A request refused
in the reply changes nothing on the server and reaches no error handler. -/
def XRRSetCrtcConfig_reply (reply : Reply) (s : State) (crtc : Nat) (x y : Int)
    (mode rotation : Nat) (outputs : List Nat) : Bool × State :=
  match reply with
  | Reply.success => XRRSetCrtcConfig false s crtc x y mode rotation outputs
  | Reply.error => XRRSetCrtcConfig true s crtc x y mode rotation outputs
  | Reply.refused =>
    (false,
      { s with calls := s.calls ++ [Call.XRRSetCrtcConfig crtc x y mode rotation outputs] })

/-- The answers of the platform in one `set_timing` transaction: to the disable
and to the re-enable of the controller at each position of `resources->crtcs`,
and whether the frame-buffer resize faults. -/
structure TimingReplies where
  disable : Nat → Reply
  resize : Bool
  enable : Nat → Reply

/-- The answers in which every request that fails does so with an X error. -/
def TimingFaults.replies (F : TimingFaults) : TimingReplies :=
  { disable := fun c => if F.disable c then Reply.error else Reply.success
    resize := F.resize
    enable := fun c => if F.enable c then Reply.error else Reply.success }

/-- The X errors among the answers. -/
def TimingReplies.faults (R : TimingReplies) : TimingFaults :=
  { disable := fun c => decide (R.disable c = Reply.error)
    resize := R.resize
    enable := fun c => decide (R.enable c = Reply.error) }

/-- Body of the loop "Disable all CRTC", which tests the status of the reply. -/
def disable_step_reply (R : TimingReplies) (c : Nat) (crtc : Nat) (g : XRRCrtcInfo)
    (s : State) : State :=
  -- checking mode might not be necessary due to timestamp value
  if g.timestamp = 1 ∨ g.timestamp = 2 then
    let r := XRRSetCrtcConfig_reply (R.disable c) s crtc 0 0 0 RR_Rotate_0 []
    if r.1 then r.2
    else { r.2 with m_xerrors_flag := 0x01, m_xerrors := r.2.m_xerrors ||| 0x01 }
  else s

/-- The loop "Disable all CRTC". -/
def disable_loop_reply (R : TimingReplies) : Nat → List (Nat × XRRCrtcInfo) → State → State
  | _, [], s => s
  | c, (crtc, g) :: rest, s =>
    disable_loop_reply R (c + 1) rest (disable_step_reply R c crtc g s)

/-- Body of the loop "Refresh all CRTC, switch modeline and set new placement",
which does not look at the status of the reply. -/
def enable_step_reply (R : TimingReplies) (c : Nat) (crtc : Nat) (g : XRRCrtcInfo)
    (s : State) : State :=
  if g.mode ≠ 0 ∧ (g.timestamp = 1 ∨ g.timestamp = 2) then
    -- enable CRTC with updated parameters
    let s := { s with m_xerrors_flag := 0x14 }
    let (old, s) := XSetErrorHandler s Handler.error_handler
    let s := { s with old_error_handler := old }
    let s := (XRRSetCrtcConfig_reply (R.enable c) s crtc g.x g.y g.mode g.rotation g.outputs).2
    if s.m_xerrors &&& 0x10 ≠ 0 then { s with m_xerrors := s.m_xerrors &&& 0xEF } else s
  else s

/-- The loop "Refresh all CRTC, switch modeline and set new placement". -/
def enable_loop_reply (R : TimingReplies) : Nat → List (Nat × XRRCrtcInfo) → State → State
  | _, [], s => s
  | c, (crtc, g) :: rest, s =>
    enable_loop_reply R (c + 1) rest (enable_step_reply R c crtc g s)

/-- The transaction of `set_timing`, from `m_xerrors = 0` to the return, with
the status of every reply told apart from the X errors. -/
def transaction_reply (R : TimingReplies) (s : State) (out_crtc : Nat) (crtc_info : XRRCrtcInfo)
    (pxmode : XRRModeInfo) : Option (Bool × State) :=
  let s := { s with m_xerrors := 0 }
  -- Grab X server to prevent unwanted interaction from the window manager
  let s := XGrabServer s
  let crtcs := s.crtcs.map (fun e => e.1)
  match layout s out_crtc crtc_info pxmode with
  | none => none
  | some (global_crtc, width, height) =>
    let s := disable_loop_reply R 0 (crtcs.zip global_crtc) s
    let s := resize_step R.faults s width height
    let s := enable_loop_reply R 0 (crtcs.zip global_crtc) s
    -- Release X server, events can be processed now
    let s := XUngrabServer s
    -- Recall the impacted crtc to settle parameters
    match XRRGetCrtcInfo s out_crtc with
    | none => none
    | some crtc_info =>
      -- save last crtc
      let s := { s with m_last_crtc := crtc_info }
      some (decide (s.m_xerrors = 0), s)

/-- Embedding of `xrandr_timing::set_timing` with the status of every reply
told apart from the X errors; `set_timing` is the case in which every failing
request fails with an X error. -/
def set_timing_reply (H : Header) (R : TimingReplies) (s : State) (mode : modeline) :
    Option (Bool × State) :=
  -- Handle no screen detected case
  if s.m_desktop_output = -1 then some (false, s)
  else
    match target_mode H s mode with
    | none => some (false, s)
    | some pxmode =>
      match resources_output s s.m_desktop_output with
      | none => none
      | some output =>
        match XRRGetOutputInfo s output with
        | none => none
        | some output_info =>
          match XRRGetCrtcInfo s output_info.crtc with
          | none => none
          | some crtc_info =>
            if skip_test s pxmode crtc_info then some (true, s)
            else transaction_reply R s output_info.crtc (reference_crtc s crtc_info) pxmode

/-- Every request of the transaction takes effect, except that the re-enable
of the controller at position 1 is refused in the reply. -/
def refused_enable : TimingReplies :=
  { disable := fun _ => Reply.success
    resize := false
    enable := fun c => if c = 1 then Reply.refused else Reply.success }

/-- Every request of the transaction takes effect, except that the disable of
the controller at position 1 is refused in the reply. -/
def refused_disable : TimingReplies :=
  { disable := fun c => if c = 1 then Reply.refused else Reply.success
    resize := false
    enable := fun _ => Reply.success }

/-! ## Storage of the screen resources -/

/-- The storage `XRRGetScreenResourcesCurrent` hands out, one block per call:
the mode array of the snapshot, or `none` once `XRRFreeScreenResources` has
released the block. -/
structure Heap where
  blocks : List (Option (List XRRModeInfo))
deriving DecidableEq

/-- The pointer `&resources->modes[m]`: the block of `resources` and the
position `m` in its mode array. -/
structure ModePointer where
  resources : Nat
  m : Nat
deriving DecidableEq, Repr

/-- Model of `XRRGetScreenResourcesCurrent`: a new block that holds the live
modes. -/
def XRRGetScreenResourcesCurrent (s : State) (heap : Heap) : Nat × Heap :=
  (heap.blocks.length, { blocks := heap.blocks ++ [some s.modes] })

/-- Model of `XRRFreeScreenResources`: the block is released. -/
def XRRFreeScreenResources (heap : Heap) (resources : Nat) : Heap :=
  { blocks := heap.blocks.set resources none }

/-- A read through a mode pointer: the descriptor at that position of the
block, and `none` when the block has been released (a read of freed storage). -/
def read_mode (heap : Heap) (p : ModePointer) : Option XRRModeInfo :=
  match heap.blocks.get? p.resources with
  | some (some modes) => modes.get? p.m
  | _ => none

/-- The loop of `find_mode` from position `m`: it stops at the first mode
whose id is the handle and keeps `&resources->modes[m]`. -/
def find_mode_scan (platform_data : Nat) (resources : Nat) :
    List XRRModeInfo → Nat → Option ModePointer
  | [], _ => none
  | x :: rest, m =>
    if platform_data = x.id then some { resources := resources, m := m }
    else find_mode_scan platform_data resources rest (m + 1)

/-- Embedding of `xrandr_timing::find_mode` with the storage it works on: the
resources are fetched, scanned for the handle, released, and the pointer kept
from the scan is returned (`none` is `NULL`). -/
def find_mode_pointer (s : State) (heap : Heap) (mode : modeline) :
    Option ModePointer × Heap :=
  let (resources, heap) := XRRGetScreenResourcesCurrent s heap
  -- use platform_data (mode id) to return the mode
  let pxmode := find_mode_scan mode.platform_data resources s.modes 0
  let heap := XRRFreeScreenResources heap resources
  (pxmode, heap)

/-- Storage with no block handed out. -/
def empty_heap : Heap := { blocks := [] }

/-! ## The name buffer of `add_mode` -/

/-- Embedding of `char name[48]; sprintf(name, "SR-%d_%dx%d_%f", ...)` in
`add_mode`: the string left in the buffer, and `none` when the rendering with
its terminating NUL needs more than the 48 bytes of the buffer, so that
`sprintf` writes outside the array.  `mode_name` is the rendering, which
`make_xmode` passes on as it is. -/
def sprintf_name (H : Header) (m_id hactive vactive : Int) (vfreq : Rat) : Option String :=
  let name := mode_name H m_id hactive vactive vfreq
  if name.utf8ByteSize + 1 ≤ 48 then some name else none

/-- Header values with the rendering `%f` gives the frequency 10^30 (the
nearest `double`). -/
def long_frequency_header : Header :=
  { sample_header with fmt_f := fun _ => "1000000000000000019884624838656.000000" }

/-- The 640x480 sample request with a vertical frequency of 10^30. -/
def long_frequency_timing : modeline :=
  { sample_timing with vfreq := 1000000000000000000000000000000 }

/-- Embedding of `xrandr_timing::add_mode` with its name buffer: past the two
early returns the function renders the name into `char name[48]`, and the
result is `none` when that write leaves the array; when the name fits the
function goes on as `add_mode` describes. -/
def add_mode_buffer (H : Header) (fCreate fAttach fCleanup : Bool) (s : State) :
    Option modeline → Option (Bool × State × Option modeline)
  | none => some (false, s, none)
  | some mode =>
    if s.m_desktop_output = -1 then some (false, s, some mode)
    else
      -- Create specific mode name
      match sprintf_name H s.m_id mode.hactive mode.vactive mode.vfreq with
      | none => none
      | some _ => add_mode H fCreate fAttach fCleanup s (some mode)

/-! # Verification -/

/-! ## Machine arithmetic -/

theorem i32_of_fits (z : Int) (h : fits_int z) : i32 z = z := by
  obtain ⟨h1, h2⟩ := h
  unfold i32; omega

theorem i32_u32 (z : Int) : i32 (u32 z) = i32 z := by
  unfold i32 u32; omega

theorem u32_add_u32 (a b : Int) : u32 (a + u32 b) = u32 (a + b) := by
  unfold u32; omega

theorem u32_of_fits (z : Int) (h : fits_uint z) : (u32 z : Int) = z := by
  obtain ⟨h1, h2⟩ := h
  unfold u32; omega

/-- The relocation `x += new - old`, evaluated in `unsigned int` and stored in
an `int`, is the exact sum whenever that sum is representable. -/
theorem relocate_exact (x : Int) (new old : Nat) (h : fits_int (x + ((new : Int) - old))) :
    i32 (u32 (x + u32 ((new : Int) - old))) = x + ((new : Int) - old) := by
  rw [i32_u32, ← i32_u32 (x + _), u32_add_u32, i32_u32, i32_of_fits _ h]

/-- The threshold `x + (int) width` is the exact sum whenever it is representable. -/
theorem threshold_exact (x : Int) (w : Nat) (hw : (w : Int) < 2147483648)
    (h : fits_int (x + w)) : i32 (x + i32 w) = x + w := by
  rw [i32_of_fits (w : Int) ⟨by omega, hw⟩, i32_of_fits _ h]

/-! ## The layout pass -/

theorem XRRGetCrtcInfo_of_mem (s : State) (crtc : Nat)
    (h : crtc ∈ s.crtcs.map (fun e => e.1)) : ∃ snap, XRRGetCrtcInfo s crtc = some snap := by
  obtain ⟨e, he, rfl⟩ := List.mem_map.1 h
  unfold XRRGetCrtcInfo
  cases hf : s.crtcs.find? (fun e' => e'.1 == e.1) with
  | none =>
    have := List.find?_eq_none.1 hf e he
    simp at this
  | some e' => exact ⟨e'.2, rfl⟩

/-- The layout loop never fails on ids the server knows. -/
theorem layout_loop_total (s : State) (out_crtc : Nat) (crtc_info : XRRCrtcInfo)
    (pxmode : XRRModeInfo) :
    ∀ (ids : List Nat) (w h : Nat), (∀ id ∈ ids, id ∈ s.crtcs.map (fun e => e.1)) →
      ∃ r, layout_loop s out_crtc crtc_info pxmode ids w h = some r := by
  intro ids
  induction ids with
  | nil => intro w h _; exact ⟨_, rfl⟩
  | cons id rest ih =>
    intro w h hmem
    obtain ⟨snap, hsnap⟩ := XRRGetCrtcInfo_of_mem s id (hmem id (List.mem_cons_self _ _))
    obtain ⟨r, hr⟩ := ih (layout_crtc out_crtc crtc_info pxmode id snap w h).2.1
      (layout_crtc out_crtc crtc_info pxmode id snap w h).2.2
      (fun i hi => hmem i (List.mem_cons_of_mem _ hi))
    refine ⟨((layout_crtc out_crtc crtc_info pxmode id snap w h).1 :: r.1, r.2.1, r.2.2), ?_⟩
    simp only [layout_loop, hsnap, hr]

/-- Entry `c` of `global_crtc` is what `layout_crtc` makes of the snapshot of
`resources->crtcs[c]`, for the running size at that iteration. -/
theorem layout_loop_get (s : State) (out_crtc : Nat) (crtc_info : XRRCrtcInfo)
    (pxmode : XRRModeInfo) :
    ∀ (ids : List Nat) (w h : Nat) (g : List XRRCrtcInfo) (w' h' : Nat),
      layout_loop s out_crtc crtc_info pxmode ids w h = some (g, w', h') →
      ∀ (c id : Nat), ids.get? c = some id →
        ∃ snap w0 h0, XRRGetCrtcInfo s id = some snap ∧
          g.get? c = some (layout_crtc out_crtc crtc_info pxmode id snap w0 h0).1 := by
  intro ids
  induction ids with
  | nil => intro w h g w' h' _ c id hc; simp at hc
  | cons i rest ih =>
    intro w h g w' h' hl c id hc
    simp only [layout_loop] at hl
    cases hsnap : XRRGetCrtcInfo s i with
    | none => simp [hsnap] at hl
    | some snap =>
      simp only [hsnap] at hl
      cases hrest : layout_loop s out_crtc crtc_info pxmode rest
          (layout_crtc out_crtc crtc_info pxmode i snap w h).2.1
          (layout_crtc out_crtc crtc_info pxmode i snap w h).2.2 with
      | none => simp [hrest] at hl
      | some r =>
        obtain ⟨g1, w1, h1⟩ := r
        simp only [hrest, Option.some.injEq, Prod.mk.injEq] at hl
        obtain ⟨hg, _, _⟩ := hl
        subst hg
        cases c with
        | zero =>
          simp only [List.get?_cons_zero, Option.some.injEq] at hc
          subst hc
          exact ⟨snap, w, h, hsnap, rfl⟩
        | succ c =>
          simp only [List.get?_cons_succ] at hc
          obtain ⟨snap1, w0, h0, hs1, hg1⟩ := ih _ _ g1 w1 h1 hrest c id hc
          exact ⟨snap1, w0, h0, hs1, by simpa using hg1⟩

/-- What the layout pass makes of a sibling that is in use. -/
theorem layout_crtc_sibling (out_crtc : Nat) (crtc_info : XRRCrtcInfo) (pxmode : XRRModeInfo)
    (crtc : Nat) (snap : XRRCrtcInfo) (w h : Nat)
    (hother : crtc ≠ out_crtc) (hbound : out_crtc ≠ 0) (hactive : snap.mode ≠ 0) :
    (layout_crtc out_crtc crtc_info pxmode crtc snap w h).1.x =
        (if snap.x ≥ i32 (crtc_info.x + i32 crtc_info.width) then
          i32 (u32 (snap.x + u32 ((pxmode.width : Int) - crtc_info.width))) else snap.x) ∧
    (layout_crtc out_crtc crtc_info pxmode crtc snap w h).1.y =
        (if snap.y ≥ i32 (crtc_info.y + i32 crtc_info.height) then
          i32 (u32 (snap.y + u32 ((pxmode.height : Int) - crtc_info.height))) else snap.y) := by
  unfold layout_crtc
  simp only [if_neg hother, hbound, hactive, or_self, if_false]
  constructor <;> split_ifs <;> rfl

/-- C1 (shift law).  When the cached baseline agrees with the live state of the
target, the layout pass of `set_timing` succeeds, and for every controller in
use other than the target: its new x is `x + (new_width - old_width)` if
`x ≥ target.x + target.old_width` and its old x otherwise, and likewise on y.
`set_timing` runs the pass with `out_crtc = output_info->crtc` and `live` the
snapshot of that controller.  The sums are taken to be representable in a C
`int`. -/
theorem set_timing_shift_law (s : State) (out_crtc : Nat) (live : XRRCrtcInfo)
    (pxmode : XRRModeInfo)
    (hagree : s.m_last_crtc.mode = live.mode) (hbound : out_crtc ≠ 0)
    (hw : (live.width : Int) < 2147483648) (hh : (live.height : Int) < 2147483648)
    (hx : fits_int (live.x + live.width)) (hy : fits_int (live.y + live.height)) :
    ∃ g w h, layout s out_crtc (reference_crtc s live) pxmode = some (g, w, h) ∧
      ∀ (c crtc : Nat) (snap : XRRCrtcInfo),
        (s.crtcs.map (fun e => e.1)).get? c = some crtc → XRRGetCrtcInfo s crtc = some snap →
        crtc ≠ out_crtc → snap.mode ≠ 0 →
        (snap.x ≥ live.x + live.width → fits_int (snap.x + ((pxmode.width : Int) - live.width))) →
        (snap.y ≥ live.y + live.height →
          fits_int (snap.y + ((pxmode.height : Int) - live.height))) →
        ∃ g_c, g.get? c = some g_c ∧
          g_c.x = (if snap.x ≥ live.x + live.width then
                     snap.x + ((pxmode.width : Int) - live.width) else snap.x) ∧
          g_c.y = (if snap.y ≥ live.y + live.height then
                     snap.y + ((pxmode.height : Int) - live.height) else snap.y) := by
  have href : reference_crtc s live = live := by
    unfold reference_crtc; simp [hagree]
  obtain ⟨⟨g, w, h⟩, hl⟩ := layout_loop_total s out_crtc live pxmode
    (s.crtcs.map (fun e => e.1)) 0 0 (fun _ hid => hid)
  refine ⟨g, w, h, by rw [href]; exact hl, ?_⟩
  intro c crtc snap hc hsnap hother hactive hfx hfy
  obtain ⟨snap1, w0, h0, hs1, hg⟩ := layout_loop_get s out_crtc live pxmode _ 0 0 g w h hl c crtc hc
  rw [hsnap] at hs1
  cases hs1
  refine ⟨_, hg, ?_⟩
  have hsib := layout_crtc_sibling out_crtc live pxmode crtc snap w0 h0 hother hbound hactive
  rw [threshold_exact _ _ hw hx, threshold_exact _ _ hh hy] at hsib
  obtain ⟨h1, h2⟩ := hsib
  constructor
  · rw [h1]
    split_ifs with hge
    · exact relocate_exact _ _ _ (hfx hge)
    · rfl
  · rw [h2]
    split_ifs with hge
    · exact relocate_exact _ _ _ (hfy hge)
    · rfl

/-- In the two-controller sample the sibling at position 1 lands at (800, 0). -/
theorem set_timing_shift_law_witness :
    ∃ g w h, layout two_crtc_state 10
        (reference_crtc two_crtc_state (sample_crtc 0 0 640 480 100 [20]))
        (sample_mode 101 800 600) = some (g, w, h) ∧
      ∃ g_c, g.get? 1 = some g_c ∧ g_c.x = 800 ∧ g_c.y = 0 := by
  obtain ⟨g, w, h, hl, hall⟩ := set_timing_shift_law two_crtc_state 10
    (sample_crtc 0 0 640 480 100 [20]) (sample_mode 101 800 600)
    (by decide) (by decide) (by decide) (by decide) (by decide) (by decide)
  obtain ⟨g_c, hg, hx, hy⟩ := hall 1 11 (sample_crtc 640 0 640 480 100 [21])
    (by decide) (by decide) (by decide) (by decide) (fun _ => by decide) (fun _ => by decide)
  exact ⟨g, w, h, hl, g_c, hg, by rw [hx]; decide, by rw [hy]; decide⟩

/-! ## Bounding box -/

/-- Running size after one iteration, in machine arithmetic. -/
theorem layout_crtc_size (out_crtc : Nat) (crtc_info : XRRCrtcInfo) (pxmode : XRRModeInfo)
    (crtc : Nat) (snap : XRRCrtcInfo) (w h : Nat) (hbound : out_crtc ≠ 0) :
    let r := layout_crtc out_crtc crtc_info pxmode crtc snap w h
    r.2.1 = (if counted out_crtc (crtc, r.1) then max w (u32 (extent_x r.1)) else w) ∧
    r.2.2 = (if counted out_crtc (crtc, r.1) then max h (u32 (extent_y r.1)) else h) := by
  have hmax : ∀ a b : Nat, (if a > b then a else b) = max b a := by
    intro a b; rw [max_def]; split_ifs <;> omega
  unfold layout_crtc counted extent_x extent_y
  by_cases htarget : crtc = out_crtc
  · simp only [if_pos htarget, hmax]
    split_ifs <;> simp_all
  · by_cases hidle : snap.mode = 0
    · simp [htarget, hbound, hidle]
    · simp only [if_neg htarget, hbound, hidle, or_self, if_false, hmax]
      split_ifs <;> simp_all

/-- The size the layout loop returns, in machine arithmetic. -/
theorem layout_loop_size (s : State) (out_crtc : Nat) (crtc_info : XRRCrtcInfo)
    (pxmode : XRRModeInfo) (hbound : out_crtc ≠ 0) :
    ∀ (ids : List Nat) (w h : Nat) (g : List XRRCrtcInfo) (w' h' : Nat),
      layout_loop s out_crtc crtc_info pxmode ids w h = some (g, w', h') →
      w' = max w ((((ids.zip g).filter (counted out_crtc)).map
              (fun e => u32 (extent_x e.2))).foldr max 0) ∧
      h' = max h ((((ids.zip g).filter (counted out_crtc)).map
              (fun e => u32 (extent_y e.2))).foldr max 0) := by
  intro ids
  induction ids with
  | nil =>
    intro w h g w' h' hl
    simp only [layout_loop, Option.some.injEq, Prod.mk.injEq] at hl
    obtain ⟨rfl, rfl, rfl⟩ := hl
    simp
  | cons i rest ih =>
    intro w h g w' h' hl
    simp only [layout_loop] at hl
    cases hsnap : XRRGetCrtcInfo s i with
    | none => simp [hsnap] at hl
    | some snap =>
      simp only [hsnap] at hl
      cases hrest : layout_loop s out_crtc crtc_info pxmode rest
          (layout_crtc out_crtc crtc_info pxmode i snap w h).2.1
          (layout_crtc out_crtc crtc_info pxmode i snap w h).2.2 with
      | none => simp [hrest] at hl
      | some r =>
        obtain ⟨g1, w1, h1⟩ := r
        simp only [hrest, Option.some.injEq, Prod.mk.injEq] at hl
        obtain ⟨rfl, rfl, rfl⟩ := hl
        obtain ⟨ihw, ihh⟩ := ih _ _ g1 w1 h1 hrest
        obtain ⟨hw, hh⟩ := layout_crtc_size out_crtc crtc_info pxmode i snap w h hbound
        rw [ihw, ihh, hw, hh]
        simp only [List.zip_cons_cons, List.filter_cons]
        by_cases hc : counted out_crtc (i, (layout_crtc out_crtc crtc_info pxmode i snap w h).1)
        · simp only [hc, if_true, List.map_cons, List.foldr_cons]
          exact ⟨by rw [max_assoc], by rw [max_assoc]⟩
        · simp only [hc, if_false, Bool.false_eq_true]
          exact ⟨trivial, trivial⟩

/-- Machine maximum and exact maximum agree on representable edges. -/
theorem max_extent_exact (f : XRRCrtcInfo → Int) :
    ∀ l : List (Nat × XRRCrtcInfo), (∀ e ∈ l, fits_uint (f e.2)) →
      (((l.map (fun e => u32 (f e.2))).foldr max 0 : Nat) : Int) =
        max_extent (l.map (fun e => f e.2)) := by
  intro l
  induction l with
  | nil => intro _; simp [max_extent]
  | cons e rest ih =>
    intro hfit
    have h1 := u32_of_fits _ (hfit e (List.mem_cons_self _ _))
    have h2 := ih (fun e' he' => hfit e' (List.mem_cons_of_mem _ he'))
    simp only [max_extent] at h2 ⊢
    simp only [List.map_cons, List.foldr_cons, Nat.cast_max, h1, h2]

/-- When it is reached without a recorded fault, the resize step issues exactly
one request, with the size it is given. -/
theorem resize_step_calls (F : TimingFaults) (s : State) (w h : Nat) (h0 : s.m_xerrors = 0) :
    (resize_step F s w h).calls = s.calls ++ [Call.XRRSetScreenSize w h] := by
  unfold resize_step XSetErrorHandler XRRSetScreenSize deliver
  cases F.resize <;> simp [h0]

/-- C2 as stated fails: a controller that is switched off is not measured.  In
`idle_crtc_state` the layout for the 800x600 mode yields width 800, while the
maximum of `origin + size` over all controllers after classification is 1000. -/
theorem set_timing_bounding_box_all_controllers_counterexample :
    ¬ (∀ (s : State) (out_crtc : Nat) (crtc_info : XRRCrtcInfo) (pxmode : XRRModeInfo)
        (g : List XRRCrtcInfo) (w h : Nat),
        layout s out_crtc crtc_info pxmode = some (g, w, h) →
        (w : Int) = claimed_width g ∧ (h : Int) = claimed_height g) := by
  intro hall
  have h := hall idle_crtc_state 10 (sample_crtc 0 0 640 480 100 [20]) (sample_mode 101 800 600)
    [{ sample_crtc 0 0 800 600 101 [20] with timestamp := 1 }, sample_crtc 1000 0 0 0 0 []]
    800 600 (by decide)
  revert h
  decide

/-- C2, amended.  The layout pass of `set_timing` succeeds, and the width and
height it hands to the frame-buffer resize are, per axis, the maximum of
`origin + size` over the target (new size, reference origin) and the other
controllers that show a mode, at their origins after classification;
controllers that are switched off are not measured.  The edges are taken to be
representable in a C `unsigned int`. -/
theorem set_timing_bounding_box (s : State) (out_crtc : Nat) (crtc_info : XRRCrtcInfo)
    (pxmode : XRRModeInfo) (hbound : out_crtc ≠ 0) :
    ∃ g w h, layout s out_crtc crtc_info pxmode = some (g, w, h) ∧
      ((∀ e ∈ ((s.crtcs.map (fun e => e.1)).zip g).filter (counted out_crtc),
          fits_uint (extent_x e.2) ∧ fits_uint (extent_y e.2)) →
        (w : Int) = bounding_width out_crtc (s.crtcs.map (fun e => e.1)) g ∧
        (h : Int) = bounding_height out_crtc (s.crtcs.map (fun e => e.1)) g) ∧
      ∀ (F : TimingFaults) (s' : State), s'.m_xerrors = 0 →
        (resize_step F s' w h).calls = s'.calls ++ [Call.XRRSetScreenSize w h] := by
  obtain ⟨⟨g, w, h⟩, hl⟩ := layout_loop_total s out_crtc crtc_info pxmode
    (s.crtcs.map (fun e => e.1)) 0 0 (fun _ hid => hid)
  refine ⟨g, w, h, hl, ?_, fun F s' h0 => resize_step_calls F s' w h h0⟩
  intro hfit
  obtain ⟨hw, hh⟩ := layout_loop_size s out_crtc crtc_info pxmode hbound _ 0 0 g w h hl
  rw [Nat.zero_max] at hw hh
  unfold bounding_width bounding_height
  rw [hw, hh]
  exact ⟨max_extent_exact extent_x _ (fun e he => (hfit e he).1),
    max_extent_exact extent_y _ (fun e he => (hfit e he).2)⟩

/-- In the two-controller sample the layout for the 800x600 mode asks for a
1440x600 frame buffer, the bounding box of the two controllers in use. -/
theorem set_timing_bounding_box_witness :
    ∃ g w h, layout two_crtc_state 10 (sample_crtc 0 0 640 480 100 [20])
        (sample_mode 101 800 600) = some (g, w, h) ∧
      (w : Int) = bounding_width 10 [10, 11] g ∧ (h : Int) = bounding_height 10 [10, 11] g ∧
      w = 1440 ∧ h = 600 := by
  obtain ⟨g, w, h, hl, hbox, _⟩ := set_timing_bounding_box two_crtc_state 10
    (sample_crtc 0 0 640 480 100 [20]) (sample_mode 101 800 600) (by decide)
  have hval : layout two_crtc_state 10 (sample_crtc 0 0 640 480 100 [20])
      (sample_mode 101 800 600) =
      some ([{ sample_crtc 0 0 800 600 101 [20] with timestamp := 1 },
             { sample_crtc 800 0 640 480 100 [21] with timestamp := 2 }], 1440, 600) := by
    decide
  rw [hval] at hl
  simp only [Option.some.injEq, Prod.mk.injEq] at hl
  obtain ⟨rfl, rfl, rfl⟩ := hl
  have hb := hbox (by decide)
  exact ⟨_, _, _, hval, hb.1, hb.2, rfl, rfl⟩

/-! ## The two-controller scenario -/

/-- C3 as stated fails: in the two-controller scenario `set_timing` does not
leave a 1400x600 frame buffer (it asks for 1440x600). -/
theorem set_timing_scenario_1400_counterexample :
    ¬ ∃ r, set_timing sample_header no_faults two_crtc_state (sample_request 101) = some r ∧
        r.2.screen_width = 1400 ∧ r.2.screen_height = 600 := by
  have h : (set_timing sample_header no_faults two_crtc_state (sample_request 101)).map
      (fun r => r.2.screen_width) = some 1440 := by decide
  rintro ⟨r, hr, hw, _⟩
  rw [hr] at h
  simp only [Option.map_some', Option.some.injEq] at h
  omega

/-- C3, amended.  With the target controller 10 at (0,0) sized 640x480 and the
sibling 11 in use at (640,0) sized 640x480, `set_timing` to the 800x600 mode
returns true, leaves the target at (0,0) showing 800x600, moves the sibling to
(800,0) and resizes the frame buffer to 1440x600; the requests issued are the
grab, the two disables, the resize, the two re-enables and the ungrab. -/
theorem set_timing_scenario_two_controllers :
    (set_timing sample_header no_faults two_crtc_state (sample_request 101)).map
      (fun r => (r.1, XRRGetCrtcInfo r.2 10, XRRGetCrtcInfo r.2 11,
                 r.2.screen_width, r.2.screen_height, r.2.calls)) =
    some (true, some (sample_crtc 0 0 800 600 101 [20]), some (sample_crtc 800 0 640 480 100 [21]),
          1440, 600,
          [Call.XGrabServer,
           Call.XRRSetCrtcConfig 10 0 0 0 RR_Rotate_0 [],
           Call.XRRSetCrtcConfig 11 0 0 0 RR_Rotate_0 [],
           Call.XRRSetScreenSize 1440 600,
           Call.XRRSetCrtcConfig 10 0 0 101 1 [20],
           Call.XRRSetCrtcConfig 11 800 0 100 1 [21],
           Call.XUngrabServer]) := by
  rfl

/-! ## Fault bits -/

theorem Recorded.ne_zero {m : Nat} (h : Recorded m) : m ≠ 0 := by
  intro h0
  subst h0
  simp [Recorded] at h

theorem Recorded.or {m : Nat} (h : Recorded m) (k : Nat) : Recorded (m ||| k) := by
  unfold Recorded at h ⊢
  simp only [Nat.testBit_or, Bool.or_eq_true]
  tauto

theorem Recorded.and_ef {m : Nat} (h : Recorded m) : Recorded (m &&& 0xEF) := by
  unfold Recorded at h ⊢
  have h0 : Nat.testBit 0xEF 0 = true := by decide
  have h1 : Nat.testBit 0xEF 1 = true := by decide
  have h2 : Nat.testBit 0xEF 2 = true := by decide
  simp only [Nat.testBit_and, Bool.and_eq_true, h0, h1, h2, and_true]
  exact h

theorem recorded_or_one (m : Nat) : Recorded (m ||| 0x01) := by
  have h0 : Nat.testBit 0x01 0 = true := by decide
  exact Or.inl (by rw [Nat.testBit_or, h0, Bool.or_true])

theorem recorded_or_two (m : Nat) : Recorded (m ||| 0x02) := by
  have h1 : Nat.testBit 0x02 1 = true := by decide
  exact Or.inr (Or.inl (by rw [Nat.testBit_or, h1, Bool.or_true]))

theorem recorded_or_enable (m : Nat) : Recorded (m ||| 0x14) := by
  have h2 : Nat.testBit 0x14 2 = true := by decide
  exact Or.inr (Or.inr (by rw [Nat.testBit_or, h2, Bool.or_true]))

/-! ## Lookups in the server tables after a `XRRSetCrtcConfig` -/

theorem map_config_crtc_ids (s0 : State) (crtc : Nat) (x y : Int) (mode rotation : Nat)
    (outputs : List Nat) (l : List (Nat × XRRCrtcInfo)) :
    (l.map (config_crtc s0 crtc x y mode rotation outputs)).map (fun e => e.1) =
      l.map (fun e => e.1) := by
  rw [List.map_map]
  apply List.map_congr_left
  intro e _
  simp only [Function.comp, config_crtc]
  split_ifs <;> rfl

theorem map_config_output_ids (crtc : Nat) (outputs : List Nat)
    (l : List (Nat × XRROutputInfo)) :
    (l.map (config_output crtc outputs)).map (fun e => e.1) = l.map (fun e => e.1) := by
  rw [List.map_map]
  apply List.map_congr_left
  intro e _
  simp only [Function.comp, config_output]
  split_ifs <;> rfl

/-! ## One `XRRSetCrtcConfig` -/

theorem setconfig_frame (f : Bool) (s : State) (crtc : Nat) (x y : Int) (mode rotation : Nat)
    (outputs : List Nat) : Frame s (XRRSetCrtcConfig f s crtc x y mode rotation outputs).2 := by
  cases f
  · exact ⟨rfl, rfl, rfl, rfl, map_config_crtc_ids _ _ _ _ _ _ _ _,
      map_config_output_ids _ _ _⟩
  · unfold XRRSetCrtcConfig deliver
    constructor <;> (simp only [if_true]; split_ifs <;> rfl)

theorem Frame.refl (s : State) : Frame s s := ⟨rfl, rfl, rfl, rfl, rfl, rfl⟩

theorem Frame.trans {s1 s2 s3 : State} (h12 : Frame s1 s2) (h23 : Frame s2 s3) : Frame s1 s3 :=
  ⟨h23.modes.trans h12.modes, h23.desktop_mode.trans h12.desktop_mode,
   h23.desktop_output.trans h12.desktop_output, h23.last_crtc.trans h12.last_crtc,
   h23.crtc_ids.trans h12.crtc_ids, h23.output_ids.trans h12.output_ids⟩

theorem setconfig_recorded (f : Bool) (s : State) (crtc : Nat) (x y : Int) (mode rotation : Nat)
    (outputs : List Nat) (h : Recorded s.m_xerrors) :
    Recorded (XRRSetCrtcConfig f s crtc x y mode rotation outputs).2.m_xerrors := by
  cases f
  · exact h
  · unfold XRRSetCrtcConfig deliver
    simp only [if_true]
    split_ifs
    · exact h.or _
    · exact h

/-- The state in which the re-enable loop issues its request. -/
theorem enable_step_eq (F : TimingFaults) (c crtc : Nat) (g : XRRCrtcInfo) (s : State)
    (h : g.mode ≠ 0 ∧ (g.timestamp = 1 ∨ g.timestamp = 2)) :
    ∃ m, enable_step F c crtc g s =
      { (XRRSetCrtcConfig (F.enable c)
          { s with m_xerrors_flag := 0x14, handler := Handler.error_handler,
                   old_error_handler := s.handler }
          crtc g.x g.y g.mode g.rotation g.outputs).2 with m_xerrors := m } := by
  unfold enable_step XSetErrorHandler
  simp only [if_pos h]
  split_ifs
  · exact ⟨_, rfl⟩
  · exact ⟨_, rfl⟩

/-- The state the disable loop leaves after its request. -/
theorem disable_step_eq (F : TimingFaults) (c crtc : Nat) (g : XRRCrtcInfo) (s : State)
    (h : g.timestamp = 1 ∨ g.timestamp = 2) :
    ∃ m fl, disable_step F c crtc g s =
      { (XRRSetCrtcConfig (F.disable c) s crtc 0 0 0 RR_Rotate_0 []).2 with
        m_xerrors := m, m_xerrors_flag := fl } := by
  unfold disable_step
  simp only [if_pos h]
  split_ifs
  · exact ⟨_, _, rfl⟩
  · exact ⟨_, _, rfl⟩

theorem disable_step_frame (F : TimingFaults) (c crtc : Nat) (g : XRRCrtcInfo) (s : State) :
    Frame s (disable_step F c crtc g s) := by
  by_cases h : g.timestamp = 1 ∨ g.timestamp = 2
  · obtain ⟨m, fl, heq⟩ := disable_step_eq F c crtc g s h
    rw [heq]
    have hf := setconfig_frame (F.disable c) s crtc 0 0 0 RR_Rotate_0 []
    exact ⟨hf.modes, hf.desktop_mode, hf.desktop_output, hf.last_crtc, hf.crtc_ids, hf.output_ids⟩
  · unfold disable_step
    rw [if_neg h]
    exact Frame.refl s

theorem enable_step_frame (F : TimingFaults) (c crtc : Nat) (g : XRRCrtcInfo) (s : State) :
    Frame s (enable_step F c crtc g s) := by
  by_cases h : g.mode ≠ 0 ∧ (g.timestamp = 1 ∨ g.timestamp = 2)
  · obtain ⟨m, heq⟩ := enable_step_eq F c crtc g s h
    rw [heq]
    have hf := setconfig_frame (F.enable c)
      { s with m_xerrors_flag := 0x14, handler := Handler.error_handler,
               old_error_handler := s.handler } crtc g.x g.y g.mode g.rotation g.outputs
    exact ⟨hf.modes, hf.desktop_mode, hf.desktop_output, hf.last_crtc, hf.crtc_ids, hf.output_ids⟩
  · unfold enable_step
    rw [if_neg h]
    exact Frame.refl s

theorem disable_step_recorded (F : TimingFaults) (c crtc : Nat) (g : XRRCrtcInfo) (s : State)
    (h : Recorded s.m_xerrors) : Recorded (disable_step F c crtc g s).m_xerrors := by
  by_cases hx : g.timestamp = 1 ∨ g.timestamp = 2
  · unfold disable_step
    simp only [if_pos hx]
    split_ifs
    · exact setconfig_recorded _ _ _ _ _ _ _ _ h
    · exact recorded_or_one _
  · unfold disable_step
    rw [if_neg hx]
    exact h

theorem enable_step_recorded (F : TimingFaults) (c crtc : Nat) (g : XRRCrtcInfo) (s : State)
    (h : Recorded s.m_xerrors) : Recorded (enable_step F c crtc g s).m_xerrors := by
  by_cases hx : g.mode ≠ 0 ∧ (g.timestamp = 1 ∨ g.timestamp = 2)
  · have hr := setconfig_recorded (F.enable c)
      { s with m_xerrors_flag := 0x14, handler := Handler.error_handler,
               old_error_handler := s.handler } crtc g.x g.y g.mode g.rotation g.outputs h
    unfold enable_step XSetErrorHandler
    simp only [if_pos hx]
    split_ifs
    · exact hr.and_ef
    · exact hr
  · unfold enable_step
    rw [if_neg hx]
    exact h

/-- A re-enable that faults leaves a recorded fault. -/
theorem enable_step_fault (F : TimingFaults) (c crtc : Nat) (g : XRRCrtcInfo) (s : State)
    (h : g.mode ≠ 0 ∧ (g.timestamp = 1 ∨ g.timestamp = 2)) (hf : F.enable c = true) :
    Recorded (enable_step F c crtc g s).m_xerrors := by
  unfold enable_step XSetErrorHandler XRRSetCrtcConfig deliver
  simp only [if_pos h, hf, if_true, Bool.true_and, beq_self_eq_true]
  split_ifs
  · exact (recorded_or_enable _).and_ef
  · exact recorded_or_enable _

theorem resize_step_frame (F : TimingFaults) (s : State) (w h : Nat) :
    Frame s (resize_step F s w h) ∧ (resize_step F s w h).crtcs = s.crtcs ∧
      (resize_step F s w h).outputs = s.outputs := by
  unfold resize_step XSetErrorHandler XRRSetScreenSize deliver
  cases F.resize <;> simp only [if_true] <;> split_ifs <;>
    exact ⟨⟨rfl, rfl, rfl, rfl, rfl, rfl⟩, rfl, rfl⟩

theorem resize_step_recorded (F : TimingFaults) (s : State) (w h : Nat)
    (hr : Recorded s.m_xerrors) : Recorded (resize_step F s w h).m_xerrors := by
  unfold resize_step
  rw [if_neg hr.ne_zero]
  exact hr

theorem disable_loop_frame (F : TimingFaults) :
    ∀ (l : List (Nat × XRRCrtcInfo)) (c : Nat) (s : State), Frame s (disable_loop F c l s) := by
  intro l
  induction l with
  | nil => intro c s; exact Frame.refl s
  | cons p rest ih =>
    intro c s
    exact (disable_step_frame F c p.1 p.2 s).trans (ih (c + 1) _)

theorem enable_loop_frame (F : TimingFaults) :
    ∀ (l : List (Nat × XRRCrtcInfo)) (c : Nat) (s : State), Frame s (enable_loop F c l s) := by
  intro l
  induction l with
  | nil => intro c s; exact Frame.refl s
  | cons p rest ih =>
    intro c s
    exact (enable_step_frame F c p.1 p.2 s).trans (ih (c + 1) _)

theorem enable_loop_recorded (F : TimingFaults) :
    ∀ (l : List (Nat × XRRCrtcInfo)) (c : Nat) (s : State), Recorded s.m_xerrors →
      Recorded (enable_loop F c l s).m_xerrors := by
  intro l
  induction l with
  | nil => intro c s h; exact h
  | cons p rest ih =>
    intro c s h
    exact ih (c + 1) _ (enable_step_recorded F c p.1 p.2 s h)

theorem layout_loop_length (s : State) (out_crtc : Nat) (crtc_info : XRRCrtcInfo)
    (pxmode : XRRModeInfo) :
    ∀ (ids : List Nat) (w h : Nat) (g : List XRRCrtcInfo) (w' h' : Nat),
      layout_loop s out_crtc crtc_info pxmode ids w h = some (g, w', h') →
      g.length = ids.length := by
  intro ids
  induction ids with
  | nil =>
    intro w h g w' h' hl
    simp only [layout_loop, Option.some.injEq, Prod.mk.injEq] at hl
    obtain ⟨rfl, _, _⟩ := hl
    rfl
  | cons i rest ih =>
    intro w h g w' h' hl
    simp only [layout_loop] at hl
    cases hsnap : XRRGetCrtcInfo s i with
    | none => simp [hsnap] at hl
    | some snap =>
      simp only [hsnap] at hl
      cases hrest : layout_loop s out_crtc crtc_info pxmode rest
          (layout_crtc out_crtc crtc_info pxmode i snap w h).2.1
          (layout_crtc out_crtc crtc_info pxmode i snap w h).2.2 with
      | none => simp [hrest] at hl
      | some r =>
        obtain ⟨g1, w1, h1⟩ := r
        simp only [hrest, Option.some.injEq, Prod.mk.injEq] at hl
        rw [← hl.1, List.length_cons, List.length_cons, ih _ _ g1 w1 h1 hrest]

/-- The target after classification: new mode at the reference origin, the
outputs of the snapshot; role marker 1 when anything changes and 3 otherwise. -/
theorem layout_crtc_target (out_crtc : Nat) (crtc_info : XRRCrtcInfo) (pxmode : XRRModeInfo)
    (snap : XRRCrtcInfo) (w h : Nat) :
    let r := (layout_crtc out_crtc crtc_info pxmode out_crtc snap w h).1
    r.mode = pxmode.id ∧ r.x = crtc_info.x ∧ r.y = crtc_info.y ∧ r.outputs = snap.outputs ∧
      (r.timestamp = 1 ∨ (r.timestamp = 3 ∧ snap.mode = pxmode.id)) := by
  unfold layout_crtc
  by_cases hch : snap.mode ≠ pxmode.id ∨ snap.width ≠ pxmode.width ∨
      snap.height ≠ pxmode.height ∨ snap.x ≠ crtc_info.x ∨ snap.y ≠ crtc_info.y
  · rw [if_pos rfl]
    simp only [if_pos hch]
    simp
  · have hm : snap.mode = pxmode.id := by
      by_contra hne
      exact hch (Or.inl hne)
    rw [if_pos rfl]
    simp only [if_neg hch]
    simp [hm]

/-- A controller other than the target keeps its mode and its outputs. -/
theorem layout_crtc_other (out_crtc : Nat) (crtc_info : XRRCrtcInfo) (pxmode : XRRModeInfo)
    (crtc : Nat) (snap : XRRCrtcInfo) (w h : Nat) (hother : crtc ≠ out_crtc) :
    (layout_crtc out_crtc crtc_info pxmode crtc snap w h).1.outputs = snap.outputs ∧
    (layout_crtc out_crtc crtc_info pxmode crtc snap w h).1.mode = snap.mode := by
  unfold layout_crtc
  simp only [if_neg hother]
  split_ifs <;> exact ⟨rfl, rfl⟩

theorem mem_of_XRRGetCrtcInfo (s : State) (crtc : Nat) (snap : XRRCrtcInfo)
    (h : XRRGetCrtcInfo s crtc = some snap) : (crtc, snap) ∈ s.crtcs := by
  unfold XRRGetCrtcInfo at h
  cases hf : s.crtcs.find? (fun e => e.1 == crtc) with
  | none => simp [hf] at h
  | some e =>
    rw [hf] at h
    simp only [Option.map_some', Option.some.injEq] at h
    have hk : e.1 = crtc := by simpa using List.find?_some hf
    have hmem := List.mem_of_find?_eq_some hf
    rw [← hk, ← h]
    exact hmem

/-! ## The state a successful transaction leaves -/

/-- The stages of a transaction that does not stop on a null pointer. -/
theorem transaction_some (F : TimingFaults) (s s1 : State) (t : Nat) (ref : XRRCrtcInfo)
    (pxmode : XRRModeInfo) (b : Bool) (h : transaction F s t ref pxmode = some (b, s1)) :
    ∃ g w hh c1,
      layout (XGrabServer { s with m_xerrors := 0 }) t ref pxmode = some (g, w, hh) ∧
      XRRGetCrtcInfo
        (enable_loop F 0 ((s.crtcs.map (fun e => e.1)).zip g)
          (resize_step F (disable_loop F 0 ((s.crtcs.map (fun e => e.1)).zip g)
            (XGrabServer { s with m_xerrors := 0 })) w hh)) t = some c1 ∧
      b = decide ((enable_loop F 0 ((s.crtcs.map (fun e => e.1)).zip g)
          (resize_step F (disable_loop F 0 ((s.crtcs.map (fun e => e.1)).zip g)
            (XGrabServer { s with m_xerrors := 0 })) w hh)).m_xerrors = 0) ∧
      s1 = { XUngrabServer (enable_loop F 0 ((s.crtcs.map (fun e => e.1)).zip g)
          (resize_step F (disable_loop F 0 ((s.crtcs.map (fun e => e.1)).zip g)
            (XGrabServer { s with m_xerrors := 0 })) w hh)) with m_last_crtc := c1 } := by
  unfold transaction at h
  simp only at h
  split at h
  · exact absurd h (by simp)
  · rename_i g w hh hl
    split at h
    · exact absurd h (by simp)
    · rename_i c1 hc1
      simp only [Option.some.injEq, Prod.mk.injEq] at h
      exact ⟨g, w, hh, c1, hl, hc1, h.1.symm, h.2.symm⟩

theorem resources_output_congr (s s1 : State) (o : Int)
    (h : s1.outputs.map (fun e => e.1) = s.outputs.map (fun e => e.1)) :
    resources_output s1 o = resources_output s o := by
  unfold resources_output
  simp only [List.get?_eq_getElem?]
  rw [← List.getElem?_map, ← List.getElem?_map, h]

theorem setconfig_calls (f : Bool) (s : State) (crtc : Nat) (x y : Int) (mode rotation : Nat)
    (outputs : List Nat) :
    (XRRSetCrtcConfig f s crtc x y mode rotation outputs).2.calls =
      s.calls ++ [Call.XRRSetCrtcConfig crtc x y mode rotation outputs] := by
  cases f
  · rfl
  · unfold XRRSetCrtcConfig deliver
    simp only [if_true]
    split_ifs <;> rfl

theorem disable_step_calls_mem (F : TimingFaults) (c crtc : Nat) (g : XRRCrtcInfo) (s : State)
    (a : Call) (ha : a ∈ s.calls) : a ∈ (disable_step F c crtc g s).calls := by
  by_cases h : g.timestamp = 1 ∨ g.timestamp = 2
  · obtain ⟨m, fl, heq⟩ := disable_step_eq F c crtc g s h
    rw [heq]
    show a ∈ (XRRSetCrtcConfig (F.disable c) s crtc 0 0 0 RR_Rotate_0 []).2.calls
    rw [setconfig_calls]
    exact List.mem_append_left _ ha
  · unfold disable_step
    rw [if_neg h]
    exact ha

theorem enable_step_calls_mem (F : TimingFaults) (c crtc : Nat) (g : XRRCrtcInfo) (s : State)
    (a : Call) (ha : a ∈ s.calls) : a ∈ (enable_step F c crtc g s).calls := by
  by_cases h : g.mode ≠ 0 ∧ (g.timestamp = 1 ∨ g.timestamp = 2)
  · obtain ⟨m, heq⟩ := enable_step_eq F c crtc g s h
    rw [heq]
    show a ∈ (XRRSetCrtcConfig (F.enable c)
      { s with m_xerrors_flag := 0x14, handler := Handler.error_handler,
               old_error_handler := s.handler } crtc g.x g.y g.mode g.rotation g.outputs).2.calls
    rw [setconfig_calls]
    exact List.mem_append_left _ ha
  · unfold enable_step
    rw [if_neg h]
    exact ha

theorem disable_loop_calls_mem (F : TimingFaults) (a : Call) :
    ∀ (l : List (Nat × XRRCrtcInfo)) (c : Nat) (s : State), a ∈ s.calls →
      a ∈ (disable_loop F c l s).calls := by
  intro l
  induction l with
  | nil => intro c s h; exact h
  | cons p rest ih =>
    intro c s h
    exact ih (c + 1) _ (disable_step_calls_mem F c p.1 p.2 s a h)

theorem enable_loop_calls_mem (F : TimingFaults) (a : Call) :
    ∀ (l : List (Nat × XRRCrtcInfo)) (c : Nat) (s : State), a ∈ s.calls →
      a ∈ (enable_loop F c l s).calls := by
  intro l
  induction l with
  | nil => intro c s h; exact h
  | cons p rest ih =>
    intro c s h
    exact ih (c + 1) _ (enable_step_calls_mem F c p.1 p.2 s a h)

theorem resize_step_calls_mem (F : TimingFaults) (s : State) (w h : Nat) (a : Call)
    (ha : a ∈ s.calls) : a ∈ (resize_step F s w h).calls := by
  by_cases h0 : s.m_xerrors = 0
  · rw [resize_step_calls F s w h h0]
    exact List.mem_append_left _ ha
  · unfold resize_step
    rw [if_neg h0]
    exact ha

/-- A transaction on a controller the server knows runs to its end: it grabs
the server and returns a result. -/
theorem transaction_total (F : TimingFaults) (s : State) (t : Nat) (ref : XRRCrtcInfo)
    (pxmode : XRRModeInfo) (ht : t ∈ s.crtcs.map (fun e => e.1)) :
    ∃ r, transaction F s t ref pxmode = some r ∧ Call.XGrabServer ∈ r.2.calls := by
  obtain ⟨⟨g, w, h⟩, hl⟩ := layout_loop_total (XGrabServer { s with m_xerrors := 0 }) t ref pxmode
    (s.crtcs.map (fun e => e.1)) 0 0 (fun _ hid => hid)
  have hl' : layout (XGrabServer { s with m_xerrors := 0 }) t ref pxmode = some (g, w, h) := hl
  have hfg : Frame s (XGrabServer { s with m_xerrors := 0 }) := ⟨rfl, rfl, rfl, rfl, rfl, rfl⟩
  have hgrab : Call.XGrabServer ∈ (XGrabServer { s with m_xerrors := 0 }).calls :=
    List.mem_append_right _ (List.mem_singleton.2 rfl)
  have hfd := disable_loop_frame F ((s.crtcs.map (fun e => e.1)).zip g) 0
    (XGrabServer { s with m_xerrors := 0 })
  have hfr := (resize_step_frame F
    (disable_loop F 0 ((s.crtcs.map (fun e => e.1)).zip g)
      (XGrabServer { s with m_xerrors := 0 })) w h).1
  have hfe := enable_loop_frame F ((s.crtcs.map (fun e => e.1)).zip g) 0
    (resize_step F (disable_loop F 0 ((s.crtcs.map (fun e => e.1)).zip g)
      (XGrabServer { s with m_xerrors := 0 })) w h)
  have hf := ((hfg.trans hfd).trans hfr).trans hfe
  have hcalls := enable_loop_calls_mem F Call.XGrabServer
    ((s.crtcs.map (fun e => e.1)).zip g) 0 _
    (resize_step_calls_mem F _ w h _
      (disable_loop_calls_mem F Call.XGrabServer ((s.crtcs.map (fun e => e.1)).zip g) 0 _ hgrab))
  obtain ⟨se, hse⟩ : ∃ se, enable_loop F 0 ((s.crtcs.map (fun e => e.1)).zip g)
      (resize_step F (disable_loop F 0 ((s.crtcs.map (fun e => e.1)).zip g)
        (XGrabServer { s with m_xerrors := 0 })) w h) = se := ⟨_, rfl⟩
  rw [hse] at hf hcalls
  obtain ⟨c1, hc1⟩ := XRRGetCrtcInfo_of_mem se t (by rw [hf.crtc_ids]; exact ht)
  have hc1' : XRRGetCrtcInfo (XUngrabServer se) t = some c1 := hc1
  refine ⟨(decide ((XUngrabServer se).m_xerrors = 0),
    { XUngrabServer se with m_last_crtc := c1 }), ?_, ?_⟩
  · have hcr : (XGrabServer { s with m_xerrors := 0 }).crtcs = s.crtcs := rfl
    unfold transaction
    simp only [hl', hcr, hse, hc1']
  · exact List.mem_append_left _ hcalls

/-! ## The resync rule -/

/-- C5 as stated fails: in `drift_state` the cached mode (99) differs from the
live mode (100) of the target, which is live at (100, 0); `set_timing` does
not keep the target at its live origin. -/
theorem set_timing_resync_from_live_counterexample :
    ¬ ∃ r live e,
        set_timing sample_header no_faults drift_state (sample_request 101) = some r ∧
        XRRGetCrtcInfo drift_state 10 = some live ∧ drift_state.m_last_crtc.mode ≠ live.mode ∧
        XRRGetCrtcInfo r.2 10 = some e ∧ e.x = live.x ∧ e.y = live.y := by
  have h : (set_timing sample_header no_faults drift_state (sample_request 101)).map
      (fun r => (XRRGetCrtcInfo r.2 10).map (fun e => e.x)) = some (some 0) := by rfl
  have hl : XRRGetCrtcInfo drift_state 10 = some (sample_crtc 100 0 640 480 100 [20]) := by rfl
  rintro ⟨r, live, e, hr, hlive, _, he, hx, _⟩
  rw [hr] at h
  rw [hl] at hlive
  cases hlive
  simp only [Option.map_some', Option.some.injEq, he] at h
  rw [hx] at h
  revert h
  decide

/-- C5, amended.  When the mode cached in `m_last_crtc` differs from the live
mode of the controller of the managed output, `set_timing` runs the
transaction with `m_last_crtc` (the cached baseline, not the live state) as
the reference state of the target: it does not fail but grabs the server and
runs to a result; in the layout the target is placed at the cached origin and
the controllers in use are classified against the cached origin and size. -/
theorem set_timing_resync (H : Header) (F : TimingFaults) (s : State) (mode : modeline)
    (pxmode : XRRModeInfo) (O : Nat) (oi : XRROutputInfo) (live : XRRCrtcInfo)
    (hno : s.m_desktop_output ≠ -1) (htm : target_mode H s mode = some pxmode)
    (hro : resources_output s s.m_desktop_output = some O)
    (hoi : XRRGetOutputInfo s O = some oi) (hlive : XRRGetCrtcInfo s oi.crtc = some live)
    (hdrift : s.m_last_crtc.mode ≠ live.mode) :
    set_timing H F s mode = transaction F s oi.crtc s.m_last_crtc pxmode ∧
    (∃ r, set_timing H F s mode = some r ∧ Call.XGrabServer ∈ r.2.calls) ∧
    ∃ g w h, layout (XGrabServer { s with m_xerrors := 0 }) oi.crtc s.m_last_crtc pxmode
        = some (g, w, h) ∧
      ∀ (c crtc : Nat) (snap : XRRCrtcInfo),
        (s.crtcs.map (fun e => e.1)).get? c = some crtc → XRRGetCrtcInfo s crtc = some snap →
        ∃ g_c, g.get? c = some g_c ∧
          (crtc = oi.crtc → g_c.x = s.m_last_crtc.x ∧ g_c.y = s.m_last_crtc.y) ∧
          (crtc ≠ oi.crtc → oi.crtc ≠ 0 → snap.mode ≠ 0 →
            g_c.x = (if snap.x ≥ i32 (s.m_last_crtc.x + i32 s.m_last_crtc.width) then
                i32 (u32 (snap.x + u32 ((pxmode.width : Int) - s.m_last_crtc.width)))
              else snap.x) ∧
            g_c.y = (if snap.y ≥ i32 (s.m_last_crtc.y + i32 s.m_last_crtc.height) then
                i32 (u32 (snap.y + u32 ((pxmode.height : Int) - s.m_last_crtc.height)))
              else snap.y)) := by
  have hskip : skip_test s pxmode live = false := by
    unfold skip_test
    simp [hdrift]
  have href : reference_crtc s live = s.m_last_crtc := by
    unfold reference_crtc
    rw [if_pos hdrift]
  have hrun : set_timing H F s mode = transaction F s oi.crtc s.m_last_crtc pxmode := by
    unfold set_timing
    rw [if_neg hno, htm, hro]
    simp only [hoi, hlive, hskip, href, Bool.false_eq_true, if_false]
  have ht : oi.crtc ∈ s.crtcs.map (fun e => e.1) :=
    List.mem_map.2 ⟨(oi.crtc, live), mem_of_XRRGetCrtcInfo s oi.crtc live hlive, rfl⟩
  obtain ⟨r, hr, hgrab⟩ := transaction_total F s oi.crtc s.m_last_crtc pxmode ht
  refine ⟨hrun, ⟨r, by rw [hrun]; exact hr, hgrab⟩, ?_⟩
  obtain ⟨⟨g, w, h⟩, hl⟩ := layout_loop_total (XGrabServer { s with m_xerrors := 0 }) oi.crtc
    s.m_last_crtc pxmode (s.crtcs.map (fun e => e.1)) 0 0 (fun _ hid => hid)
  refine ⟨g, w, h, hl, ?_⟩
  intro c crtc snap hc hsnap
  obtain ⟨snap1, w0, h0, hs1, hg⟩ := layout_loop_get (XGrabServer { s with m_xerrors := 0 })
    oi.crtc s.m_last_crtc pxmode _ 0 0 g w h hl c crtc hc
  have hs1' : XRRGetCrtcInfo s crtc = some snap1 := hs1
  rw [hsnap] at hs1'
  cases hs1'
  refine ⟨_, hg, ?_, ?_⟩
  · intro heq
    subst heq
    obtain ⟨_, hx, hy, _, _⟩ := layout_crtc_target oi.crtc s.m_last_crtc pxmode snap w0 h0
    exact ⟨hx, hy⟩
  · intro hother hbound hactive
    exact layout_crtc_sibling oi.crtc s.m_last_crtc pxmode crtc snap w0 h0 hother hbound hactive

/-- In `drift_state` the transaction is run from the cached baseline: the
target is placed at the cached origin (0, 0) and the sibling at (640, 0),
which is at the cached right edge, is moved to (800, 0). -/
theorem set_timing_resync_witness :
    set_timing sample_header no_faults drift_state (sample_request 101) =
      transaction no_faults drift_state 10 drift_state.m_last_crtc (sample_mode 101 800 600) ∧
    (set_timing sample_header no_faults drift_state (sample_request 101)).map
      (fun r => (r.1, XRRGetCrtcInfo r.2 10, XRRGetCrtcInfo r.2 11)) =
      some (true, some (sample_crtc 0 0 800 600 101 [20]),
        some (sample_crtc 800 0 640 480 100 [21])) :=
  ⟨(set_timing_resync sample_header no_faults drift_state (sample_request 101)
      (sample_mode 101 800 600) 20 { name := "A", connection := 0, crtc := 10, modes := [100, 101] }
      (sample_crtc 100 0 640 480 100 [20]) (by decide) (by rfl) (by rfl) (by rfl) (by rfl)
      (by decide)).1, by rfl⟩

/-! ## Mode lifecycle -/

/-- What `add_mode` returns for a request: it returns true exactly when
neither `XRRCreateMode` nor `XRRAddOutputMode` faults; the request leaves with
its old handle when `XRRCreateMode` faults and with the new id otherwise. -/
theorem add_mode_result (H : Header) (fCreate fAttach fCleanup : Bool) (s : State)
    (mode : modeline) (b : Bool) (s1 : State) (mode1 : Option modeline)
    (h : add_mode H fCreate fAttach fCleanup s (some mode) = some (b, s1, mode1))
    (hno : s.m_desktop_output ≠ -1) :
    b = (!fCreate && !fAttach) ∧
    mode1 = some { mode with
      type := mode.type ||| H.CUSTOM_VIDEO_TIMING_XRANDR,
      platform_data := if fCreate then mode.platform_data else s.next_id } ∧
    (b = true → s1.modes = s.modes ++ [{ make_xmode H s.m_id mode with id := s.next_id }]) := by
  unfold add_mode at h
  simp only [if_neg hno] at h
  have hres : ∀ s' : State, s'.outputs = s.outputs → s'.m_desktop_output = s.m_desktop_output →
      resources_output s' s'.m_desktop_output = resources_output s s.m_desktop_output := by
    intro s' h1 h2
    unfold resources_output
    rw [h1, h2]
  by_cases hz : s.next_id = 0 <;> cases hro : resources_output s s.m_desktop_output <;>
    cases fCreate <;> cases fAttach <;> cases fCleanup <;>
    simp [XSetErrorHandler, XRRCreateMode, XRRAddOutputMode, XRRDestroyMode, deliver, hres, hro, hz]
      at h <;>
    (obtain ⟨rfl, rfl, rfl⟩ := h; simp <;> omega)

/-- With a detected output `add_mode` runs to its end. -/
theorem add_mode_total (H : Header) (fCreate fAttach fCleanup : Bool) (s : State)
    (mode : modeline) (O : Nat) (hno : s.m_desktop_output ≠ -1)
    (hro : resources_output s s.m_desktop_output = some O) :
    ∃ r, add_mode H fCreate fAttach fCleanup s (some mode) = some r := by
  unfold add_mode
  simp only [if_neg hno]
  have hres : ∀ s' : State, s'.outputs = s.outputs → s'.m_desktop_output = s.m_desktop_output →
      resources_output s' s'.m_desktop_output = resources_output s s.m_desktop_output := by
    intro s' h1 h2
    unfold resources_output
    rw [h1, h2]
  cases fCreate <;>
    simp [XSetErrorHandler, XRRCreateMode, deliver, hres, hro]

theorem mode_flags_decode (mode : modeline) :
    (decode_interlace (mode_flags mode) ≠ 0 ↔ mode.interlace ≠ 0) ∧
    (decode_doublescan (mode_flags mode) ≠ 0 ↔ mode.doublescan ≠ 0) ∧
    (decode_hsync (mode_flags mode) ≠ 0 ↔ mode.hsync ≠ 0) ∧
    (decode_vsync (mode_flags mode) ≠ 0 ↔ mode.vsync ≠ 0) := by
  unfold mode_flags decode_interlace decode_doublescan decode_hsync decode_vsync
  by_cases h1 : mode.interlace = 0 <;> by_cases h2 : mode.doublescan = 0 <;>
    by_cases h3 : mode.hsync = 0 <;> by_cases h4 : mode.vsync = 0 <;>
    simp only [h1, h2, h3, h4, ne_eq, not_true_eq_false, not_false_eq_true, if_true, if_false] <;>
    decide

/-- Create/find round trip by value.  After `add_mode` has returned true for a
well-formed request, the descriptor `find_mode` finds for the request is the
live mode with the request's handle; its pixel clock and its horizontal and vertical
active/sync-start/sync-end/total equal the request's fields, and its flags
word decodes to the truth values of the request's interlace, doublescan,
hsync and vsync.  The id the library allocates is taken not to be in use. -/
theorem add_mode_find_round_trip (H : Header) (fCreate fAttach fCleanup : Bool) (s s1 : State)
    (mode mode1 : modeline) (hwf : request_wf mode)
    (hfresh : ∀ m ∈ s.modes, m.id ≠ s.next_id)
    (h : add_mode H fCreate fAttach fCleanup s (some mode) = some (true, s1, some mode1)) :
    ∃ xm, find_mode s1 mode1 = some xm ∧ xm.id = mode1.platform_data ∧
      xm.dotClock = mode.pclock ∧
      (xm.width : Int) = mode.hactive ∧ (xm.hSyncStart : Int) = mode.hbegin ∧
      (xm.hSyncEnd : Int) = mode.hend ∧ (xm.hTotal : Int) = mode.htotal ∧
      (xm.height : Int) = mode.vactive ∧ (xm.vSyncStart : Int) = mode.vbegin ∧
      (xm.vSyncEnd : Int) = mode.vend ∧ (xm.vTotal : Int) = mode.vtotal ∧
      (decode_interlace xm.modeFlags ≠ 0 ↔ mode.interlace ≠ 0) ∧
      (decode_doublescan xm.modeFlags ≠ 0 ↔ mode.doublescan ≠ 0) ∧
      (decode_hsync xm.modeFlags ≠ 0 ↔ mode.hsync ≠ 0) ∧
      (decode_vsync xm.modeFlags ≠ 0 ↔ mode.vsync ≠ 0) := by
  have hno : s.m_desktop_output ≠ -1 := by
    intro hneg
    unfold add_mode at h
    simp [hneg] at h
  obtain ⟨hb, hm1, hmodes⟩ := add_mode_result H fCreate fAttach fCleanup s mode true s1
    (some mode1) h hno
  have hfc : fCreate = false := by
    cases fCreate
    · rfl
    · simp at hb
  rw [hfc] at hm1
  simp only [Option.some.injEq, Bool.false_eq_true, if_false] at hm1
  have hfind : find_mode s1 mode1 = some { make_xmode H s.m_id mode with id := s.next_id } := by
    unfold find_mode
    rw [hmodes rfl, hm1, List.find?_append]
    have hnone : s.modes.find? (fun m => s.next_id == m.id) = none := by
      apply List.find?_eq_none.2
      intro m hm
      simpa using Ne.symm (hfresh m hm)
    rw [hnone]
    simp
  have hfit : ∀ z : Int, fits_card16 z → fits_uint z := fun z hz => ⟨hz.1, by have := hz.2; omega⟩
  obtain ⟨w1, w2, w3, w4, w5, w6, w7, w8, _⟩ := hwf
  obtain ⟨d1, d2, d3, d4⟩ := mode_flags_decode mode
  refine ⟨_, hfind, ?_, rfl, u32_of_fits _ (hfit _ w1), u32_of_fits _ (hfit _ w2),
    u32_of_fits _ (hfit _ w3), u32_of_fits _ (hfit _ w4), u32_of_fits _ (hfit _ w5),
    u32_of_fits _ (hfit _ w6), u32_of_fits _ (hfit _ w7), u32_of_fits _ (hfit _ w8),
    d1, d2, d3, d4⟩
  rw [hm1]

/-- The 640x480 sample request is created on the two-controller sample and
read back: handle 102, geometry as given, interlace and vsync set. -/
theorem add_mode_find_round_trip_witness :
    ∃ s1 mode1 xm,
      add_mode sample_header false false false two_crtc_state (some sample_timing)
        = some (true, s1, some mode1) ∧
      find_mode s1 mode1 = some xm ∧ xm.id = 102 ∧ xm.dotClock = 25175000 ∧
      (xm.width : Int) = 640 ∧ (xm.hTotal : Int) = 800 ∧ (xm.vTotal : Int) = 525 ∧
      decode_interlace xm.modeFlags ≠ 0 ∧ ¬ decode_hsync xm.modeFlags ≠ 0 := by
  obtain ⟨⟨b, s1, mode1⟩, hr⟩ := add_mode_total sample_header false false false two_crtc_state
    sample_timing 20 (by decide) (by rfl)
  obtain ⟨hb, hm1, _⟩ := add_mode_result sample_header false false false two_crtc_state
    sample_timing b s1 mode1 hr (by decide)
  simp only [Bool.not_false, Bool.and_self] at hb
  subst hb
  simp only [Bool.false_eq_true, if_false] at hm1
  subst hm1
  obtain ⟨xm, hf, hid, hclk, hw, _, _, hht, _, _, _, hvt, hil, _, hhs, _⟩ :=
    add_mode_find_round_trip sample_header false false false two_crtc_state s1 sample_timing _
      (by unfold request_wf sample_timing sample_request; decide) (by decide) hr
  refine ⟨s1, _, xm, hr, hf, hid, hclk, hw, hht, hvt, hil.2 (by decide), ?_⟩
  intro hne
  exact absurd (hhs.1 hne) (by decide)

/-- C7 as stated fails: when `XRRCreateMode` succeeds and `XRRAddOutputMode`
faults, `add_mode` returns false although the request already carries the new
handle (102 instead of 0). -/
theorem add_mode_attach_fault_handle_counterexample :
    ∃ s1 mode1,
      add_mode sample_header false true false two_crtc_state (some sample_timing)
        = some (false, s1, some mode1) ∧
      mode1.platform_data = 102 ∧ mode1.platform_data ≠ sample_timing.platform_data := by
  obtain ⟨⟨b, s1, mode1⟩, hr⟩ := add_mode_total sample_header false true false two_crtc_state
    sample_timing 20 (by decide) (by rfl)
  obtain ⟨hb, hm1, _⟩ := add_mode_result sample_header false true false two_crtc_state
    sample_timing b s1 mode1 hr (by decide)
  simp only [Bool.not_false, Bool.not_true, Bool.and_false] at hb
  subst hb
  simp only [Bool.false_eq_true, if_false] at hm1
  subst hm1
  exact ⟨s1, _, hr, rfl, by decide⟩

/-- C7, amended.  For a non-null request and a detected output, `add_mode`
returns true exactly when neither `XRRCreateMode` nor `XRRAddOutputMode`
faults; when `XRRCreateMode` faults the request keeps the handle it had; on
success the handle is the id of the newly registered mode. -/
theorem add_mode_handle (H : Header) (fCreate fAttach fCleanup : Bool) (s : State)
    (mode : modeline) (O : Nat) (hno : s.m_desktop_output ≠ -1)
    (hro : resources_output s s.m_desktop_output = some O) :
    ∃ s1 mode1,
      add_mode H fCreate fAttach fCleanup s (some mode)
        = some (!fCreate && !fAttach, s1, some mode1) ∧
      (fCreate = true → mode1.platform_data = mode.platform_data) ∧
      (fCreate = false → fAttach = false →
        mode1.platform_data = s.next_id ∧
        s1.modes = s.modes ++ [{ make_xmode H s.m_id mode with id := s.next_id }]) := by
  obtain ⟨⟨b, s1, mode1⟩, hr⟩ := add_mode_total H fCreate fAttach fCleanup s mode O hno hro
  obtain ⟨hb, hm1, hmodes⟩ := add_mode_result H fCreate fAttach fCleanup s mode b s1 mode1 hr hno
  subst hm1
  refine ⟨s1, _, by rw [hr, hb], ?_, ?_⟩
  · intro hf
    simp only [hf, if_true]
  · intro hf ha
    refine ⟨by simp only [hf, Bool.false_eq_true, if_false], hmodes ?_⟩
    rw [hb, hf, ha]
    rfl

/-- On the two-controller sample a faulting `XRRCreateMode` makes `add_mode`
return false and leaves the handle 0 of the request as it was. -/
theorem add_mode_handle_witness :
    ∃ s1 mode1,
      add_mode sample_header true false false two_crtc_state (some sample_timing)
        = some (false, s1, some mode1) ∧ mode1.platform_data = 0 := by
  obtain ⟨s1, mode1, hr, hkeep, _⟩ := add_mode_handle sample_header true false false
    two_crtc_state sample_timing 20 (by decide) (by rfl)
  exact ⟨s1, mode1, hr, hkeep rfl⟩

/-! ## `delete_mode` -/

/-- What the two trapped requests of `delete_mode` leave: one fault counted
per faulting request, the two requests in `calls`, the handler restored, ids
and the instance members untouched, and no mode added. -/
theorem delete_traps_result (fDetach fDestroy : Bool) (s : State) (output id total : Nat) :
    (delete_traps fDetach fDestroy s output id total).2 =
      total + (if fDetach then 1 else 0) + (if fDestroy then 1 else 0) ∧
    (delete_traps fDetach fDestroy s output id total).1.calls =
      s.calls ++ [Call.XRRDeleteOutputMode output id, Call.XRRDestroyMode id] ∧
    (delete_traps fDetach fDestroy s output id total).1.handler = s.handler ∧
    (delete_traps fDetach fDestroy s output id total).1.next_id = s.next_id ∧
    (delete_traps fDetach fDestroy s output id total).1.m_desktop_output = s.m_desktop_output ∧
    (delete_traps fDetach fDestroy s output id total).1.outputs.map (fun e => e.1) =
      s.outputs.map (fun e => e.1) ∧
    (∀ m ∈ (delete_traps fDetach fDestroy s output id total).1.modes, m ∈ s.modes) := by
  unfold delete_traps
  cases fDetach <;> cases fDestroy <;>
    simp [XSetErrorHandler, XRRDeleteOutputMode, XRRDestroyMode, deliver]
  · refine ⟨?_, fun m hm _ => hm⟩
    intro a b _
    split_ifs <;> rfl
  · intro a b _
    split_ifs <;> rfl
  · intro m hm _; exact hm

/-- Once the handle is 0 the loop of `delete_mode` does nothing more. -/
theorem delete_loop_zero (fDetach fDestroy : Bool) (l : List XRRModeInfo) (s : State)
    (mode : modeline) (total : Nat) (h0 : mode.platform_data = 0) :
    delete_loop fDetach fDestroy l s mode total = some (s, mode, total) := by
  cases l with
  | nil => rfl
  | cons m ms => simp only [delete_loop, h0, if_true]

/-- On a handle that matches a live mode the loop of `delete_mode` runs the
two trapped requests once, for that mode, and clears the handle. -/
theorem delete_loop_match (fDetach fDestroy : Bool) (s : State) (O : Nat) (oi : XRROutputInfo)
    (c : XRRCrtcInfo) (hro : resources_output s s.m_desktop_output = some O)
    (hoi : XRRGetOutputInfo s O = some oi) (hc : XRRGetCrtcInfo s oi.crtc = some c) :
    ∀ (l : List XRRModeInfo) (mode : modeline) (total : Nat), mode.platform_data ≠ 0 →
      (∃ m ∈ l, m.id = mode.platform_data) →
      delete_loop fDetach fDestroy l s mode total =
        some ((delete_traps fDetach fDestroy s O mode.platform_data total).1,
          { mode with platform_data := 0 },
          (delete_traps fDetach fDestroy s O mode.platform_data total).2) := by
  intro l
  induction l with
  | nil => intro mode total _ hex; obtain ⟨m, hm, _⟩ := hex; simp at hm
  | cons m ms ih =>
    intro mode total hnz hex
    by_cases heq : mode.platform_data = m.id
    · simp only [delete_loop, if_neg hnz, if_pos heq, hro, hoi, hc]
      rw [delete_loop_zero _ _ _ _ _ _ rfl, heq]
    · simp only [delete_loop, if_neg hnz, if_neg heq]
      apply ih mode total hnz
      obtain ⟨m', hm', hid⟩ := hex
      rcases List.mem_cons.1 hm' with h1 | h1
      · exact absurd (by rw [← hid, h1]) heq
      · exact ⟨m', h1, hid⟩

/-- What `delete_mode` returns for a handle that matches a live mode. -/
theorem delete_mode_match (fDetach fDestroy : Bool) (s : State) (mode : modeline) (O : Nat)
    (oi : XRROutputInfo) (c : XRRCrtcInfo) (hno : s.m_desktop_output ≠ -1)
    (hro : resources_output s s.m_desktop_output = some O)
    (hoi : XRRGetOutputInfo s O = some oi) (hc : XRRGetCrtcInfo s oi.crtc = some c)
    (hnz : mode.platform_data ≠ 0) (hlive : ∃ m ∈ s.modes, m.id = mode.platform_data) :
    delete_mode fDetach fDestroy s (some mode) =
      some (!fDetach && !fDestroy,
        (delete_traps fDetach fDestroy s O mode.platform_data 0).1,
        some { mode with platform_data := 0 }) := by
  unfold delete_mode
  rw [if_neg hno]
  simp only [delete_loop_match fDetach fDestroy s O oi c hro hoi hc s.modes mode 0 hnz hlive,
    (delete_traps_result fDetach fDestroy s O mode.platform_data 0).1]
  cases fDetach <;> cases fDestroy <;> rfl

/-- C8 as stated fails: when `XRRDestroyMode` faults, `delete_mode` returns
false and the request's handle is 0 all the same, not the handle it had (101). -/
theorem delete_mode_fault_handle_counterexample :
    ∃ s1 mode1,
      delete_mode false true two_crtc_state (some (sample_request 101))
        = some (false, s1, some mode1) ∧
      mode1.platform_data = 0 ∧ mode1.platform_data ≠ (sample_request 101).platform_data :=
  ⟨_, _, delete_mode_match false true two_crtc_state (sample_request 101) 20
      { name := "A", connection := 0, crtc := 10, modes := [100, 101] }
      (sample_crtc 0 0 640 480 100 [20]) (by decide) (by rfl) (by rfl) (by rfl) (by decide)
      ⟨sample_mode 101 800 600, by decide, rfl⟩,
    rfl, by decide⟩

/-- C8, amended.  For a request whose handle matches a live mode,
`delete_mode` issues the detach and the destroy request, returns false if
either of them faults and true otherwise, and in every case, fault or no
fault, sets the request's handle to 0. -/
theorem delete_mode_handle (fDetach fDestroy : Bool) (s : State) (mode : modeline) (O : Nat)
    (oi : XRROutputInfo) (c : XRRCrtcInfo) (hno : s.m_desktop_output ≠ -1)
    (hro : resources_output s s.m_desktop_output = some O)
    (hoi : XRRGetOutputInfo s O = some oi) (hc : XRRGetCrtcInfo s oi.crtc = some c)
    (hnz : mode.platform_data ≠ 0) (hlive : ∃ m ∈ s.modes, m.id = mode.platform_data) :
    ∃ s1 mode1,
      delete_mode fDetach fDestroy s (some mode) = some (!fDetach && !fDestroy, s1, some mode1) ∧
      mode1.platform_data = 0 ∧
      s1.calls = s.calls ++ [Call.XRRDeleteOutputMode O mode.platform_data,
                             Call.XRRDestroyMode mode.platform_data] :=
  ⟨_, _, delete_mode_match fDetach fDestroy s mode O oi c hno hro hoi hc hnz hlive, rfl,
    (delete_traps_result fDetach fDestroy s O mode.platform_data 0).2.1⟩

/-- On the two-controller sample, deleting mode 101 with a faulting detach
returns false and clears the handle. -/
theorem delete_mode_handle_witness :
    ∃ s1 mode1,
      delete_mode true false two_crtc_state (some (sample_request 101))
        = some (false, s1, some mode1) ∧
      mode1.platform_data = 0 ∧
      s1.calls = [Call.XRRDeleteOutputMode 20 101, Call.XRRDestroyMode 101] :=
  delete_mode_handle true false two_crtc_state (sample_request 101) 20
    { name := "A", connection := 0, crtc := 10, modes := [100, 101] }
    (sample_crtc 0 0 640 480 100 [20]) (by decide) (by rfl) (by rfl) (by rfl) (by decide)
    ⟨sample_mode 101 800 600, by decide, rfl⟩

/-- On a request whose handle is 0, `delete_mode` with a detected output
returns true and changes nothing. -/
theorem delete_mode_zero (fDetach fDestroy : Bool) (s : State) (mode : modeline)
    (hno : s.m_desktop_output ≠ -1) (h0 : mode.platform_data = 0) :
    delete_mode fDetach fDestroy s (some mode) = some (true, s, some mode) := by
  unfold delete_mode
  rw [if_neg hno]
  simp only [delete_loop_zero fDetach fDestroy s.modes s mode 0 h0]
  rfl

/-- C9 as stated fails: with a detected output, `delete_mode` on a request
whose handle is 0 returns true, not false. -/
theorem delete_mode_unset_handle_counterexample :
    delete_mode false false two_crtc_state (some (sample_request 0))
      = some (true, two_crtc_state, some (sample_request 0)) ∧
    (sample_request 0).platform_data = 0 ∧ two_crtc_state.m_desktop_output ≠ -1 :=
  ⟨delete_mode_zero false false two_crtc_state (sample_request 0) (by decide) rfl, rfl,
    by decide⟩

/-- C9, amended.  With a detected output, `delete_mode` returns false on a
null request and true on a request whose handle is 0; in both cases it leaves
the state as it is, so it makes no mutating platform call, and the request is
unchanged. -/
theorem delete_mode_null_or_unset (fDetach fDestroy : Bool) (s : State)
    (hno : s.m_desktop_output ≠ -1) :
    delete_mode fDetach fDestroy s none = some (false, s, none) ∧
    ∀ mode : modeline, mode.platform_data = 0 →
      delete_mode fDetach fDestroy s (some mode) = some (true, s, some mode) := by
  refine ⟨?_, fun mode h0 => delete_mode_zero fDetach fDestroy s mode hno h0⟩
  unfold delete_mode
  rw [if_neg hno]

/-- On the two-controller sample a null request is refused and a request
without a handle is accepted, neither with any request to the server. -/
theorem delete_mode_null_or_unset_witness :
    delete_mode true true two_crtc_state none = some (false, two_crtc_state, none) ∧
    delete_mode true true two_crtc_state (some (sample_request 0))
      = some (true, two_crtc_state, some (sample_request 0)) :=
  ⟨(delete_mode_null_or_unset true true two_crtc_state (by decide)).1,
    (delete_mode_null_or_unset true true two_crtc_state (by decide)).2 (sample_request 0) rfl⟩

/-! ## `update_mode` -/

/-- C10 as stated fails: for a request without a handle, `delete_mode` has
nothing to do and succeeds; when `XRRCreateMode` then faults, `update_mode`
returns false and the handle is 0 as before. -/
theorem update_mode_same_handle_counterexample :
    ∃ s1 mode1,
      update_mode sample_header false false true false false two_crtc_state
        (some (sample_request 0)) = some (false, s1, some mode1) ∧
      mode1.platform_data = (sample_request 0).platform_data := by
  obtain ⟨⟨b, s1, mode1⟩, hadd⟩ := add_mode_total sample_header true false false
    two_crtc_state (sample_request 0) 20 (by decide) (by rfl)
  obtain ⟨hb, hm1, _⟩ := add_mode_result sample_header true false false two_crtc_state
    (sample_request 0) b s1 mode1 hadd (by decide)
  simp only [Bool.not_true, Bool.false_and] at hb
  subst hb
  simp only [if_true] at hm1
  subst hm1
  refine ⟨s1, { sample_request 0 with
    type := (sample_request 0).type ||| sample_header.CUSTOM_VIDEO_TIMING_XRANDR }, ?_, rfl⟩
  simp only [update_mode]
  rw [if_neg (by decide),
    delete_mode_zero false false two_crtc_state (sample_request 0) (by decide) rfl]
  simp only [hadd]

/-- C10, amended.  For a request whose handle is that of a live mode, with a
detected output, `update_mode` ends with a handle different from the one the
request had: 0 when `delete_mode` fails or `XRRCreateMode` faults, the newly
allocated id otherwise.  Live mode ids are taken to be below the next id the
library allocates. -/
theorem update_mode_new_handle (H : Header) (fDetach fDestroy fCreate fAttach fCleanup : Bool)
    (s : State) (mode : modeline) (O : Nat) (oi : XRROutputInfo) (c : XRRCrtcInfo)
    (hno : s.m_desktop_output ≠ -1)
    (hro : resources_output s s.m_desktop_output = some O)
    (hoi : XRRGetOutputInfo s O = some oi) (hc : XRRGetCrtcInfo s oi.crtc = some c)
    (hnz : mode.platform_data ≠ 0) (hlive : ∃ m ∈ s.modes, m.id = mode.platform_data)
    (hfresh : ∀ m ∈ s.modes, m.id < s.next_id) :
    ∃ b s1 mode1,
      update_mode H fDetach fDestroy fCreate fAttach fCleanup s (some mode)
        = some (b, s1, some mode1) ∧
      mode1.platform_data ≠ mode.platform_data ∧
      mode1.platform_data = (if fDetach || fDestroy || fCreate then 0 else s.next_id) := by
  have hlt : mode.platform_data < s.next_id := by
    obtain ⟨m, hm, hid⟩ := hlive
    rw [← hid]
    exact hfresh m hm
  have hdel := delete_mode_match fDetach fDestroy s mode O oi c hno hro hoi hc hnz hlive
  obtain ⟨_, _, _, hnext, hdo, hids, _⟩ :=
    delete_traps_result fDetach fDestroy s O mode.platform_data 0
  simp only [update_mode]
  rw [if_neg hno, hdel]
  by_cases hfail : (!fDetach && !fDestroy) = false
  · -- delete_mode fails: add_mode is not attempted
    rw [hfail]
    refine ⟨false, _, _, rfl, fun h0 => hnz h0.symm, ?_⟩
    have : (fDetach || fDestroy) = true := by
      cases fDetach <;> cases fDestroy <;> simp_all
    simp [this]
  · have hok : (!fDetach && !fDestroy) = true := by simpa using hfail
    have hnone : (fDetach || fDestroy) = false := by
      cases fDetach <;> cases fDestroy <;> simp_all
    rw [hok]
    have hno' : (delete_traps fDetach fDestroy s O mode.platform_data 0).1.m_desktop_output
        ≠ -1 := by rw [hdo]; exact hno
    have hro' : resources_output (delete_traps fDetach fDestroy s O mode.platform_data 0).1
        (delete_traps fDetach fDestroy s O mode.platform_data 0).1.m_desktop_output = some O := by
      rw [hdo, resources_output_congr s _ _ hids]; exact hro
    obtain ⟨⟨b, s1, mode1?⟩, hadd⟩ := add_mode_total H fCreate fAttach fCleanup
      (delete_traps fDetach fDestroy s O mode.platform_data 0).1
      { mode with platform_data := 0 } O hno' hro'
    obtain ⟨_, hm1, _⟩ := add_mode_result H fCreate fAttach fCleanup _ _ b s1 mode1? hadd hno'
    obtain ⟨m1, hm1s, hpd⟩ : ∃ m1, mode1? = some m1 ∧
        m1.platform_data = (if fCreate then 0 else s.next_id) :=
      ⟨_, hm1, by simp only [hnext]⟩
    subst hm1s
    refine ⟨b, s1, m1, ?_, ?_, ?_⟩
    · simp only [hadd]
      cases b <;> rfl
    · rw [hpd]
      split_ifs
      · exact fun h0 => hnz h0.symm
      · omega
    · rw [hpd, hnone]
      simp

/-- On the two-controller sample, updating the request that holds mode 101
without any fault ends with the new handle 102. -/
theorem update_mode_new_handle_witness :
    ∃ b s1 mode1,
      update_mode sample_header false false false false false two_crtc_state
        (some (sample_request 101)) = some (b, s1, some mode1) ∧
      mode1.platform_data ≠ 101 ∧ mode1.platform_data = 102 := by
  obtain ⟨b, s1, mode1, hr, hne, hpd⟩ := update_mode_new_handle sample_header
    false false false false false two_crtc_state (sample_request 101) 20
    { name := "A", connection := 0, crtc := 10, modes := [100, 101] }
    (sample_crtc 0 0 640 480 100 [20]) (by decide) (by rfl) (by rfl) (by rfl) (by decide)
    ⟨sample_mode 101 800 600, by decide, rfl⟩ (by decide)
  exact ⟨b, s1, mode1, hr, hne, hpd⟩

/-! ## Mode names -/

theorem digitChar_value : ∀ d : Fin 10, (Nat.digitChar d.val).toNat - 48 = d.val := by decide

theorem digitChar_ne_minus : ∀ d : Fin 10, Nat.digitChar d.val ≠ '-' := by decide

/-- The digits of `n` are those of `n / 10` followed by the last digit. -/
theorem toDigitsCore_spec : ∀ (fuel n : Nat) (ds : List Char), n < fuel →
    ∃ d0 : Fin 10, ∃ pre : List Char,
      Nat.toDigitsCore 10 fuel n ds = Nat.digitChar d0.val :: pre ++ ds ∧
      (Nat.digitChar d0.val :: pre).foldl (fun a c => a * 10 + (c.toNat - 48)) 0 = n := by
  intro fuel
  induction fuel with
  | zero => intro n ds h; omega
  | succ fuel ih =>
    intro n ds h
    have hd : n % 10 < 10 := Nat.mod_lt _ (by decide)
    by_cases h0 : n / 10 = 0
    · refine ⟨⟨n % 10, hd⟩, [], ?_, ?_⟩
      · simp [Nat.toDigitsCore, h0]
      · have := digitChar_value ⟨n % 10, hd⟩
        simp only [List.foldl_cons, List.foldl_nil, Nat.zero_mul, Nat.zero_add] at this ⊢
        omega
    · obtain ⟨d0, pre, heq, hval⟩ := ih (n / 10) (Nat.digitChar (n % 10) :: ds) (by omega)
      refine ⟨d0, pre ++ [Nat.digitChar (n % 10)], ?_, ?_⟩
      · simp [Nat.toDigitsCore, h0, heq]
      · have hlast := digitChar_value ⟨n % 10, hd⟩
        rw [← List.cons_append, List.foldl_append, hval]
        simp only [List.foldl_cons, List.foldl_nil] at hlast ⊢
        omega

/-- The decimal rendering of an integer reads back as the integer. -/
theorem read_decimal_toString (i : Int) : read_decimal (toString i).data = i := by
  have hnat : ∀ n : Nat, ∃ d0 : Fin 10, ∃ pre : List Char,
      (toString n).data = Nat.digitChar d0.val :: pre ∧
      (Nat.digitChar d0.val :: pre).foldl (fun a c => a * 10 + (c.toNat - 48)) 0 = n := by
    intro n
    obtain ⟨d0, pre, heq, hval⟩ := toDigitsCore_spec (n + 1) n [] (by omega)
    refine ⟨d0, pre, ?_, hval⟩
    show (Nat.toDigits 10 n) = _
    unfold Nat.toDigits
    rw [heq, List.append_nil]
  cases i with
  | ofNat n =>
    obtain ⟨d0, pre, hdata, hval⟩ := hnat n
    have hts : (toString (Int.ofNat n)).data = (toString n).data := rfl
    rw [hts, hdata]
    unfold read_decimal
    have hne := digitChar_ne_minus d0
    split
    · rename_i ds heq
      exact absurd (List.cons.inj heq).1 hne
    · rw [hval]; rfl
  | negSucc n =>
    obtain ⟨d0, pre, hdata, hval⟩ := hnat (n + 1)
    have hts : (toString (Int.negSucc n)).data = '-' :: (toString (n + 1)).data := by
      show ("-" ++ toString (n + 1)).data = _
      rw [String.data_append]
      rfl
    rw [hts, hdata]
    unfold read_decimal
    simp only [hval]
    rfl

theorem static_id_after_eq (static_id : Int) (k : Nat) :
    static_id_after static_id k = i32 (i32 static_id + k) ∨
    (k = 0 ∧ static_id_after static_id k = static_id) := by
  induction k with
  | zero => exact Or.inr ⟨rfl, rfl⟩
  | succ k ih =>
    left
    show i32 (static_id_after static_id k + 1) = _
    rcases ih with h | ⟨h0, h⟩
    · rw [h]; unfold i32; push_cast; omega
    · rw [h, h0]; unfold i32; push_cast; omega

/-- Uniqueness of the rendering.  For instance ids `i ≠ j` and the same active
width, active height and vertical frequency, the rendering `sprintf` produces
for `i` differs from the one it produces for `j`; and of the instances
constructed one after the other, any two fewer than 2^32 constructions apart
have different ids.  Whether the rendering fits the buffer of `add_mode` is
`sprintf_name`. -/
theorem mode_name_unique :
    (∀ (H : Header) (i j hactive vactive : Int) (vfreq : Rat), i ≠ j →
      mode_name H i hactive vactive vfreq ≠ mode_name H j hactive vactive vfreq) ∧
    (∀ (static_id : Int) (n m : Nat), fits_int static_id → n < m → m - n < 4294967296 →
      instance_id static_id n ≠ instance_id static_id m) := by
  constructor
  · intro H i j hactive vactive vfreq hij heq
    have hdata := congrArg String.data heq
    unfold mode_name at hdata
    simp only [String.data_append, List.append_assoc] at hdata
    have h1 := List.append_cancel_left hdata
    rw [← List.append_assoc, ← List.append_assoc (toString j).data] at h1
    have h2 := List.append_cancel_right h1
    have h3 := List.append_cancel_right h2
    apply hij
    rw [← read_decimal_toString i, ← read_decimal_toString j, h3]
  · intro static_id n m hfit hnm hgap
    obtain ⟨h1, h2⟩ := hfit
    show static_id_after static_id n ≠ static_id_after static_id m
    have hm : static_id_after static_id m = i32 (i32 static_id + m) := by
      rcases static_id_after_eq static_id m with h | ⟨h0, _⟩
      · exact h
      · omega
    rw [hm]
    rcases static_id_after_eq static_id n with h | ⟨h0, h⟩
    · rw [h]; unfold i32; omega
    · rw [h]; unfold i32; omega

/-- Instances 0 and 1 name a 640x480 mode differently, and the first two
instances constructed from `static_id = 0` have different ids. -/
theorem mode_name_unique_witness :
    mode_name sample_header 0 640 480 60 ≠ mode_name sample_header 1 640 480 60 ∧
    instance_id 0 0 ≠ instance_id 0 1 :=
  ⟨mode_name_unique.1 sample_header 0 1 640 480 60 (by decide),
   mode_name_unique.2 0 0 1 (by decide) (by decide) (by decide)⟩

/-! ## The requests a transaction issues -/

theorem disable_step_calls (F : TimingFaults) (c crtc : Nat) (g : XRRCrtcInfo) (s : State) :
    (disable_step F c crtc g s).calls = s.calls ++ disable_requests [(crtc, g)] := by
  by_cases h : g.timestamp = 1 ∨ g.timestamp = 2
  · obtain ⟨m, fl, heq⟩ := disable_step_eq F c crtc g s h
    rw [heq]
    show (XRRSetCrtcConfig (F.disable c) s crtc 0 0 0 RR_Rotate_0 []).2.calls = _
    rw [setconfig_calls]
    simp [disable_requests, h]
  · unfold disable_step
    rw [if_neg h]
    simp [disable_requests, h]

theorem enable_step_calls (F : TimingFaults) (c crtc : Nat) (g : XRRCrtcInfo) (s : State) :
    (enable_step F c crtc g s).calls = s.calls ++ enable_requests [(crtc, g)] := by
  by_cases h : g.mode ≠ 0 ∧ (g.timestamp = 1 ∨ g.timestamp = 2)
  · obtain ⟨m, heq⟩ := enable_step_eq F c crtc g s h
    rw [heq]
    show (XRRSetCrtcConfig (F.enable c)
      { s with m_xerrors_flag := 0x14, handler := Handler.error_handler,
               old_error_handler := s.handler } crtc g.x g.y g.mode g.rotation g.outputs).2.calls
      = _
    rw [setconfig_calls]
    simp [enable_requests, h]
  · unfold enable_step
    rw [if_neg h]
    simp [enable_requests, h]

theorem disable_loop_calls (F : TimingFaults) :
    ∀ (l : List (Nat × XRRCrtcInfo)) (c : Nat) (s : State),
      (disable_loop F c l s).calls = s.calls ++ disable_requests l := by
  intro l
  induction l with
  | nil => intro c s; simp [disable_loop, disable_requests]
  | cons p rest ih =>
    intro c s
    show (disable_loop F (c + 1) rest (disable_step F c p.1 p.2 s)).calls = _
    rw [ih, disable_step_calls, List.append_assoc]
    congr 1
    unfold disable_requests
    rw [← List.filterMap_append]
    rfl

theorem enable_loop_calls (F : TimingFaults) :
    ∀ (l : List (Nat × XRRCrtcInfo)) (c : Nat) (s : State),
      (enable_loop F c l s).calls = s.calls ++ enable_requests l := by
  intro l
  induction l with
  | nil => intro c s; simp [enable_loop, enable_requests]
  | cons p rest ih =>
    intro c s
    show (enable_loop F (c + 1) rest (enable_step F c p.1 p.2 s)).calls = _
    rw [ih, enable_step_calls, List.append_assoc]
    congr 1
    unfold enable_requests
    rw [← List.filterMap_append]
    rfl

/-- A fault on the re-enable issued at some position leaves a recorded fault
at the end of the loop. -/
theorem enable_loop_fault (F : TimingFaults) :
    ∀ (l : List (Nat × XRRCrtcInfo)) (c0 : Nat) (s : State) (k : Nat) (p : Nat × XRRCrtcInfo),
      l.get? k = some p → (p.2.mode ≠ 0 ∧ (p.2.timestamp = 1 ∨ p.2.timestamp = 2)) →
      F.enable (c0 + k) = true → Recorded (enable_loop F c0 l s).m_xerrors := by
  intro l
  induction l with
  | nil => intro c0 s k p hk; simp at hk
  | cons q rest ih =>
    intro c0 s k p hk hx hf
    show Recorded (enable_loop F (c0 + 1) rest (enable_step F c0 q.1 q.2 s)).m_xerrors
    cases k with
    | zero =>
      simp only [List.get?_cons_zero, Option.some.injEq] at hk
      subst hk
      exact enable_loop_recorded F rest (c0 + 1) _ (enable_step_fault F c0 q.1 q.2 s hx hf)
    | succ k =>
      simp only [List.get?_cons_succ] at hk
      exact ih (c0 + 1) _ k p hk hx (by rw [← hf]; congr 1; omega)

/-- With distinct controller ids the re-enable loop issues at most one request
for any controller. -/
theorem enable_requests_once (crtc : Nat) :
    ∀ l : List (Nat × XRRCrtcInfo), (l.map (fun p => p.1)).Nodup →
      ((enable_requests l).filter (targets crtc)).length ≤ 1 := by
  have hnone : ∀ l : List (Nat × XRRCrtcInfo), crtc ∉ l.map (fun p => p.1) →
      (enable_requests l).filter (targets crtc) = [] := by
    intro l
    induction l with
    | nil => intro _; rfl
    | cons p rest ih =>
      intro hnot
      rw [List.map_cons, List.mem_cons, not_or] at hnot
      have hrest := ih hnot.2
      have hp : (p.1 == crtc) = false := by simpa using Ne.symm hnot.1
      unfold enable_requests at hrest ⊢
      rw [List.filterMap_cons]
      split
      · exact hrest
      · rename_i b hb
        split_ifs at hb
        cases hb
        rw [List.filter_cons]
        simp only [targets, hp, Bool.false_eq_true, if_false]
        exact hrest
  intro l
  induction l with
  | nil => intro _; simp [enable_requests]
  | cons p rest ih =>
    intro hnd
    rw [List.map_cons, List.nodup_cons] at hnd
    unfold enable_requests at ih ⊢
    rw [List.filterMap_cons]
    split
    · exact ih hnd.2
    · rename_i b hb
      split_ifs at hb
      cases hb
      rw [List.filter_cons]
      by_cases hpc : p.1 = crtc
      · have hrest := hnone rest (by rw [← hpc]; exact hnd.1)
        unfold enable_requests at hrest
        simp only [targets, hpc, beq_self_eq_true, if_true, List.length_cons, hrest,
          List.length_nil]
        omega
      · have hp : (p.1 == crtc) = false := by simpa using hpc
        simp only [targets, hp, Bool.false_eq_true, if_false]
        exact ih hnd.2

theorem resize_step_trace (F : TimingFaults) (s : State) (w h : Nat) :
    ∃ mid, (resize_step F s w h).calls = s.calls ++ mid ∧
      (mid = [] ∨ mid = [Call.XRRSetScreenSize w h]) := by
  by_cases h0 : s.m_xerrors = 0
  · exact ⟨[Call.XRRSetScreenSize w h], resize_step_calls F s w h h0, Or.inr rfl⟩
  · refine ⟨[], ?_, Or.inl rfl⟩
    unfold resize_step
    rw [if_neg h0, List.append_nil]

/-- The requests of a transaction: the grab, one disable per marked position,
the resize unless a disable failed, one re-enable per marked position that
shows a mode, the ungrab.  The return value is true exactly when `m_xerrors`
is 0 after the re-enable loop. -/
theorem transaction_trace (F : TimingFaults) (s s1 : State) (t : Nat) (ref : XRRCrtcInfo)
    (pxmode : XRRModeInfo) (b : Bool) (h : transaction F s t ref pxmode = some (b, s1)) :
    ∃ g w hh mid,
      layout (XGrabServer { s with m_xerrors := 0 }) t ref pxmode = some (g, w, hh) ∧
      (mid = [] ∨ mid = [Call.XRRSetScreenSize w hh]) ∧
      s1.calls = s.calls ++ [Call.XGrabServer] ++
        disable_requests ((s.crtcs.map (fun e => e.1)).zip g) ++ mid ++
        enable_requests ((s.crtcs.map (fun e => e.1)).zip g) ++ [Call.XUngrabServer] ∧
      b = decide ((enable_loop F 0 ((s.crtcs.map (fun e => e.1)).zip g)
          (resize_step F (disable_loop F 0 ((s.crtcs.map (fun e => e.1)).zip g)
            (XGrabServer { s with m_xerrors := 0 })) w hh)).m_xerrors = 0) := by
  obtain ⟨g, w, hh, c1, hl, _, hb, hs1⟩ := transaction_some F s s1 t ref pxmode b h
  obtain ⟨mid, hmid, hcase⟩ := resize_step_trace F
    (disable_loop F 0 ((s.crtcs.map (fun e => e.1)).zip g)
      (XGrabServer { s with m_xerrors := 0 })) w hh
  refine ⟨g, w, hh, mid, hl, hcase, ?_, hb⟩
  rw [hs1]
  show (enable_loop F 0 ((s.crtcs.map (fun e => e.1)).zip g)
      (resize_step F (disable_loop F 0 ((s.crtcs.map (fun e => e.1)).zip g)
        (XGrabServer { s with m_xerrors := 0 })) w hh)).calls ++ [Call.XUngrabServer] = _
  rw [enable_loop_calls, hmid, disable_loop_calls]
  rfl

/-- An X error on a re-enable is surfaced.  If, in a transaction of
`set_timing`, the re-enable request of the controller at some position
is rejected with an X error, then `set_timing` returns false, and the requests issued are the grab,
the disables, possibly the resize, one re-enable per marked position and the
ungrab: the faulted re-enable is among them and, controller ids being
distinct, it is the only re-enable issued for that controller. -/
theorem set_timing_enable_fault (H : Header) (F : TimingFaults) (s : State) (mode : modeline)
    (pxmode : XRRModeInfo) (O : Nat) (oi : XRROutputInfo) (live : XRRCrtcInfo)
    (g : List XRRCrtcInfo) (w h c : Nat) (p : Nat × XRRCrtcInfo)
    (hno : s.m_desktop_output ≠ -1) (htm : target_mode H s mode = some pxmode)
    (hro : resources_output s s.m_desktop_output = some O)
    (hoi : XRRGetOutputInfo s O = some oi) (hlive : XRRGetCrtcInfo s oi.crtc = some live)
    (hskip : skip_test s pxmode live = false)
    (hl : layout (XGrabServer { s with m_xerrors := 0 }) oi.crtc (reference_crtc s live) pxmode
      = some (g, w, h))
    (hc : ((s.crtcs.map (fun e => e.1)).zip g).get? c = some p)
    (hx : p.2.mode ≠ 0 ∧ (p.2.timestamp = 1 ∨ p.2.timestamp = 2))
    (hf : F.enable c = true) :
    ∃ s1, set_timing H F s mode = some (false, s1) ∧
      (∃ mid, (mid = [] ∨ mid = [Call.XRRSetScreenSize w h]) ∧
        s1.calls = s.calls ++ [Call.XGrabServer] ++
          disable_requests ((s.crtcs.map (fun e => e.1)).zip g) ++ mid ++
          enable_requests ((s.crtcs.map (fun e => e.1)).zip g) ++ [Call.XUngrabServer]) ∧
      Call.XRRSetCrtcConfig p.1 p.2.x p.2.y p.2.mode p.2.rotation p.2.outputs ∈
        enable_requests ((s.crtcs.map (fun e => e.1)).zip g) ∧
      ((s.crtcs.map (fun e => e.1)).Nodup →
        ((enable_requests ((s.crtcs.map (fun e => e.1)).zip g)).filter (targets p.1)).length
          ≤ 1) := by
  have hrun : set_timing H F s mode
      = transaction F s oi.crtc (reference_crtc s live) pxmode := by
    unfold set_timing
    rw [if_neg hno, htm, hro]
    simp only [hoi, hlive, hskip, Bool.false_eq_true, if_false]
  have ht : oi.crtc ∈ s.crtcs.map (fun e => e.1) :=
    List.mem_map.2 ⟨(oi.crtc, live), mem_of_XRRGetCrtcInfo s oi.crtc live hlive, rfl⟩
  obtain ⟨⟨b, s1⟩, hr, _⟩ := transaction_total F s oi.crtc (reference_crtc s live) pxmode ht
  obtain ⟨g', w', h', mid, hl', hcase, hcalls, hb⟩ :=
    transaction_trace F s s1 oi.crtc (reference_crtc s live) pxmode b hr
  rw [hl] at hl'
  simp only [Option.some.injEq, Prod.mk.injEq] at hl'
  obtain ⟨rfl, rfl, rfl⟩ := hl'
  have hrec := enable_loop_fault F ((s.crtcs.map (fun e => e.1)).zip g) 0
    (resize_step F (disable_loop F 0 ((s.crtcs.map (fun e => e.1)).zip g)
      (XGrabServer { s with m_xerrors := 0 })) w h) c p hc hx (by rw [Nat.zero_add]; exact hf)
  have hbf : b = false := by
    rw [hb]
    exact decide_eq_false hrec.ne_zero
  subst hbf
  refine ⟨s1, by rw [hrun]; exact hr, ⟨mid, hcase, hcalls⟩, ?_, ?_⟩
  · unfold enable_requests
    rw [List.mem_filterMap]
    exact ⟨p, List.get?_mem hc, by rw [if_pos hx]⟩
  · intro hnd
    apply enable_requests_once
    have hlen : g.length = (s.crtcs.map (fun e => e.1)).length :=
      layout_loop_length _ oi.crtc (reference_crtc s live) pxmode _ 0 0 g w h hl
    have hkeys : ((s.crtcs.map (fun e => e.1)).zip g).map (fun p => p.1) =
        s.crtcs.map (fun e => e.1) := List.map_fst_zip _ _ (by omega)
    rw [hkeys]
    exact hnd

/-- On the two-controller sample with a fault on the re-enable of the sibling
(position 1), `set_timing` returns false and the faulted request is the only
re-enable issued for controller 11. -/
theorem set_timing_enable_fault_witness :
    ∃ s1, set_timing sample_header (fault_on_enable 1) two_crtc_state (sample_request 101)
        = some (false, s1) ∧
      Call.XRRSetCrtcConfig 11 800 0 100 1 [21] ∈ s1.calls ∧
      (s1.calls.filter (targets 11)).length = 2 := by
  obtain ⟨s1, hr, ⟨mid, hmid, hcalls⟩, hmem, _⟩ := set_timing_enable_fault sample_header
    (fault_on_enable 1) two_crtc_state (sample_request 101) (sample_mode 101 800 600) 20
    { name := "A", connection := 0, crtc := 10, modes := [100, 101] }
    (sample_crtc 0 0 640 480 100 [20])
    [{ sample_crtc 0 0 800 600 101 [20] with timestamp := 1 },
     { sample_crtc 800 0 640 480 100 [21] with timestamp := 2 }] 1440 600 1
    (11, { sample_crtc 800 0 640 480 100 [21] with timestamp := 2 })
    (by decide) (by rfl) (by rfl) (by rfl) (by rfl) (by rfl) (by rfl) (by rfl) (by decide)
    (by rfl)
  refine ⟨s1, hr, ?_, ?_⟩
  · rw [hcalls]
    exact List.mem_append_left _ (List.mem_append_right _ hmem)
  · rw [hcalls]
    rcases hmid with h | h <;> subst h <;> rfl

/-! ## The handler after an operation -/

/-- The function `add_mode` returns with the handler it was called with. -/
theorem add_mode_handler (H : Header) (fCreate fAttach fCleanup : Bool) (s s1 : State)
    (mode mode1 : Option modeline) (b : Bool)
    (h : add_mode H fCreate fAttach fCleanup s mode = some (b, s1, mode1)) :
    s1.handler = s.handler := by
  cases mode with
  | none =>
    simp only [add_mode, Option.some.injEq, Prod.mk.injEq] at h
    rw [← h.2.1]
  | some mode =>
    by_cases hno : s.m_desktop_output = -1
    · simp only [add_mode, if_pos hno, Option.some.injEq, Prod.mk.injEq] at h
      rw [← h.2.1]
    · simp only [add_mode, if_neg hno] at h
      have hres : ∀ s' : State, s'.outputs = s.outputs →
          s'.m_desktop_output = s.m_desktop_output →
          resources_output s' s'.m_desktop_output = resources_output s s.m_desktop_output := by
        intro s' h1 h2
        unfold resources_output
        rw [h1, h2]
      by_cases hz : s.next_id = 0 <;> cases hro : resources_output s s.m_desktop_output <;>
        cases fCreate <;> cases fAttach <;> cases fCleanup <;>
        simp [XSetErrorHandler, XRRCreateMode, XRRAddOutputMode, XRRDestroyMode, deliver, hres,
          hro, hz] at h <;>
        (obtain ⟨_, rfl, _⟩ := h; rfl)

theorem delete_loop_handler (fDetach fDestroy : Bool) :
    ∀ (l : List XRRModeInfo) (s : State) (mode : modeline) (total : Nat)
      (r : State × modeline × Nat),
      delete_loop fDetach fDestroy l s mode total = some r → r.1.handler = s.handler := by
  intro l
  induction l with
  | nil =>
    intro s mode total r h
    simp only [delete_loop, Option.some.injEq] at h
    rw [← h]
  | cons m ms ih =>
    intro s mode total r h
    simp only [delete_loop] at h
    split_ifs at h with h0 heq
    · simp only [Option.some.injEq] at h
      rw [← h]
    · split at h
      · exact absurd h (by simp)
      · split at h
        · exact absurd h (by simp)
        · split at h
          · exact absurd h (by simp)
          · rw [ih _ _ _ _ h]
            exact (delete_traps_result fDetach fDestroy s _ m.id total).2.2.1
    · exact ih _ _ _ _ h

/-- The function `delete_mode` returns with the handler it was called with. -/
theorem delete_mode_handler (fDetach fDestroy : Bool) (s s1 : State)
    (mode mode1 : Option modeline) (b : Bool)
    (h : delete_mode fDetach fDestroy s mode = some (b, s1, mode1)) :
    s1.handler = s.handler := by
  unfold delete_mode at h
  split_ifs at h
  · simp only [Option.some.injEq, Prod.mk.injEq] at h
    rw [← h.2.1]
  · split at h
    · simp only [Option.some.injEq, Prod.mk.injEq] at h
      rw [← h.2.1]
    · split at h
      · exact absurd h (by simp)
      · rename_i mode' s' m' t' hloop
        simp only [Option.some.injEq, Prod.mk.injEq] at h
        rw [← h.2.1]
        exact delete_loop_handler fDetach fDestroy _ _ _ _ _ hloop

/-- C14 fails on `set_timing`: the two-controller sample is entered with the
handler `foreign 0` installed; `set_timing` to mode 101, with no fault at all,
returns true with the unit's own `error_handler` still installed (the re-enable
loop installs it for every request and never puts the saved handler back). -/
theorem set_timing_handler_not_restored :
    two_crtc_state.handler = Handler.foreign 0 ∧
    (set_timing sample_header no_faults two_crtc_state (sample_request 101)).map
      (fun r => (r.1, r.2.handler, r.2.old_error_handler))
      = some (true, Handler.error_handler, Handler.error_handler) := ⟨rfl, rfl⟩

/-- C15 fails on a snapshot whose server timestamp is 1: in
`stale_marker_state` the sibling 11 is not the target and lies below both
shift thresholds, yet `set_timing` disables it and re-enables it where it was. -/
theorem set_timing_stale_marker :
    layout stale_marker_state 10 (sample_crtc 640 0 640 480 100 [20]) (sample_mode 101 800 600)
      = some ([{ sample_crtc 640 0 800 600 101 [20] with timestamp := 1 },
               { sample_crtc 0 0 640 480 100 [21] with timestamp := 1 }], 1440, 600) ∧
    (set_timing sample_header no_faults stale_marker_state (sample_request 101)).map
      (fun r => (r.1, r.2.calls))
      = some (true,
          [Call.XGrabServer,
           Call.XRRSetCrtcConfig 10 0 0 0 RR_Rotate_0 [],
           Call.XRRSetCrtcConfig 11 0 0 0 RR_Rotate_0 [],
           Call.XRRSetScreenSize 1440 600,
           Call.XRRSetCrtcConfig 10 640 0 101 1 [20],
           Call.XRRSetCrtcConfig 11 0 0 100 1 [21],
           Call.XUngrabServer]) := ⟨rfl, rfl⟩

/-! ## Rectangles after the layout pass -/

/-- Size of the target after classification. -/
theorem layout_crtc_target_size (out_crtc : Nat) (crtc_info : XRRCrtcInfo) (pxmode : XRRModeInfo)
    (snap : XRRCrtcInfo) (w h : Nat) :
    (layout_crtc out_crtc crtc_info pxmode out_crtc snap w h).1.width = pxmode.width ∧
    (layout_crtc out_crtc crtc_info pxmode out_crtc snap w h).1.height = pxmode.height := by
  unfold layout_crtc
  by_cases hch : snap.mode ≠ pxmode.id ∨ snap.width ≠ pxmode.width ∨
      snap.height ≠ pxmode.height ∨ snap.x ≠ crtc_info.x ∨ snap.y ≠ crtc_info.y
  · rw [if_pos rfl]
    simp only [if_pos hch]
    simp
  · rw [if_pos rfl]
    simp only [if_neg hch]
    simp

/-- Size of a controller other than the target after classification. -/
theorem layout_crtc_other_size (out_crtc : Nat) (crtc_info : XRRCrtcInfo) (pxmode : XRRModeInfo)
    (crtc : Nat) (snap : XRRCrtcInfo) (w h : Nat) (hother : crtc ≠ out_crtc) :
    (layout_crtc out_crtc crtc_info pxmode crtc snap w h).1.width = snap.width ∧
    (layout_crtc out_crtc crtc_info pxmode crtc snap w h).1.height = snap.height := by
  unfold layout_crtc
  simp only [if_neg hother]
  split_ifs <;> exact ⟨rfl, rfl⟩

/-- Exact placement of a sibling in use, for coordinates in protocol range. -/
theorem layout_crtc_sibling_exact (out_crtc : Nat) (ref : XRRCrtcInfo) (pxmode : XRRModeInfo)
    (crtc : Nat) (snap : XRRCrtcInfo) (w h : Nat)
    (hother : crtc ≠ out_crtc) (hbound : out_crtc ≠ 0) (hactive : snap.mode ≠ 0)
    (hr : in_range ref) (hs : in_range snap)
    (hpx : pxmode.width < 65536 ∧ pxmode.height < 65536) :
    (layout_crtc out_crtc ref pxmode crtc snap w h).1.x =
        (if snap.x ≥ ref.x + ref.width then snap.x + ((pxmode.width : Int) - ref.width)
         else snap.x) ∧
    (layout_crtc out_crtc ref pxmode crtc snap w h).1.y =
        (if snap.y ≥ ref.y + ref.height then snap.y + ((pxmode.height : Int) - ref.height)
         else snap.y) := by
  obtain ⟨h1, h2⟩ := layout_crtc_sibling out_crtc ref pxmode crtc snap w h hother hbound hactive
  obtain ⟨r1, r2, r3, r4, r5, r6⟩ := hr
  obtain ⟨s1, s2, s3, s4, s5, s6⟩ := hs
  obtain ⟨p1, p2⟩ := hpx
  rw [threshold_exact _ _ (by omega) ⟨by omega, by omega⟩,
    relocate_exact _ _ _ ⟨by omega, by omega⟩] at h1
  rw [threshold_exact _ _ (by omega) ⟨by omega, by omega⟩,
    relocate_exact _ _ _ ⟨by omega, by omega⟩] at h2
  exact ⟨h1, h2⟩

/-- C17 as stated fails when the target shrinks.  In `three_crtc_state` the
cached baseline agrees with the live target and the three rectangles are
pairwise apart; after the layout pass of `set_timing` for the 640x480 mode
controller 11 sits at (640,0) with 800x600 and controller 12 at (0,480) with
1600x480, and these two overlap. -/
theorem layout_shrink_overlap_counterexample :
    three_crtc_state.m_last_crtc = sample_crtc 0 0 800 600 101 [20] ∧
    XRRGetCrtcInfo three_crtc_state 10 = some (sample_crtc 0 0 800 600 101 [20]) ∧
    separated (sample_crtc 0 0 800 600 101 [20]) (sample_crtc 800 0 800 600 101 [21]) ∧
    separated (sample_crtc 0 0 800 600 101 [20]) (sample_crtc 0 600 1600 480 102 [22]) ∧
    separated (sample_crtc 800 0 800 600 101 [21]) (sample_crtc 0 600 1600 480 102 [22]) ∧
    layout three_crtc_state 10
        (reference_crtc three_crtc_state (sample_crtc 0 0 800 600 101 [20]))
        (sample_mode 100 640 480)
      = some ([{ sample_crtc 0 0 640 480 100 [20] with timestamp := 1 },
               { sample_crtc 640 0 800 600 101 [21] with timestamp := 2 },
               { sample_crtc 0 480 1600 480 102 [22] with timestamp := 2 }], 1600, 960) ∧
    ¬ separated { sample_crtc 640 0 800 600 101 [21] with timestamp := 2 }
        { sample_crtc 0 480 1600 480 102 [22] with timestamp := 2 } := by
  refine ⟨rfl, rfl, by decide, by decide, by decide, by rfl, by decide⟩

/-- Rectangle of a measured position after classification, in exact
arithmetic. -/
theorem layout_rect (s : State) (out_crtc : Nat) (live : XRRCrtcInfo) (pxmode : XRRModeInfo)
    (hbound : out_crtc ≠ 0) (hrange : ∀ e ∈ s.crtcs, in_range e.2) (hlr : in_range live)
    (hpx : pxmode.width < 65536 ∧ pxmode.height < 65536)
    (g : List XRRCrtcInfo) (w h : Nat) (hl : layout s out_crtc live pxmode = some (g, w, h))
    (i ci : Nat) (a : XRRCrtcInfo)
    (hi : (s.crtcs.map (fun e => e.1)).get? i = some ci) (ha : g.get? i = some a)
    (hcnt : counted out_crtc (ci, a) = true) :
    ∃ snap, XRRGetCrtcInfo s ci = some snap ∧
      (ci = out_crtc → a.x = live.x ∧ a.y = live.y ∧ a.width = pxmode.width ∧
        a.height = pxmode.height) ∧
      (ci ≠ out_crtc → snap.mode ≠ 0 ∧ a.width = snap.width ∧ a.height = snap.height ∧
        a.x = (if snap.x ≥ live.x + live.width then snap.x + ((pxmode.width : Int) - live.width)
               else snap.x) ∧
        a.y = (if snap.y ≥ live.y + live.height then
                 snap.y + ((pxmode.height : Int) - live.height) else snap.y)) := by
  obtain ⟨snap, w0, h0, hsnap, hg⟩ := layout_loop_get s out_crtc live pxmode _ 0 0 g w h hl i ci hi
  rw [ha] at hg
  simp only [Option.some.injEq] at hg
  refine ⟨snap, hsnap, ?_, ?_⟩
  · intro heq
    subst heq
    obtain ⟨_, hx, hy, _, _⟩ := layout_crtc_target ci live pxmode snap w0 h0
    obtain ⟨hw, hh⟩ := layout_crtc_target_size ci live pxmode snap w0 h0
    rw [hg]
    exact ⟨hx, hy, hw, hh⟩
  · intro hne
    have hmode : a.mode = snap.mode := by
      rw [hg]; exact (layout_crtc_other out_crtc live pxmode ci snap w0 h0 hne).2
    have hactive : snap.mode ≠ 0 := by
      have hb : (ci == out_crtc) = false := by simpa using hne
      simp only [counted, hb, Bool.false_or, bne_iff_ne, ne_eq] at hcnt
      rw [← hmode]; exact hcnt
    obtain ⟨hw, hh⟩ := layout_crtc_other_size out_crtc live pxmode ci snap w0 h0 hne
    obtain ⟨hx, hy⟩ := layout_crtc_sibling_exact out_crtc live pxmode ci snap w0 h0 hne hbound
      hactive hlr (hrange (ci, snap) (mem_of_XRRGetCrtcInfo s ci snap hsnap)) hpx
    rw [hg]
    exact ⟨hactive, hw, hh, hx, hy⟩

/-- C17, amended.  When the cached baseline agrees with the live mode of the
target, so that `set_timing` lays out from the live snapshot, and the new mode
is at least as wide and as high as the old size of the target, the layout pass
of `set_timing` keeps the rectangles apart: if the live rectangles of the
target and of the other controllers in use are pairwise apart on some axis, so
are the rectangles after classification (target at its origin with the new
size, shifted siblings at their new origins, the others where they were).
`set_timing` runs the pass with `out_crtc = output_info->crtc`, `live` the
snapshot of that controller and the reference `reference_crtc s live`.
Controller ids are taken to be distinct and coordinates to be in protocol
range. -/
theorem layout_keeps_separation (s : State) (out_crtc : Nat) (live : XRRCrtcInfo)
    (pxmode : XRRModeInfo) (hlive : XRRGetCrtcInfo s out_crtc = some live)
    (hagree : s.m_last_crtc.mode = live.mode)
    (hbound : out_crtc ≠ 0) (hnd : (s.crtcs.map (fun e => e.1)).Nodup)
    (hgw : live.width ≤ pxmode.width) (hgh : live.height ≤ pxmode.height)
    (hrange : ∀ e ∈ s.crtcs, in_range e.2)
    (hpx : pxmode.width < 65536 ∧ pxmode.height < 65536)
    (hsep : ∀ (i j ci cj : Nat) (a b : XRRCrtcInfo), i ≠ j →
      (s.crtcs.map (fun e => e.1)).get? i = some ci →
      (s.crtcs.map (fun e => e.1)).get? j = some cj →
      XRRGetCrtcInfo s ci = some a → XRRGetCrtcInfo s cj = some b →
      (ci = out_crtc ∨ a.mode ≠ 0) → (cj = out_crtc ∨ b.mode ≠ 0) → separated a b) :
    ∃ g w h, layout s out_crtc (reference_crtc s live) pxmode = some (g, w, h) ∧
      ∀ (i j ci cj : Nat) (a b : XRRCrtcInfo), i ≠ j →
        (s.crtcs.map (fun e => e.1)).get? i = some ci →
        (s.crtcs.map (fun e => e.1)).get? j = some cj →
        g.get? i = some a → g.get? j = some b →
        counted out_crtc (ci, a) = true → counted out_crtc (cj, b) = true → separated a b := by
  have href : reference_crtc s live = live := by
    unfold reference_crtc; simp [hagree]
  obtain ⟨⟨g, w, h⟩, hl⟩ := layout_loop_total s out_crtc live pxmode
    (s.crtcs.map (fun e => e.1)) 0 0 (fun _ hid => hid)
  refine ⟨g, w, h, by rw [href]; exact hl, ?_⟩
  intro i j ci cj a b hij hi hj ha hb hca hcb
  have hlr : in_range live :=
    hrange (out_crtc, live) (mem_of_XRRGetCrtcInfo s out_crtc live hlive)
  obtain ⟨si, hsi, hti, hoi⟩ := layout_rect s out_crtc live pxmode hbound hrange hlr hpx g w h hl
    i ci a hi ha hca
  obtain ⟨sj, hsj, htj, hoj⟩ := layout_rect s out_crtc live pxmode hbound hrange hlr hpx g w h hl
    j cj b hj hb hcb
  have hri := hrange (ci, si) (mem_of_XRRGetCrtcInfo s ci si hsi)
  have hrj := hrange (cj, sj) (mem_of_XRRGetCrtcInfo s cj sj hsj)
  obtain ⟨l1, l2, l3, l4, l5, l6⟩ := hlr
  obtain ⟨i1, i2, i3, i4, i5, i6⟩ := hri
  obtain ⟨j1, j2, j3, j4, j5, j6⟩ := hrj
  by_cases hci : ci = out_crtc
  · by_cases hcj : cj = out_crtc
    · -- two positions with the id of the target
      exfalso
      have hne := List.nodup_iff_get?_ne_get?.1 hnd
      have hli : i < (s.crtcs.map (fun e => e.1)).length := (List.get?_eq_some.1 hi).1
      have hlj : j < (s.crtcs.map (fun e => e.1)).length := (List.get?_eq_some.1 hj).1
      rcases Nat.lt_or_gt_of_ne hij with hlt | hgt
      · exact hne i j hlt hlj (by rw [hi, hj, hci, hcj])
      · exact hne j i hgt hli (by rw [hi, hj, hci, hcj])
    · obtain ⟨ax, ay, aw, ah⟩ := hti hci
      obtain ⟨_, bw, bh, bx, by'⟩ := hoj hcj
      have hs0 := hsep i j ci cj si sj hij hi hj hsi hsj (Or.inl hci)
        (Or.inr (hoj hcj).1)
      have hsl : si = live := by
        rw [hci, hlive] at hsi
        exact (Option.some.inj hsi).symm
      rw [hsl] at hs0
      unfold separated at hs0 ⊢
      rw [ax, ay, aw, ah, bw, bh, bx, by']
      split_ifs <;> omega
  · by_cases hcj : cj = out_crtc
    · obtain ⟨bx, by', bw, bh⟩ := htj hcj
      obtain ⟨_, aw, ah, ax, ay⟩ := hoi hci
      have hs0 := hsep i j ci cj si sj hij hi hj hsi hsj (Or.inr (hoi hci).1)
        (Or.inl hcj)
      have hsl : sj = live := by
        rw [hcj, hlive] at hsj
        exact (Option.some.inj hsj).symm
      rw [hsl] at hs0
      unfold separated at hs0 ⊢
      rw [ax, ay, aw, ah, bw, bh, bx, by']
      split_ifs <;> omega
    · obtain ⟨_, aw, ah, ax, ay⟩ := hoi hci
      obtain ⟨_, bw, bh, bx, by'⟩ := hoj hcj
      have hs0 := hsep i j ci cj si sj hij hi hj hsi hsj (Or.inr (hoi hci).1)
        (Or.inr (hoj hcj).1)
      unfold separated at hs0 ⊢
      rw [ax, ay, aw, ah, bw, bh, bx, by']
      split_ifs <;> omega

/-- In `three_crtc_state`, switching the target from 800x600 to 1024x768 moves
controller 11 to (1024,0) and controller 12 to (0,768), apart from each other
and from the target. -/
theorem layout_keeps_separation_witness :
    ∃ g w h, layout three_crtc_state 10
        (reference_crtc three_crtc_state (sample_crtc 0 0 800 600 101 [20]))
        (sample_mode 103 1024 768) = some (g, w, h) ∧
      ∃ a b, g.get? 1 = some a ∧ g.get? 2 = some b ∧ separated a b ∧
        (a.x, a.y, b.x, b.y) = (1024, 0, 0, 768) := by
  have h10 : XRRGetCrtcInfo three_crtc_state 10 = some (sample_crtc 0 0 800 600 101 [20]) := rfl
  have h11 : XRRGetCrtcInfo three_crtc_state 11 = some (sample_crtc 800 0 800 600 101 [21]) :=
    rfl
  have h12 : XRRGetCrtcInfo three_crtc_state 12 = some (sample_crtc 0 600 1600 480 102 [22]) :=
    rfl
  have hids : three_crtc_state.crtcs.map (fun e => e.1) = [10, 11, 12] := rfl
  obtain ⟨g, w, h, hl, hall⟩ := layout_keeps_separation three_crtc_state 10
    (sample_crtc 0 0 800 600 101 [20]) (sample_mode 103 1024 768) h10 rfl (by decide)
    (by decide) (by decide) (by decide) (by decide) (by decide)
    (by
      intro i j ci cj a b hij hi hj hsi hsj _ _
      rw [hids] at hi hj
      rcases i with _ | _ | _ | i <;> rcases j with _ | _ | _ | j <;>
        simp only [List.get?_cons_zero, List.get?_cons_succ, List.get?_nil, Option.some.injEq,
          reduceCtorEq] at hi hj <;>
        first
        | exact absurd rfl hij
        | (subst hi; subst hj
           simp only [h10, h11, h12, Option.some.injEq] at hsi hsj
           subst hsi; subst hsj
           decide))
  have hval : layout three_crtc_state 10
      (reference_crtc three_crtc_state (sample_crtc 0 0 800 600 101 [20]))
      (sample_mode 103 1024 768)
      = some ([{ sample_crtc 0 0 1024 768 103 [20] with timestamp := 1 },
               { sample_crtc 1024 0 800 600 101 [21] with timestamp := 2 },
               { sample_crtc 0 768 1600 480 102 [22] with timestamp := 2 }], 1824, 1248) := by
    rfl
  rw [hval] at hl
  simp only [Option.some.injEq, Prod.mk.injEq] at hl
  obtain ⟨rfl, rfl, rfl⟩ := hl
  exact ⟨_, _, _, hval, _, _, rfl, rfl,
    hall 1 2 11 12 _ _ (by decide) rfl rfl rfl rfl (by decide) (by decide), rfl⟩

/-! ## The timing enumerator -/

/-- For a mode with a nonzero horizontal total `populate` succeeds and the
request carries the mode. -/
theorem populate_some (H : Header) (s : State) (pxmode : XRRModeInfo) (mode : modeline)
    (hok : u64 (i32 pxmode.hTotal) ≠ 0) :
    ∃ m, populate H s pxmode mode = some m ∧ populated_from pxmode m := by
  unfold populate
  simp only [if_neg hok]
  by_cases hd : s.m_desktop_mode.id = pxmode.id
  · simp only [if_pos hd]
    refine ⟨_, rfl, ?_⟩
    unfold populated_from
    simp only [and_self]
  · simp only [if_neg hd]
    refine ⟨_, rfl, ?_⟩
    unfold populated_from
    simp only [and_self]

theorem populate_loop_cons (H : Header) (s : State) (id : Nat) (q : XRRModeInfo)
    (rest : List XRRModeInfo) (mode : modeline) :
    populate_loop H s id (q :: rest) mode =
      if q.id = id then (populate H s q mode).bind (populate_loop H s id rest)
      else populate_loop H s id rest mode := by
  rw [populate_loop]

theorem populate_loop_skip (H : Header) (s : State) (id : Nat) :
    ∀ (l : List XRRModeInfo) (mode : modeline), id ∉ l.map (fun m => m.id) →
      populate_loop H s id l mode = some mode := by
  intro l
  induction l with
  | nil => intro mode _; rfl
  | cons q rest ih =>
    intro mode hnot
    rw [List.map_cons, List.mem_cons, not_or] at hnot
    rw [populate_loop_cons, if_neg (Ne.symm hnot.1)]
    exact ih mode hnot.2

/-- With distinct mode ids the loop of `get_timing` populates the request from
the one live mode that has the id at the cursor. -/
theorem populate_loop_unique (H : Header) (s : State) (pxmode : XRRModeInfo) :
    ∀ (l : List XRRModeInfo) (mode : modeline), (l.map (fun m => m.id)).Nodup → pxmode ∈ l →
      populate_loop H s pxmode.id l mode = populate H s pxmode mode := by
  intro l
  induction l with
  | nil => intro mode _ hmem; simp at hmem
  | cons q rest ih =>
    intro mode hnd hmem
    rw [List.map_cons, List.nodup_cons] at hnd
    rcases List.mem_cons.1 hmem with hhead | htail
    · subst hhead
      rw [populate_loop_cons, if_pos rfl]
      cases hp : populate H s pxmode mode with
      | none => rfl
      | some m => exact populate_loop_skip H s pxmode.id rest m hnd.1
    · have hne : q.id ≠ pxmode.id := by
        intro heq
        exact hnd.1 (heq ▸ List.mem_map_of_mem (fun m => m.id) htail)
      rw [populate_loop_cons, if_neg hne]
      exact ih mode hnd.2 htail

/-- One call of `get_timing` with the cursor at `p`: below the length of the
output's mode list it populates the request from the mode at `p` and advances;
at the length it leaves the request alone and puts the cursor back to 0. -/
theorem get_timing_step (H : Header) (s : State) (O : Nat) (oi : XRROutputInfo)
    (hno : s.m_desktop_output ≠ -1)
    (hro : resources_output s s.m_desktop_output = some O)
    (hoi : XRRGetOutputInfo s O = some oi)
    (hnd : (s.modes.map (fun m => m.id)).Nodup)
    (hlive : ∀ id ∈ oi.modes, ∃ pxmode ∈ s.modes, pxmode.id = id ∧ u64 (i32 pxmode.hTotal) ≠ 0)
    (p : Nat) (hp : p ≤ oi.modes.length) (req : modeline) :
    ∃ req', get_timing H { s with m_video_modes_position := (p : Int) } req
        = some (true,
            { s with m_video_modes_position := (((p + 1) % (oi.modes.length + 1) : Nat) : Int) },
            req') ∧
      (∀ id, oi.modes.get? p = some id →
        ∃ pxmode ∈ s.modes, pxmode.id = id ∧ populated_from pxmode req') ∧
      (p = oi.modes.length → req' = req) := by
  have hro' : resources_output { s with m_video_modes_position := (p : Int) }
      s.m_desktop_output = some O := hro
  have hoi' : XRRGetOutputInfo { s with m_video_modes_position := (p : Int) } O = some oi := hoi
  rcases Nat.lt_or_eq_of_le hp with hlt | heq
  · -- a mode at the cursor
    obtain ⟨id, hid⟩ : ∃ id, oi.modes.get? p = some id :=
      ⟨oi.modes.get ⟨p, hlt⟩, List.get?_eq_get hlt⟩
    obtain ⟨pxmode, hmem, hpid, hok⟩ := hlive id (List.get?_mem hid)
    obtain ⟨m, hm, hpop⟩ := populate_some H s pxmode req hok
    have hloop : populate_loop H { s with m_video_modes_position := (p : Int) } id s.modes req
        = some m := by
      rw [← hpid]
      exact (populate_loop_unique H _ pxmode s.modes req hnd hmem).trans hm
    have hmod : (p + 1) % (oi.modes.length + 1) = p + 1 := Nat.mod_eq_of_lt (by omega)
    refine ⟨m, ?_, ?_, ?_⟩
    · unfold get_timing
      have hc1 : ((p : Int) < (oi.modes.length : Int)) := by exact_mod_cast hlt
      have hc2 : ¬ ((p : Int) < 0) := by omega
      simp only [if_neg hno, hro', hoi', if_pos hc1, if_neg hc2, Int.toNat_ofNat, hid, hloop,
        hmod]
      rfl
    · intro id' hid'
      rw [hid] at hid'
      cases hid'
      exact ⟨pxmode, hmem, hpid, hpop⟩
    · intro h; omega
  · -- the cursor is at the end of the list
    have hmod : (p + 1) % (oi.modes.length + 1) = 0 := by
      rw [heq]; exact Nat.mod_self _
    refine ⟨req, ?_, ?_, fun _ => rfl⟩
    · unfold get_timing
      have hc1 : ¬ ((p : Int) < (oi.modes.length : Int)) := by
        rw [heq]; exact lt_irrefl _
      simp only [if_neg hno, hro', hoi', if_neg hc1, hmod]
      rfl
    · intro id hid
      have := (List.get?_eq_some.1 hid).1
      omega

/-- C13 (as written, refuted): on an output with the two modes 100 and 101 the
third call of `get_timing` from cursor 0 returns true but populates nothing:
the request comes back as it went in (handle 7, not handle 100 of position
2 mod 2 = 0) and only the cursor goes back to 0. -/
theorem get_timing_no_end_call_counterexample :
    get_timing_repeat sample_header (sample_request 7) 2 timed_state
      = some { timed_state with m_video_modes_position := 2 } ∧
    get_timing sample_header { timed_state with m_video_modes_position := 2 } (sample_request 7)
      = some (true, timed_state, sample_request 7) ∧
    (sample_request 7).platform_data ≠ 100 := by
  refine ⟨rfl, rfl, ?_⟩
  decide

/-- C13 (amended): with n modes on the managed output the cursor of
`get_timing` has period n + 1. From cursor 0, after k calls the cursor is
k mod (n + 1); the next call returns true and moves it to (k + 1) mod (n + 1);
when k mod (n + 1) is below n the request is populated (handle, clock,
geometry, flags) from the live mode listed at that position, and when it
equals n the call populates nothing and hands the request back unchanged. -/
theorem get_timing_cursor (H : Header) (s : State) (O : Nat) (oi : XRROutputInfo)
    (hno : s.m_desktop_output ≠ -1)
    (hro : resources_output s s.m_desktop_output = some O)
    (hoi : XRRGetOutputInfo s O = some oi)
    (hcur : s.m_video_modes_position = 0)
    (hnd : (s.modes.map (fun m => m.id)).Nodup)
    (hlive : ∀ id ∈ oi.modes, ∃ pxmode ∈ s.modes, pxmode.id = id ∧ u64 (i32 pxmode.hTotal) ≠ 0)
    (req : modeline) (k : Nat) :
    get_timing_repeat H req k s
      = some { s with m_video_modes_position := ((k % (oi.modes.length + 1) : Nat) : Int) } ∧
    ∃ req', get_timing H
          { s with m_video_modes_position := ((k % (oi.modes.length + 1) : Nat) : Int) } req
        = some (true,
            { s with m_video_modes_position := (((k + 1) % (oi.modes.length + 1) : Nat) : Int) },
            req') ∧
      (∀ id, oi.modes.get? (k % (oi.modes.length + 1)) = some id →
        ∃ pxmode ∈ s.modes, pxmode.id = id ∧ populated_from pxmode req') ∧
      (k % (oi.modes.length + 1) = oi.modes.length → req' = req) := by
  have hstep : ∀ j : Nat, ∃ req', get_timing H
          { s with m_video_modes_position := ((j % (oi.modes.length + 1) : Nat) : Int) } req
        = some (true,
            { s with m_video_modes_position := (((j + 1) % (oi.modes.length + 1) : Nat) : Int) },
            req') ∧
      (∀ id, oi.modes.get? (j % (oi.modes.length + 1)) = some id →
        ∃ pxmode ∈ s.modes, pxmode.id = id ∧ populated_from pxmode req') ∧
      (j % (oi.modes.length + 1) = oi.modes.length → req' = req) := by
    intro j
    have hp : j % (oi.modes.length + 1) ≤ oi.modes.length :=
      Nat.le_of_lt_succ (Nat.mod_lt _ (Nat.succ_pos _))
    have h := get_timing_step H s O oi hno hro hoi hnd hlive _ hp req
    rw [Nat.mod_add_mod] at h
    exact h
  refine ⟨?_, hstep k⟩
  induction k with
  | zero =>
    rw [Nat.zero_mod, Nat.cast_zero, ← hcur]
    rfl
  | succ j ih =>
    obtain ⟨req', hget, _⟩ := hstep j
    simp only [get_timing_repeat, ih, hget, Option.map_some']

/-- Instance of `get_timing_cursor` on the two-mode sample. -/
theorem get_timing_cursor_witness :
    get_timing_repeat sample_header (sample_request 7) 4 timed_state
      = some { timed_state with m_video_modes_position := ((4 % (2 + 1) : Nat) : Int) } :=
  (get_timing_cursor sample_header timed_state 20
    { name := "A", connection := 0, crtc := 10, modes := [100, 101] }
    (by decide) rfl rfl rfl (by decide)
    (by
      intro id hid
      simp only [List.mem_cons, List.mem_singleton, List.not_mem_nil, or_false] at hid
      rcases hid with h | h
      · exact ⟨timed_mode 100 640 480, by simp [timed_state], by rw [h]; rfl, by decide⟩
      · exact ⟨timed_mode 101 800 600, by simp [timed_state], by rw [h]; rfl, by decide⟩)
    (sample_request 7) 4).1

/-! ## Discovery -/

theorem screen_name_pos : ∀ N, N < 10 →
    screen_pos (screen_name N) = (N : Int) ∧ screen_name N ≠ "auto" := by
  decide

theorem desktop_mode_loop_frame (c : XRRCrtcInfo) :
    ∀ (l : List XRRModeInfo) (s : State),
      (desktop_mode_loop c l s).m_desktop_output = s.m_desktop_output ∧
      (desktop_mode_loop c l s).outputs = s.outputs ∧
      (desktop_mode_loop c l s).crtcs = s.crtcs ∧
      (desktop_mode_loop c l s).modes = s.modes := by
  intro l
  induction l with
  | nil => intro s; exact ⟨rfl, rfl, rfl, rfl⟩
  | cons m rest ih =>
    intro s
    unfold desktop_mode_loop
    by_cases h0 : s.m_desktop_mode.id = 0
    · by_cases hm : c.mode = m.id
      · simp only [if_pos h0, if_pos hm]
        exact ih _
      · simp only [if_pos h0, if_neg hm]
        exact ih _
    · rw [if_neg h0]
      exact ⟨rfl, rfl, rfl, rfl⟩

/-- Once an output is selected the body of the loop changes nothing. -/
theorem init_output_selected (H : Header) (name : String) (sp : Int) (oi : XRROutputInfo)
    (o pos : Int) (s : State) (hs : s.m_desktop_output ≠ -1) :
    init_output H name sp oi o pos s = some (pos, s) := by
  unfold init_output
  rw [if_neg (fun h => hs h.1)]

theorem init_outputs_cons (H : Header) (name : String) (sp : Int) (e : Nat × XRROutputInfo)
    (rest : List (Nat × XRROutputInfo)) (o pos : Int) (s : State) :
    init_outputs H name sp (e :: rest) o pos s =
      match XRRGetOutputInfo s e.1 with
      | none => init_outputs H name sp rest (i32 (o + 1)) pos s
      | some output_info =>
        (init_output H name sp output_info o pos s).bind
          (fun r => init_outputs H name sp rest (i32 (o + 1)) r.1 r.2) := by
  rw [init_outputs]

theorem init_outputs_selected (H : Header) (name : String) (sp : Int) :
    ∀ (l : List (Nat × XRROutputInfo)) (o pos : Int) (s : State), s.m_desktop_output ≠ -1 →
      init_outputs H name sp l o pos s = some s := by
  intro l
  induction l with
  | nil => intro o pos s _; rfl
  | cons e rest ih =>
    intro o pos s hs
    rw [init_outputs_cons]
    cases hinfo : XRRGetOutputInfo s e.1 with
    | none => exact ih _ _ s hs
    | some oi =>
      simp only [init_output_selected H name sp oi o pos s hs, Option.some_bind]
      exact ih _ _ s hs

theorem find_entry_of_nodup {α : Type} :
    ∀ (l : List (Nat × α)), (l.map (fun e => e.1)).Nodup → ∀ e ∈ l,
      (l.find? (fun x => x.1 == e.1)).map (fun x => x.2) = some e.2 := by
  intro l
  induction l with
  | nil => intro _ e he; simp at he
  | cons a rest ih =>
    intro hnd e he
    rw [List.map_cons, List.nodup_cons] at hnd
    rcases List.mem_cons.1 he with h | h
    · subst h
      simp
    · have hne : a.1 ≠ e.1 := by
        intro heq
        exact hnd.1 (heq ▸ List.mem_map_of_mem (fun e => e.1) h)
      have hb : (a.1 == e.1) = false := by simpa using hne
      rw [List.find?_cons, hb]
      exact ih hnd.2 e h

/-- An output that is not connected or not bound to a controller is passed over. -/
theorem init_output_unusable (H : Header) (name : String) (sp : Int) (e : Nat × XRROutputInfo)
    (o pos : Int) (s : State) (hu : usable e = false) :
    init_output H name sp e.2 o pos s = some (pos, s) := by
  unfold init_output
  have h : ¬ (e.2.connection = RR_Connected ∧ e.2.crtc ≠ 0) := by
    simpa [usable] using hu
  rw [if_neg (fun hc => h hc.2)]

/-- A usable output that does not match is counted and passed over. -/
theorem init_output_counted (H : Header) (name : String) (sp : Int) (e : Nat × XRROutputInfo)
    (o pos : Int) (s : State) (hs : s.m_desktop_output = -1) (hu : usable e = true)
    (hauto : name ≠ "auto") (hname : e.2.name ≠ name) (hpos : pos ≠ sp) :
    init_output H name sp e.2 o pos s = some (i32 (pos + 1), s) := by
  unfold init_output
  have h : e.2.connection = RR_Connected ∧ e.2.crtc ≠ 0 := by
    simpa [usable] using hu
  rw [if_pos ⟨hs, h⟩, if_neg]
  rintro (h1 | h1 | h1)
  · exact hauto h1
  · exact hname h1.symm
  · exact hpos h1

/-- A usable output at the wanted position is selected. -/
theorem init_output_match (H : Header) (name : String) (sp : Int) (e : Nat × XRROutputInfo)
    (o pos : Int) (s : State) (hs : s.m_desktop_output = -1) (hu : usable e = true)
    (hpos : pos = sp) (hc : XRRGetCrtcInfo s e.2.crtc ≠ none) :
    ∃ s', init_output H name sp e.2 o pos s = some (i32 (pos + 1), s') ∧
      s'.m_desktop_output = o ∧ s'.outputs = s.outputs ∧ s'.crtcs = s.crtcs ∧
      s'.modes = s.modes := by
  unfold init_output
  have h : e.2.connection = RR_Connected ∧ e.2.crtc ≠ 0 := by
    simpa [usable] using hu
  rw [if_pos ⟨hs, h⟩, if_pos (Or.inr (Or.inr hpos))]
  cases hci : XRRGetCrtcInfo s e.2.crtc with
  | none => exact absurd hci hc
  | some c =>
    have hf := desktop_mode_loop_frame c s.modes { s with m_desktop_output := o }
    by_cases hr : c.rotation &&& 0xe ≠ 0
    · simp only [if_pos hr]
      exact ⟨_, rfl, hf.1, hf.2.1, hf.2.2.1, hf.2.2.2⟩
    · simp only [if_neg hr]
      exact ⟨_, rfl, hf.1, hf.2.1, hf.2.2.1, hf.2.2.2⟩

/-- When fewer usable outputs remain than are needed to reach the wanted
position, the loop selects nothing and leaves the state alone. -/
theorem init_outputs_miss (H : Header) (name : String) (N : Nat) (hN : N < 10)
    (hauto : name ≠ "auto") :
    ∀ (l : List (Nat × XRROutputInfo)) (o pos : Int) (s : State), s.m_desktop_output = -1 →
      (∀ e ∈ l, XRRGetOutputInfo s e.1 = some e.2) → (∀ e ∈ l, e.2.name ≠ name) →
      0 ≤ pos → pos + ((l.filter usable).length : Int) ≤ N →
      init_outputs H name (N : Int) l o pos s = some s := by
  intro l
  induction l with
  | nil => intro o pos s _ _ _ _ _; rfl
  | cons e rest ih =>
    intro o pos s hs hinfo hname h0 hcount
    have hinfo' : ∀ x ∈ rest, XRRGetOutputInfo s x.1 = some x.2 :=
      fun x hx => hinfo x (List.mem_cons_of_mem _ hx)
    have hname' : ∀ x ∈ rest, x.2.name ≠ name :=
      fun x hx => hname x (List.mem_cons_of_mem _ hx)
    rw [init_outputs_cons, hinfo e (List.mem_cons_self _ _)]
    cases hu : usable e with
    | false =>
      rw [List.filter_cons_of_neg (by simp [hu])] at hcount
      simp only [init_output_unusable H name N e o pos s hu, Option.some_bind]
      exact ih _ pos s hs hinfo' hname' h0 hcount
    | true =>
      rw [List.filter_cons_of_pos hu, List.length_cons] at hcount
      push_cast at hcount
      have hpos : pos ≠ (N : Int) := by omega
      have hstep : i32 (pos + 1) = pos + 1 := by unfold i32; omega
      simp only [init_output_counted H name N e o pos s hs hu hauto
        (hname e (List.mem_cons_self _ _)) hpos, Option.some_bind, hstep]
      exact ih _ (pos + 1) s hs hinfo' hname' (by omega) (by omega)

/-- The loop selects the usable output that has exactly as many usable outputs
before it as are needed to reach the wanted position. -/
theorem init_outputs_hit (H : Header) (name : String) (N : Nat) (hN : N < 10)
    (hauto : name ≠ "auto") :
    ∀ (l : List (Nat × XRROutputInfo)) (i : Nat) (o pos : Int) (s : State)
      (e : Nat × XRROutputInfo), s.m_desktop_output = -1 →
      (∀ x ∈ l, XRRGetOutputInfo s x.1 = some x.2) → (∀ x ∈ l, x.2.name ≠ name) →
      0 ≤ pos → 0 ≤ o → o + (l.length : Int) < 2147483648 →
      l.get? i = some e → usable e = true →
      pos + (((l.take i).filter usable).length : Int) = N →
      XRRGetCrtcInfo s e.2.crtc ≠ none →
      ∃ s', init_outputs H name (N : Int) l o pos s = some s' ∧
        s'.m_desktop_output = o + i ∧ s'.outputs = s.outputs ∧ s'.crtcs = s.crtcs ∧
        s'.modes = s.modes := by
  intro l
  induction l with
  | nil => intro i o pos s e _ _ _ _ _ _ hget; simp at hget
  | cons a rest ih =>
    intro i o pos s e hs hinfo hname h0 ho hlen hget hu hcount hc
    have hinfo' : ∀ x ∈ rest, XRRGetOutputInfo s x.1 = some x.2 :=
      fun x hx => hinfo x (List.mem_cons_of_mem _ hx)
    have hname' : ∀ x ∈ rest, x.2.name ≠ name :=
      fun x hx => hname x (List.mem_cons_of_mem _ hx)
    rw [List.length_cons] at hlen
    push_cast at hlen
    have hnext : i32 (o + 1) = o + 1 := by unfold i32; omega
    rw [init_outputs_cons, hinfo a (List.mem_cons_self _ _), hnext]
    cases i with
    | zero =>
      have hae : a = e := by simpa using hget
      subst hae
      have hpos : pos = (N : Int) := by simpa using hcount
      obtain ⟨s', hs', hsel, hout, hcr, hmo⟩ :=
        init_output_match H name N a o pos s hs hu hpos hc
      have hne : s'.m_desktop_output ≠ -1 := by rw [hsel]; omega
      simp only [hs', Option.some_bind, init_outputs_selected H name N rest _ _ s' hne]
      exact ⟨s', rfl, by rw [hsel]; simp, hout, hcr, hmo⟩
    | succ j =>
      have hget' : rest.get? j = some e := by simpa using hget
      rw [List.take_succ_cons] at hcount
      cases hua : usable a with
      | false =>
        rw [List.filter_cons_of_neg (by simp [hua])] at hcount
        simp only [init_output_unusable H name N a o pos s hua, Option.some_bind]
        obtain ⟨s', hs', hsel, hrest⟩ :=
          ih j (o + 1) pos s e hs hinfo' hname' h0 (by omega) (by omega) hget' hu hcount hc
        exact ⟨s', hs', by rw [hsel]; push_cast; omega, hrest⟩
      | true =>
        rw [List.filter_cons_of_pos hua, List.length_cons] at hcount
        push_cast at hcount
        have hpos : pos ≠ (N : Int) := by omega
        have hstep : i32 (pos + 1) = pos + 1 := by unfold i32; omega
        simp only [init_output_counted H name N a o pos s hs hua hauto
          (hname a (List.mem_cons_self _ _)) hpos, Option.some_bind, hstep]
        obtain ⟨s', hs', hsel, hrest⟩ :=
          ih j (o + 1) (pos + 1) s e hs hinfo' hname' (by omega) (by omega) (by omega) hget' hu
            (by omega) hc
        exact ⟨s', hs', by rw [hsel]; push_cast; omega, hrest⟩

theorem init_screens_cons (H : Header) (name : String) (sp : Int) (scr : Screen)
    (rest : List Screen) (s : State) :
    init_screens H name sp (scr :: rest) false s =
      (init_outputs H name sp scr.outputs 0 0 (select_root s scr)).bind
        (fun s1 => init_screens H name sp rest (decide (s1.m_desktop_output ≠ -1)) s1) := by
  rw [init_screens]
  rfl

theorem init_screens_detected (H : Header) (name : String) (sp : Int) (l : List Screen)
    (s : State) : init_screens H name sp l true s = some (true, s) := by
  cases l with
  | nil => rfl
  | cons scr rest => rw [init_screens]; rfl

/-- A screen with too few usable outputs is passed over. -/
theorem init_outputs_screen_miss (H : Header) (name : String) (N : Nat) (hN : N < 10)
    (hauto : name ≠ "auto") (s : State) (hs : s.m_desktop_output = -1) (scr : Screen)
    (hwf : screen_wf name scr) (hfew : (scr.outputs.filter usable).length ≤ N) :
    init_outputs H name (N : Int) scr.outputs 0 0 (select_root s scr)
      = some (select_root s scr) := by
  refine init_outputs_miss H name N hN hauto scr.outputs 0 0 (select_root s scr) hs
    (fun e he => find_entry_of_nodup scr.outputs hwf.1 e he)
    (fun e he => (hwf.2.2 e he).1) (le_refl _) ?_
  rw [zero_add]
  exact_mod_cast hfew

theorem init_screens_miss (H : Header) (name : String) (N : Nat) (hN : N < 10)
    (hauto : name ≠ "auto") :
    ∀ (screens : List Screen) (s : State), s.m_desktop_output = -1 →
      (∀ scr ∈ screens, screen_wf name scr) →
      (∀ scr ∈ screens, (scr.outputs.filter usable).length ≤ N) →
      ∃ s', init_screens H name (N : Int) screens false s = some (false, s') ∧
        s'.m_desktop_output = -1 := by
  intro screens
  induction screens with
  | nil => intro s hs _ _; exact ⟨s, rfl, hs⟩
  | cons scr rest ih =>
    intro s hs hwf hfew
    have hmiss := init_outputs_screen_miss H name N hN hauto s hs scr
      (hwf scr (List.mem_cons_self _ _)) (hfew scr (List.mem_cons_self _ _))
    have hs1 : (select_root s scr).m_desktop_output = -1 := hs
    have hd : decide ((select_root s scr).m_desktop_output ≠ -1) = false := by
      rw [hs1]; rfl
    rw [init_screens_cons, hmiss, Option.some_bind, hd]
    exact ih (select_root s scr) hs1 (fun x hx => hwf x (List.mem_cons_of_mem _ hx))
      (fun x hx => hfew x (List.mem_cons_of_mem _ hx))

theorem init_screens_hit (H : Header) (name : String) (N : Nat) (hN : N < 10)
    (hauto : name ≠ "auto") (scr : Screen) (post : List Screen) (o : Nat)
    (e : Nat × XRROutputInfo) (hwfs : screen_wf name scr)
    (hget : scr.outputs.get? o = some e) (hu : usable e = true)
    (hcount : ((scr.outputs.take o).filter usable).length = N) :
    ∀ (pre : List Screen) (s : State), s.m_desktop_output = -1 →
      (∀ p ∈ pre, screen_wf name p) →
      (∀ p ∈ pre, (p.outputs.filter usable).length ≤ N) →
      ∃ s', init_screens H name (N : Int) (pre ++ scr :: post) false s = some (true, s') ∧
        s'.m_desktop_output = o ∧ s'.outputs = scr.outputs ∧ s'.crtcs = scr.crtcs ∧
        s'.modes = scr.modes := by
  intro pre
  induction pre with
  | nil =>
    intro s hs _ _
    have hmem : e ∈ scr.outputs := List.get?_mem hget
    obtain ⟨s', hs', hsel, hout, hcr, hmo⟩ :=
      init_outputs_hit H name N hN hauto scr.outputs o 0 0 (select_root s scr) e hs
        (fun x hx => find_entry_of_nodup scr.outputs hwfs.1 x hx)
        (fun x hx => (hwfs.2.2 x hx).1) (le_refl _) (le_refl _)
        (by rw [zero_add]; exact hwfs.2.1) hget hu
        (by rw [zero_add]; exact_mod_cast hcount)
        (by
          obtain ⟨c, hc⟩ :=
            XRRGetCrtcInfo_of_mem (select_root s scr) e.2.crtc ((hwfs.2.2 e hmem).2 hu)
          rw [hc]
          exact Option.some_ne_none c)
    rw [zero_add] at hsel
    have hd : decide (s'.m_desktop_output ≠ -1) = true := by
      rw [hsel]; simp
    rw [List.nil_append, init_screens_cons, hs', Option.some_bind, hd, init_screens_detected]
    exact ⟨s', rfl, hsel, hout, hcr, hmo⟩
  | cons p rest ih =>
    intro s hs hwf hfew
    have hmiss := init_outputs_screen_miss H name N hN hauto s hs p
      (hwf p (List.mem_cons_self _ _)) (hfew p (List.mem_cons_self _ _))
    have hs1 : (select_root s p).m_desktop_output = -1 := hs
    have hd : decide ((select_root s p).m_desktop_output ≠ -1) = false := by
      rw [hs1]; rfl
    rw [List.cons_append, init_screens_cons, hmiss, Option.some_bind, hd]
    exact ih (select_root s p) hs1 (fun x hx => hwf x (List.mem_cons_of_mem _ hx))
      (fun x hx => hfew x (List.mem_cons_of_mem _ hx))

/-- C12 (as written, refuted): with the two connected outputs [A, B], of which
A is bound to no controller, the name "screen1" does not select B, the second
connected output: `init` counts only connected outputs bound to a controller,
B is at position 0, nothing is selected and `init` reports failure. -/
theorem init_ordinal_connected_counterexample :
    unbound_first_screen.outputs.map (fun e => (e.2.name, e.2.connection))
      = [("A", RR_Connected), ("B", RR_Connected)] ∧
    (∀ e ∈ unbound_first_screen.outputs, e.2.name ≠ "screen1") ∧
    init sample_header true true "screen1" [unbound_first_screen] fresh_state
      = some (false, select_root fresh_state unbound_first_screen) ∧
    (select_root fresh_state unbound_first_screen).m_desktop_output = -1 := by
  refine ⟨rfl, by decide, rfl, rfl⟩

/-- C12 (amended): for a digit N and screens none of whose outputs is named
"screenN", `init` with device name "screenN" on a fresh instance selects, on
the first screen that has more than N usable outputs (connected and bound to
a controller), the N-th (0-based) usable output of that screen in enumeration
order, stores its index and reports success; when no screen has more than N
usable outputs it selects nothing and reports failure. -/
theorem init_ordinal_selection (H : Header) (N : Nat) (hN : N < 10) (s : State)
    (hs : s.m_desktop_output = -1) (screens : List Screen)
    (hwf : ∀ scr ∈ screens, screen_wf (screen_name N) scr) :
    (∀ (pre : List Screen) (scr : Screen) (post : List Screen) (o : Nat)
        (e : Nat × XRROutputInfo),
      screens = pre ++ scr :: post →
      (∀ p ∈ pre, (p.outputs.filter usable).length ≤ N) →
      scr.outputs.get? o = some e → usable e = true →
      ((scr.outputs.take o).filter usable).length = N →
      ∃ s', init H true true (screen_name N) screens s = some (true, s') ∧
        s'.m_desktop_output = o ∧ s'.outputs = scr.outputs) ∧
    ((∀ scr ∈ screens, (scr.outputs.filter usable).length ≤ N) →
      ∃ s', init H true true (screen_name N) screens s = some (false, s') ∧
        s'.m_desktop_output = -1) := by
  obtain ⟨hpos, hauto⟩ := screen_name_pos N hN
  have hinit : init H true true (screen_name N) screens s
      = init_screens H (screen_name N) (N : Int) screens false s := by
    unfold init
    rw [hpos]
    rfl
  rw [hinit]
  constructor
  · intro pre scr post o e hsplit hfew hget hu hcount
    subst hsplit
    obtain ⟨s', hs', hsel, hout, _, _⟩ :=
      init_screens_hit H (screen_name N) N hN hauto scr post o e
        (hwf scr (List.mem_append_right _ (List.mem_cons_self _ _))) hget hu hcount pre s hs
        (fun p hp => hwf p (List.mem_append_left _ hp)) hfew
    exact ⟨s', hs', hsel, hout⟩
  · intro hfew
    exact init_screens_miss H (screen_name N) N hN hauto screens s hs hwf hfew

/-- Instance of `init_ordinal_selection`: with the two connected and bound
outputs [A, B] the name "screen1" selects B, at index 1. -/
theorem init_ordinal_selection_witness :
    ∃ s', init sample_header true true (screen_name 1) [two_output_screen] fresh_state
        = some (true, s') ∧
      s'.m_desktop_output = (1 : Nat) ∧ s'.outputs = two_output_screen.outputs :=
  (init_ordinal_selection sample_header 1 (by decide) fresh_state rfl [two_output_screen]
    (by
      intro scr hscr
      rw [List.mem_singleton] at hscr
      subst hscr
      refine ⟨by decide, by decide, ?_⟩
      decide)).1
    [] two_output_screen [] 1 (21, { name := "B", connection := 0, crtc := 11, modes := [100] })
    rfl (by simp) rfl rfl rfl

/-! ## Reply status of the re-enable -/

theorem XRRSetCrtcConfig_reply_fault (f : Bool) (s : State) (crtc : Nat) (x y : Int)
    (mode rotation : Nat) (outputs : List Nat) :
    XRRSetCrtcConfig_reply (if f then Reply.error else Reply.success) s crtc x y mode rotation
      outputs = XRRSetCrtcConfig f s crtc x y mode rotation outputs := by
  cases f <;> rfl

theorem disable_step_reply_faults (F : TimingFaults) (c crtc : Nat) (g : XRRCrtcInfo)
    (s : State) : disable_step_reply F.replies c crtc g s = disable_step F c crtc g s := by
  unfold disable_step_reply disable_step
  simp only [TimingFaults.replies, XRRSetCrtcConfig_reply_fault]

theorem enable_step_reply_faults (F : TimingFaults) (c crtc : Nat) (g : XRRCrtcInfo)
    (s : State) : enable_step_reply F.replies c crtc g s = enable_step F c crtc g s := by
  unfold enable_step_reply enable_step
  simp only [TimingFaults.replies, XRRSetCrtcConfig_reply_fault]

theorem disable_loop_reply_faults (F : TimingFaults) :
    ∀ (l : List (Nat × XRRCrtcInfo)) (c : Nat) (s : State),
      disable_loop_reply F.replies c l s = disable_loop F c l s := by
  intro l
  induction l with
  | nil => intro c s; rfl
  | cons p rest ih =>
    intro c s
    obtain ⟨crtc, g⟩ := p
    simp only [disable_loop_reply, disable_loop, disable_step_reply_faults, ih]

theorem enable_loop_reply_faults (F : TimingFaults) :
    ∀ (l : List (Nat × XRRCrtcInfo)) (c : Nat) (s : State),
      enable_loop_reply F.replies c l s = enable_loop F c l s := by
  intro l
  induction l with
  | nil => intro c s; rfl
  | cons p rest ih =>
    intro c s
    obtain ⟨crtc, g⟩ := p
    simp only [enable_loop_reply, enable_loop, enable_step_reply_faults, ih]

theorem resize_step_reply_faults (F : TimingFaults) (s : State) (w h : Nat) :
    resize_step F.replies.faults s w h = resize_step F s w h := rfl

theorem transaction_reply_faults (F : TimingFaults) (s : State) (out_crtc : Nat)
    (crtc_info : XRRCrtcInfo) (pxmode : XRRModeInfo) :
    transaction_reply F.replies s out_crtc crtc_info pxmode
      = transaction F s out_crtc crtc_info pxmode := by
  unfold transaction_reply transaction
  simp only [disable_loop_reply_faults, enable_loop_reply_faults, resize_step_reply_faults]

/-- When every failing request fails with an X error, the embedding with reply
status is `set_timing`. -/
theorem set_timing_reply_faults (H : Header) (F : TimingFaults) (s : State) (mode : modeline) :
    set_timing_reply H F.replies s mode = set_timing H F s mode := by
  unfold set_timing_reply set_timing
  simp only [transaction_reply_faults]

/-- C16 fails when the platform refuses a re-enable in its reply.  On the
two-controller sample, `set_timing` to mode 101 disables both controllers and
re-enables them; the re-enable of controller 11 is answered with a status other
than `RRSetConfigSuccess` and no X error.  `set_timing` returns true with
`m_xerrors = 0` while controller 11 is left switched off (mode 0); the two
requests issued for controller 11 are its disable and the one refused
re-enable.  The same refusal on the disable of controller 11, whose status the
code does test, makes `set_timing` return false, and so does an X error on the
re-enable. -/
theorem set_timing_enable_refused :
    (set_timing_reply sample_header refused_enable two_crtc_state (sample_request 101)).map
        (fun r => (r.1, r.2.m_xerrors, (XRRGetCrtcInfo r.2 11).map (fun c => c.mode),
          r.2.calls.filter (targets 11)))
      = some (true, 0, some 0,
          [Call.XRRSetCrtcConfig 11 0 0 0 RR_Rotate_0 [],
           Call.XRRSetCrtcConfig 11 800 0 100 1 [21]]) ∧
    (set_timing_reply sample_header refused_disable two_crtc_state (sample_request 101)).map
        (fun r => r.1) = some false ∧
    (set_timing_reply sample_header (fault_on_enable 1).replies two_crtc_state
        (sample_request 101)).map (fun r => r.1) = some false :=
  ⟨rfl, rfl, rfl⟩

/-! ## The pointer `find_mode` returns -/

theorem find_mode_scan_resources (pd resources : Nat) :
    ∀ (l : List XRRModeInfo) (m : Nat) (p : ModePointer),
      find_mode_scan pd resources l m = some p → p.resources = resources := by
  intro l
  induction l with
  | nil => intro m p h; simp [find_mode_scan] at h
  | cons x rest ih =>
    intro m p h
    unfold find_mode_scan at h
    by_cases hx : pd = x.id
    · rw [if_pos hx] at h
      cases h
      rfl
    · rw [if_neg hx] at h
      exact ih _ p h

/-- The pointer kept by the scan designates, in the array it scanned, the mode
that `find_mode` finds by value. -/
theorem find_mode_scan_value (pd resources : Nat) :
    ∀ (l pre : List XRRModeInfo),
      (find_mode_scan pd resources l pre.length).bind (fun p => (pre ++ l).get? p.m)
        = l.find? (fun m => pd == m.id) := by
  intro l
  induction l with
  | nil => intro pre; rfl
  | cons x rest ih =>
    intro pre
    unfold find_mode_scan
    by_cases hx : pd = x.id
    · have hb : (pd == x.id) = true := by simpa using hx
      rw [if_pos hx, List.find?_cons, hb]
      show (pre ++ x :: rest).get? pre.length = some x
      rw [List.get?_eq_getElem?, List.getElem?_append_right (le_refl _), Nat.sub_self]
      exact List.getElem?_cons_zero
    · have hb : (pd == x.id) = false := by simpa using hx
      rw [if_neg hx, List.find?_cons, hb]
      have h := ih (pre ++ [x])
      rw [List.length_append, List.length_singleton, List.append_assoc] at h
      exact h

/-- While the resources are still allocated, the pointer `find_mode` is about to
return designates the descriptor `find_mode` finds by value. -/
theorem find_mode_pointer_before_free (s : State) (heap : Heap) (mode : modeline) :
    (find_mode_pointer s heap mode).1.bind
        (read_mode (XRRGetScreenResourcesCurrent s heap).2)
      = find_mode s mode := by
  have hv := find_mode_scan_value mode.platform_data heap.blocks.length s.modes []
  rw [List.length_nil, List.nil_append] at hv
  have hfp : find_mode_pointer s heap mode
      = (find_mode_scan mode.platform_data heap.blocks.length s.modes 0,
          XRRFreeScreenResources { blocks := heap.blocks ++ [some s.modes] }
            heap.blocks.length) := rfl
  have hget : (XRRGetScreenResourcesCurrent s heap).2
      = { blocks := heap.blocks ++ [some s.modes] } := rfl
  unfold find_mode
  rw [← hv, hfp, hget]
  cases hscan : find_mode_scan mode.platform_data heap.blocks.length s.modes 0 with
  | none => rfl
  | some p =>
    have hres := find_mode_scan_resources _ _ _ _ _ hscan
    simp only [Option.some_bind]
    unfold read_mode
    simp [hres]

/-- The pointer `find_mode` returns is dangling: its block has been released
before the return, whatever the state, the storage and the request. -/
theorem find_mode_pointer_dangling (s : State) (heap : Heap) (mode : modeline)
    (p : ModePointer) (heap1 : Heap) (h : find_mode_pointer s heap mode = (some p, heap1)) :
    read_mode heap1 p = none := by
  have hfp : find_mode_pointer s heap mode
      = (find_mode_scan mode.platform_data heap.blocks.length s.modes 0,
          { blocks := (heap.blocks ++ [some s.modes]).set heap.blocks.length none }) := rfl
  rw [hfp] at h
  simp only [Prod.mk.injEq] at h
  obtain ⟨hscan, hheap⟩ := h
  have hres := find_mode_scan_resources _ _ _ _ _ hscan
  rw [← hheap]
  unfold read_mode
  simp [hres]

/-- C6 fails on the code: `find_mode` hands back freed storage.  The 640x480
sample request is created on the two-controller sample with handle 102;
`find_mode` on it fetches the resources (block 0), finds the mode at position
2, releases block 0 and returns the pointer to position 2 of that block.  While
the block was allocated the pointer designated the registered mode with the
request's clock and geometry; at the return the block is released, and a read
of the returned mode is a read of freed storage. -/
theorem find_mode_returns_freed_storage :
    ∃ s1 mode1,
      add_mode sample_header false false false two_crtc_state (some sample_timing)
        = some (true, s1, some mode1) ∧
      mode1.platform_data = 102 ∧
      find_mode_pointer s1 empty_heap mode1
        = (some { resources := 0, m := 2 }, { blocks := [none] }) ∧
      (read_mode (XRRGetScreenResourcesCurrent s1 empty_heap).2 { resources := 0, m := 2 }).map
          (fun xm => (xm.id, xm.dotClock, xm.width, xm.hSyncStart, xm.hSyncEnd, xm.hTotal,
            xm.height, xm.vSyncStart, xm.vSyncEnd, xm.vTotal))
        = some (102, 25175000, 640, 656, 752, 800, 480, 490, 492, 525) ∧
      read_mode { blocks := [none] } { resources := 0, m := 2 } = none :=
  ⟨_, _, rfl, rfl, rfl, rfl, rfl⟩

/-! ## The name buffer -/

/-- Where the rendering fits the buffer, the names in the buffer of two
instances with different ids differ. -/
theorem sprintf_name_unique (H : Header) (i j hactive vactive : Int) (vfreq : Rat)
    (ni nj : String) (hij : i ≠ j)
    (hi : sprintf_name H i hactive vactive vfreq = some ni)
    (hj : sprintf_name H j hactive vactive vfreq = some nj) : ni ≠ nj := by
  unfold sprintf_name at hi hj
  simp only at hi hj
  split at hi
  · split at hj
    · cases hi
      cases hj
      intro heq
      have hdata := congrArg String.data heq
      unfold mode_name at hdata
      simp only [String.data_append, List.append_assoc] at hdata
      have h1 := List.append_cancel_left hdata
      rw [← List.append_assoc, ← List.append_assoc (toString j).data] at h1
      have h2 := List.append_cancel_right h1
      have h3 := List.append_cancel_right h2
      apply hij
      rw [← read_decimal_toString i, ← read_decimal_toString j, h3]
    · exact absurd hj (by simp)
  · exact absurd hi (by simp)

/-- Where the name fits the buffer, `add_mode_buffer` is `add_mode`. -/
theorem add_mode_buffer_fits (H : Header) (fCreate fAttach fCleanup : Bool) (s : State)
    (mode : modeline) (name : String)
    (h : sprintf_name H s.m_id mode.hactive mode.vactive mode.vfreq = some name) :
    add_mode_buffer H fCreate fAttach fCleanup s (some mode)
      = add_mode H fCreate fAttach fCleanup s (some mode) := by
  by_cases hno : s.m_desktop_output = -1
  · simp only [add_mode_buffer, add_mode, if_pos hno]
  · simp only [add_mode_buffer, if_neg hno, h]

/-- C11 fails on the code for a long rendering: the name buffer of `add_mode`
overflows.  For the 640x480 request with a vertical frequency of 10^30 the
name `add_mode` sets up for instance 0 is the 51 character rendering
`SR-0_640x480_1000000000000000019884624838656.000000`; with its terminating
NUL it needs 52 bytes, and `sprintf` writes them to `char name[48]`, past the
end of the array: `add_mode` has no defined result, for instance 0 and for
instance 1 alike.  With the rendering `60.000000` of the frequency the name
fits, and `add_mode` registers the mode 102 under the name
`SR-0_640x480_60.000000`. -/
theorem add_mode_name_overflow :
    (make_xmode long_frequency_header 0 long_frequency_timing).name
      = "SR-0_640x480_1000000000000000019884624838656.000000" ∧
    (make_xmode long_frequency_header 0 long_frequency_timing).name.utf8ByteSize = 51 ∧
    add_mode_buffer long_frequency_header false false false two_crtc_state
      (some long_frequency_timing) = none ∧
    add_mode_buffer long_frequency_header false false false { two_crtc_state with m_id := 1 }
      (some long_frequency_timing) = none ∧
    (add_mode_buffer sample_header false false false two_crtc_state (some sample_timing)).map
        (fun r => (r.1, r.2.1.modes.map (fun m => (m.id, m.name))))
      = some (true, [(100, ""), (101, ""), (102, "SR-0_640x480_60.000000")]) :=
  ⟨rfl, rfl, rfl, rfl, rfl⟩

end Switchres
